import Mathlib

/-!
# SD Cloner engine: a shallow embedding of `sdcloner_engine.c`

The engine drives external tools through `system(3)` and `popen(3)`.  The
embedding makes the outside world an explicit parameter (`World`): it answers
every command from the text of the command and the texts of the commands issued
before it.  Every engine function threads the list of commands issued so far
(the lines the engine logs as `[CMD] ...`), so that statements about "which
commands are issued, in which order" are statements about that list.

Conventions.
* C strings are `String`s without NUL; `snprintf` into a buffer of `cap` bytes
  keeps the first `cap - 1` characters.
* `uint64_t` values are `Nat`s; every 64-bit addition is reduced `% 2 ^ 64`.
* `die(...)` ends the process: a function that can reach `die` returns an
  `Outcome`, whose `died` constructor names the call site.
* `unsigned long` is 64 bits wide (LP64), as on every Linux target of the tool.
-/

namespace SDCloner

/-! ## Constants -/

/-- The macro `MB(x)`: `x * 1024 * 1024` in `uint64_t`. -/
def MB (x : Nat) : Nat := (x * 1024 * 1024) % 2 ^ 64

/-- The macro `GB(x)`: `x * 1024 * 1024 * 1024` in `uint64_t`. -/
def GB (x : Nat) : Nat := (x * 1024 * 1024 * 1024) % 2 ^ 64

/-- The macro `SAFETY_MARGIN_BYTES`, defined as `MB(512)`. -/
def SAFETY_MARGIN_BYTES : Nat := MB 512

/-- Addition of two `uint64_t` values. -/
def add64 (a b : Nat) : Nat := (a + b) % 2 ^ 64

/-! ## String helpers of the C library -/

/-- Result of `snprintf(buf, cap, ...)` when the formatted text is `s`: the
first `cap - 1` characters (the last byte of the buffer holds the NUL). -/
def snprintf (cap : Nat) (s : String) : String := ⟨s.data.take (cap - 1)⟩

/-- Effect of `nl = strchr(s, '\n'); if (nl) *nl = '\0';`: the text before the
first newline. -/
def cut_at_newline (s : String) : String := ⟨s.data.takeWhile (fun c => c != '\n')⟩

/-- The tokens `strtok_r(s, "\n", &save)` returns one after the other: the
maximal non-empty runs of characters other than newline.  The second argument
is the run read so far, last character first. -/
def strtok_newline : List Char → List Char → List String
  | [], cur => if cur.isEmpty then [] else [⟨cur.reverse⟩]
  | c :: cs, cur =>
    if c = '\n' then
      (if cur.isEmpty then strtok_newline cs [] else ⟨cur.reverse⟩ :: strtok_newline cs [])
    else strtok_newline cs (c :: cur)

/-- The predicate `isspace` in the C locale. -/
def isspace (c : Char) : Bool :=
  c = ' ' || c = '\t' || c = '\n' || c = '\x0b' || c = '\x0c' || c = '\r'

/-- Value of a decimal digit character, if it is one. -/
def digit_value (c : Char) : Option Nat :=
  if '0' ≤ c ∧ c ≤ '9' then some (c.toNat - '0'.toNat) else none

/-- The digit loop of `strtoull`: reads the longest run of decimal digits and
returns the exact value read so far. -/
def read_digits : List Char → Nat → Nat
  | [], acc => acc
  | c :: cs, acc =>
    match digit_value c with
    | some d => read_digits cs (acc * 10 + d)
    | none => acc

/-- The library call `strtoull(s, NULL, 10)`: leading white space is skipped, an
optional sign is read, then decimal digits; a value that does not fit 64 bits
yields `ULLONG_MAX`, a leading minus sign negates the value in `uint64_t`, and a
text without digits yields 0. -/
def strtoull (s : String) : Nat :=
  let body := s.data.dropWhile isspace
  let neg := body.head? = some '-'
  let digits := if body.head? = some '-' ∨ body.head? = some '+' then body.tail else body
  let v := read_digits digits 0
  if v ≥ 2 ^ 64 then 2 ^ 64 - 1
  else if neg then (2 ^ 64 - v) % 2 ^ 64 else v

/-- The test `strstr(hay, needle) != NULL`: `needle` occurs somewhere in `hay`. -/
def strstr_found (needle : List Char) : List Char → Bool
  | [] => needle.isEmpty
  | c :: cs => needle.isPrefixOf (c :: cs) || strstr_found needle cs

/-- Decimal digits of a natural number, as `printf` writes them for `%d` and
`%lu` of a non-negative value. -/
def decimal (n : Nat) : String := ⟨Nat.toDigits 10 n⟩

/-- The conversion `%0<width>d` of `printf`: the sign, if any, then zeros up to
the field width, then the digits. -/
def fmt_0d (width : Nat) (v : Int) : String :=
  if v < 0 then
    ⟨'-' :: (List.replicate (width - 1 - (Nat.toDigits 10 v.natAbs).length) '0'
      ++ Nat.toDigits 10 v.natAbs)⟩
  else
    ⟨List.replicate (width - (Nat.toDigits 10 v.natAbs).length) '0'
      ++ Nat.toDigits 10 v.natAbs⟩

/-! ## Commands -/

/-- One constructor per command line the engine builds; `Cmd.text` is the exact
text handed to the shell. -/
inductive Cmd where
  /-- Partition listing of `list_partitions`. -/
  | lsblkParts (disk : String)
  /-- Filesystem probe of `get_fstype`. -/
  | blkidType (part : String)
  /-- Mountpoint query of `compute_used_bytes_sum`. -/
  | lsblkMountpoint (part : String)
  /-- Scratch directory creation of `compute_used_bytes_sum`. -/
  | sudoMkdirP (mnt : String)
  /-- Read-only scratch mount of `compute_used_bytes_sum`. -/
  | mountRoQuiet (part mnt : String)
  /-- Disk-usage query of `compute_used_bytes_sum`. -/
  | dfUsed (mnt : String)
  /-- Scratch unmount of `compute_used_bytes_sum`. -/
  | sudoUmount (mnt : String)
  /-- Scratch directory removal of `compute_used_bytes_sum`. -/
  | sudoRmdir (mnt : String)
  /-- Image directory creation of `ensure_image_dir`. -/
  | mkdirP (dir : String)
  /-- Raw imaging pipeline of `make_raw_image_gz`. -/
  | ddGzip (src out : String)
  /-- Image allocation of `make_fsaware_image_fit`. -/
  | truncateS (bytes : Nat) (path : String)
  /-- Query for a free loop device. -/
  | losetupFind
  /-- Loop attach with partition scanning. -/
  | losetupAttach (loop path : String)
  /-- Partition table write. -/
  | partedMklabel (loop : String)
  /-- Partition creation. -/
  | partedMkpart (loop : String)
  /-- Lookup of the first partition node of the loop device. -/
  | lsLoopP1 (loop : String)
  /-- FAT32 formatting. -/
  | mkfsVfat (node : String)
  /-- Creation of the two fixed mountpoints of the Fit Imager. -/
  | mkdirMounts
  /-- Read-only mount of a source partition for mirroring. -/
  | mountSrcRo (part mnt : String)
  /-- Mount of the image partition. -/
  | mountTgt (node mnt : String)
  /-- Mirror from the source mountpoint to the image mountpoint. -/
  | rsyncMirror
  /-- Flush of pending writes. -/
  | sync
  /-- Unmount of the image mountpoint. -/
  | umountImg
  /-- Unmount of the source mountpoint. -/
  | umountSrc
  /-- Loop detach. -/
  | losetupDetach (loop : String)
  /-- Unmount of the partitions of the destination, in `burn_image_to_disk`. -/
  | umountDest (dest : String)
  /-- Write pipeline of `burn_image_to_disk`; `reader` is its read stage. -/
  | burnPipe (reader image dest : String)
  deriving DecidableEq, Repr

/-- The command line of a command, as the engine formats it (buffer sizes as
declared in the source). -/
def Cmd.text : Cmd → String
  | .lsblkParts disk =>
    snprintf 512 ("lsblk -rno PATH,TYPE '" ++ disk ++ "' | awk '$2==\"part\"\x7bprint $1\x7d'")
  | .blkidType part => snprintf 512 ("blkid -o value -s TYPE '" ++ part ++ "' 2>/dev/null")
  | .lsblkMountpoint part => snprintf 512 ("lsblk -rno MOUNTPOINT '" ++ part ++ "' | head -n1")
  | .sudoMkdirP mnt => snprintf 256 ("sudo mkdir -p '" ++ mnt ++ "'")
  | .mountRoQuiet part mnt =>
    snprintf 512 ("sudo mount -o ro '" ++ part ++ "' '" ++ mnt ++ "' 2>/dev/null")
  | .dfUsed mnt => snprintf 512 ("df --output=used -B1 '" ++ mnt ++ "' | tail -n1")
  | .sudoUmount mnt => snprintf 256 ("sudo umount '" ++ mnt ++ "'")
  | .sudoRmdir mnt => snprintf 256 ("sudo rmdir '" ++ mnt ++ "'")
  | .mkdirP dir => snprintf 512 ("mkdir -p '" ++ dir ++ "'")
  | .ddGzip src out =>
    snprintf 1024 ("sudo dd if='" ++ src ++ "' bs=4M status=progress | gzip > '" ++ out ++ "'")
  | .truncateS bytes path =>
    snprintf 512 ("truncate -s " ++ decimal bytes ++ " '" ++ path ++ "'")
  | .losetupFind => "sudo losetup -f"
  | .losetupAttach loop path => snprintf 512 ("sudo losetup -P '" ++ loop ++ "' '" ++ path ++ "'")
  | .partedMklabel loop => snprintf 512 ("sudo parted -s '" ++ loop ++ "' mklabel msdos")
  | .partedMkpart loop =>
    snprintf 512 ("sudo parted -s '" ++ loop ++ "' mkpart primary fat32 1MiB 100%")
  | .lsLoopP1 loop => snprintf 512 ("ls '" ++ loop ++ "p1' 2>/dev/null")
  | .mkfsVfat node => snprintf 512 ("sudo mkfs.vfat -F32 -n CLONE '" ++ node ++ "'")
  | .mkdirMounts => "sudo mkdir -p /mnt/sdcloner_src /mnt/sdcloner_img"
  | .mountSrcRo part mnt => snprintf 512 ("sudo mount -o ro '" ++ part ++ "' '" ++ mnt ++ "'")
  | .mountTgt node mnt => snprintf 512 ("sudo mount '" ++ node ++ "' '" ++ mnt ++ "'")
  | .rsyncMirror => "sudo rsync -aHAX --numeric-ids /mnt/sdcloner_src/ /mnt/sdcloner_img/"
  | .sync => "sync"
  | .umountImg => "sudo umount /mnt/sdcloner_img"
  | .umountSrc => "sudo umount /mnt/sdcloner_src"
  | .losetupDetach loop => snprintf 512 ("sudo losetup -d '" ++ loop ++ "'")
  | .umountDest dest =>
    snprintf 512 ("lsblk -rno MOUNTPOINT '" ++ dest
      ++ "' | tail -n+2 | xargs -r -n1 sudo umount 2>/dev/null")
  | .burnPipe reader image dest =>
    snprintf 1024 (reader ++ " '" ++ image ++ "' | sudo dd of='" ++ dest
      ++ "' bs=4M status=progress conv=fsync")

/-- Commands issued so far, oldest first. -/
abbrev Trace := List Cmd

/-! ## The outside world -/

/-- What `system(3)` reports for a command. -/
inductive SysResult where
  /-- The call returned -1: no child process could be created. -/
  | failed
  /-- The child exited normally (`WIFEXITED`) with this `WEXITSTATUS`. -/
  | exited (code : Nat)
  /-- The child ended otherwise, for instance by a signal. -/
  | abnormal
  deriving DecidableEq, Repr

/-- What opening a block device and asking `BLKGETSIZE64` reports. -/
inductive SizeQuery where
  /-- The call `open` failed. -/
  | openFailed
  /-- The call `ioctl` failed. -/
  | ioctlFailed
  /-- The device reported this size in bytes. -/
  | size (bytes : Nat)
  deriving DecidableEq, Repr

/-- The fields of `struct tm` that `timestamp_path` prints. -/
structure Tm where
  tm_year : Int
  tm_mon : Int
  tm_mday : Int
  tm_hour : Int
  tm_min : Int
  tm_sec : Int
  deriving DecidableEq, Repr

/-- Everything outside the engine.  Commands are answered from their text and
the texts of the commands issued before them. -/
structure World where
  /-- Whether `access(path, R_OK)` returns 0. -/
  readable : String → Bool
  /-- Answer of the size query on a device node. -/
  blockdev : String → SizeQuery
  /-- The environment variable `HOME`. -/
  home : Option String
  /-- The local time read by `timestamp_path`, given the commands issued so far. -/
  localtime : List String → Tm
  /-- Answer of `system(cmd)`. -/
  system : List String → String → SysResult
  /-- Answer of `popen(cmd, "r")`: `none` when the pipe cannot be opened,
  otherwise the whole standard output of the command. -/
  popen : List String → String → Option String

/-- Where a call of `die` sits in the source. -/
inductive Die where
  /-- Message `Source %s not readable`. -/
  | sourceNotReadable
  /-- Message `open(%s): %s`. -/
  | openFailed
  /-- Message `ioctl(BLKGETSIZE64 %s): %s`. -/
  | ioctlFailed
  /-- Message `No partitions found on %s`. -/
  | noPartitions
  /-- Message `Destination capacity too small: need ~%lu MB, have ~%lu MB`. -/
  | capacityTooSmall
  /-- Message `Failed to create image file`. -/
  | createImageFailed
  /-- Message `losetup -f failed`. -/
  | losetupFindFailed
  /-- Message `losetup -P failed`. -/
  | losetupAttachFailed
  /-- Message `parted mklabel failed`. -/
  | mklabelFailed
  /-- Message `parted mkpart failed`. -/
  | mkpartFailed
  /-- Message `Could not find loop partition node`. -/
  | loopNodeMissing
  /-- Message `mkfs target failed`. -/
  | mkfsFailed
  /-- Message `No source partitions`. -/
  | noSourcePartitions
  /-- Message `mount source failed`. -/
  | mountSourceFailed
  /-- Message `mount target failed`. -/
  | mountTargetFailed
  /-- Message `Future destination too small (need ~%.2f GB incl. margin)`. -/
  | futureDestTooSmall
  /-- Message `Destination smaller than used data + margin (need ~%.2f GB)`. -/
  | destTooSmall
  deriving DecidableEq, Repr

/-- How a function that may call `die` ends. -/
inductive Outcome (α : Type) where
  /-- The function returned this value. -/
  | ret (a : α)
  /-- The process exited through `die` at this site. -/
  | died (d : Die)
  deriving DecidableEq, Repr

/-! ## Process runner -/

/-- The function `run_cmd` of the source (the name is reserved in Lean): logs the command, runs it with `system`, and returns
-1 when the call fails or the child did not exit normally, else the exit status. -/
def runCmd (w : World) (tr : Trace) (c : Cmd) : Int × Trace :=
  (match w.system (tr.map Cmd.text) c.text with
    | .failed => -1
    | .exited code => ((code % 256 : Nat) : Int)
    | .abnormal => -1,
   tr ++ [c])

/-- The function `run_cmd_capture` of the source: logs the command and returns its standard
output; `NULL` (here `none`) when `popen` fails and also when the command wrote
nothing, since the buffer is only allocated by the first line read. -/
def runCmdCapture (w : World) (tr : Trace) (c : Cmd) : Option String × Trace :=
  (match w.popen (tr.map Cmd.text) c.text with
    | none => none
    | some s => if s.data.isEmpty then none else some s,
   tr ++ [c])

/-! ## Device inspector -/

/-- The function `get_blockdev_size_bytes`. -/
def get_blockdev_size_bytes (w : World) (devnode : String) : Outcome Nat :=
  match w.blockdev devnode with
  | .openFailed => .died .openFailed
  | .ioctlFailed => .died .ioctlFailed
  | .size bytes => .ret (bytes % 2 ^ 64)

/-- The function `list_partitions`: the non-empty lines of the lister output,
in order; the empty sequence when there is no output. -/
def list_partitions (w : World) (tr : Trace) (disk : String) : List String × Trace :=
  let r := runCmdCapture w tr (.lsblkParts disk)
  (match r.1 with
    | none => []
    | some out => strtok_newline out.data [],
   r.2)

/-- The function `get_fstype`. -/
def get_fstype (w : World) (tr : Trace) (part : String) : String × Trace :=
  let r := runCmdCapture w tr (.blkidType part)
  (match r.1 with
    | none => "unknown"
    | some out => if (cut_at_newline out).data.isEmpty then "unknown" else cut_at_newline out,
   r.2)

/-! ## Usage estimator -/

/-- The test on the filesystem type in `compute_used_bytes_sum`. -/
def supported_fs (fs : String) : Bool :=
  fs = "ext2" || fs = "ext3" || fs = "ext4" || fs = "vfat" || fs = "fat" || fs = "fat32"
    || fs = "exfat"

/-- Name of the scratch mountpoint for the partition at index `i`:
`snprintf(mnt, sizeof(mnt), "/mnt/sdcloner_src_%d", i)` with `char mnt[128]`. -/
def scratch_mnt (i : Nat) : String := snprintf 128 ("/mnt/sdcloner_src_" ++ decimal i)

/-- The block `if (mnt[0]) { ... }` of `compute_used_bytes_sum`: the disk-usage
query on `mnt` and the addition of what it reports to the running total. -/
def usage_query (w : World) (tr : Trace) (mnt : String) (sum : Nat) : Nat × Trace :=
  if mnt.data.isEmpty then (sum, tr)
  else
    let used := runCmdCapture w tr (.dfUsed mnt)
    (match used.1 with
      | none => sum
      | some out => add64 sum (strtoull out),
     used.2)

/-- The test `!mp || strlen(mp)==0` on the mountpoint the lister reported. -/
def no_mountpoint (mp : Option String) : Bool :=
  match mp with
  | none => true
  | some m => m.data.isEmpty

/-- Body of the loop of `compute_used_bytes_sum` for the partition `part` at
index `i`, with running total `sum`. -/
def used_bytes_step (w : World) (tr : Trace) (i : Nat) (part : String) (sum : Nat) :
    Nat × Trace :=
  let fs := get_fstype w tr part
  let q := runCmdCapture w fs.2 (.lsblkMountpoint part)
  let mp : Option String := q.1.map cut_at_newline
  if supported_fs fs.1 then
    if no_mountpoint mp then
      -- mount read-only on a scratch directory; `temp_mount` is `mount.1 = 0`
      let mk := runCmd w q.2 (.sudoMkdirP (scratch_mnt i))
      let mount := runCmd w mk.2 (.mountRoQuiet part (scratch_mnt i))
      let df := usage_query w mount.2 (scratch_mnt i) sum
      if mount.1 = 0 then
        (df.1, (runCmd w (runCmd w df.2 (.sudoUmount (scratch_mnt i))).2
          (.sudoRmdir (scratch_mnt i))).2)
      else df
    else
      -- `strncpy(mnt, mp, sizeof(mnt)-1)` with `char mnt[128]`; `temp_mount` stays false
      usage_query w q.2 ⟨(mp.getD "").data.take 127⟩ sum
  else (sum, q.2)

/-- The loop of `compute_used_bytes_sum` over the partitions from index `i` on. -/
def used_bytes_loop (w : World) : Trace → Nat → List String → Nat → Nat × Trace
  | tr, _, [], sum => (sum, tr)
  | tr, i, part :: rest, sum =>
    used_bytes_loop w (used_bytes_step w tr i part sum).2 (i + 1) rest
      (used_bytes_step w tr i part sum).1

/-- The function `compute_used_bytes_sum`. -/
def compute_used_bytes_sum (w : World) (tr : Trace) (disk : String) : Nat × Trace :=
  let parts := list_partitions w tr disk
  if parts.1.length = 0 then (0, parts.2)
  else used_bytes_loop w parts.2 0 parts.1 0

/-! ## Imagers and burner -/

/-- The function `ensure_image_dir` with a buffer of `cap` bytes: returns the
directory name. -/
def ensure_image_dir (w : World) (tr : Trace) (cap : Nat) : String × Trace :=
  let home := w.home.getD "/tmp"
  let out_dir := snprintf cap (home ++ "/SDCloner/images")
  (out_dir, (runCmd w tr (.mkdirP out_dir)).2)

/-- The function `timestamp_path` with an output buffer of `cap` bytes. -/
def timestamp_path (w : World) (tr : Trace) (cap : Nat) (dir ext : String) : String :=
  let tmv := w.localtime (tr.map Cmd.text)
  snprintf cap (dir ++ "/clone-"
    ++ fmt_0d 4 (1900 + tmv.tm_year) ++ fmt_0d 2 (1 + tmv.tm_mon) ++ fmt_0d 2 tmv.tm_mday
    ++ "-" ++ fmt_0d 2 tmv.tm_hour ++ fmt_0d 2 tmv.tm_min ++ fmt_0d 2 tmv.tm_sec
    ++ "." ++ ext)

/-- The function `make_raw_image_gz`: returns the exit status and the path
written to `out_path`. -/
def make_raw_image_gz (w : World) (tr : Trace) (src_disk : String) (out_cap : Nat) :
    (Int × String) × Trace :=
  let dir := ensure_image_dir w tr 256
  let out_path := timestamp_path w dir.2 out_cap dir.1 "img.gz"
  let rc := runCmd w dir.2 (.ddGzip src_disk out_path)
  ((rc.1, out_path), rc.2)

/-- The function `make_fsaware_image_fit`: returns the exit status of the mirror
and the path written to `out_path`, or ends in `die`. -/
def make_fsaware_image_fit (w : World) (tr : Trace) (src_disk : String) (target_bytes : Nat)
    (out_cap : Nat) : Outcome (Int × String) × Trace :=
  let parts := list_partitions w tr src_disk
  if parts.1.length = 0 then (.died .noPartitions, parts.2) else
  let used := compute_used_bytes_sum w parts.2 src_disk
  let need := add64 used.1 SAFETY_MARGIN_BYTES
  if need > target_bytes then (.died .capacityTooSmall, used.2) else
  let dir := ensure_image_dir w used.2 256
  let out_path := timestamp_path w dir.2 out_cap dir.1 "img"
  let falloc := runCmd w dir.2 (.truncateS target_bytes out_path)
  if falloc.1 ≠ 0 then (.died .createImageFailed, falloc.2) else
  let lp := runCmdCapture w falloc.2 .losetupFind
  match lp.1 with
  | none => (.died .losetupFindFailed, lp.2)
  | some loop0 =>
  let loop := cut_at_newline loop0
  let set := runCmd w lp.2 (.losetupAttach loop out_path)
  if set.1 ≠ 0 then (.died .losetupAttachFailed, set.2) else
  let mklabel := runCmd w set.2 (.partedMklabel loop)
  if mklabel.1 ≠ 0 then (.died .mklabelFailed, mklabel.2) else
  let mkpart := runCmd w mklabel.2 (.partedMkpart loop)
  if mkpart.1 ≠ 0 then (.died .mkpartFailed, mkpart.2) else
  let q := runCmdCapture w mkpart.2 (.lsLoopP1 loop)
  match q.1.map cut_at_newline with
  | none => (.died .loopNodeMissing, q.2)
  | some loop_p1 =>
  if loop_p1.data.isEmpty then (.died .loopNodeMissing, q.2) else
  let mkfs := runCmd w q.2 (.mkfsVfat loop_p1)
  if mkfs.1 ≠ 0 then (.died .mkfsFailed, mkfs.2) else
  let msrc := snprintf 64 "/mnt/sdcloner_src"
  let mtgt := snprintf 64 "/mnt/sdcloner_img"
  let mk := runCmd w mkfs.2 .mkdirMounts
  let sp := list_partitions w mk.2 src_disk
  match sp.1 with
  | [] => (.died .noSourcePartitions, sp.2)
  | sp0 :: _ =>
  let m1 := runCmd w sp.2 (.mountSrcRo sp0 msrc)
  if m1.1 ≠ 0 then (.died .mountSourceFailed, m1.2) else
  let m2 := runCmd w m1.2 (.mountTgt loop_p1 mtgt)
  if m2.1 ≠ 0 then (.died .mountTargetFailed, (runCmd w m2.2 .umountSrc).2) else
  let rc := runCmd w m2.2 .rsyncMirror
  let s1 := runCmd w rc.2 .sync
  let s2 := runCmd w s1.2 .umountImg
  let s3 := runCmd w s2.2 .umountSrc
  let dt := runCmd w s3.2 (.losetupDetach loop)
  (.ret (rc.1, out_path), dt.2)

/-- The function `burn_image_to_disk`. -/
def burn_image_to_disk (w : World) (tr : Trace) (image_path dest_disk : String) :
    Int × Trace :=
  let um := runCmd w tr (.umountDest dest_disk)
  let gz := if strstr_found ".gz".data image_path.data then "gzip -dc" else "cat"
  runCmd w um.2 (.burnPipe gz image_path dest_disk)

/-- Size of the buffer `outpath` in `sdcloner_clone`. -/
def OUTPATH_CAP : Nat := 512

/-- The function `sdcloner_clone`.  A `NULL` pointer is `none`. -/
def sdcloner_clone (w : World) (tr : Trace) (src_disk dest_disk : Option String)
    (dest_capacity_hint : Nat) : Outcome Int × Trace :=
  match src_disk with
  | none => (.died .sourceNotReadable, tr)
  | some src =>
  if w.readable src = false then (.died .sourceNotReadable, tr) else
  match get_blockdev_size_bytes w src with
  | .died d => (.died d, tr)
  | .ret src_bytes =>
  let used := compute_used_bytes_sum w tr src
  if dest_disk.isNone ∨ dest_disk = some "" then
    if dest_capacity_hint ≠ 0 ∧ dest_capacity_hint < src_bytes then
      if add64 used.1 SAFETY_MARGIN_BYTES ≤ dest_capacity_hint then
        match make_fsaware_image_fit w used.2 src dest_capacity_hint OUTPATH_CAP with
        | (.died d, t) => (.died d, t)
        | (.ret r, t) => (.ret r.1, t)
      else (.died .futureDestTooSmall, used.2)
    else
      let rc := make_raw_image_gz w used.2 src OUTPATH_CAP
      (.ret rc.1.1, rc.2)
  else
    let dest := dest_disk.getD ""
    match get_blockdev_size_bytes w dest with
    | .died d => (.died d, used.2)
    | .ret dst_bytes =>
    if dst_bytes ≥ src_bytes then
      let rc1 := make_raw_image_gz w used.2 src OUTPATH_CAP
      if rc1.1.1 ≠ 0 then (.ret rc1.1.1, rc1.2)
      else
        let b := burn_image_to_disk w rc1.2 rc1.1.2 dest
        (.ret b.1, b.2)
    else
      if add64 used.1 SAFETY_MARGIN_BYTES > dst_bytes then (.died .destTooSmall, used.2)
      else
        match make_fsaware_image_fit w used.2 src dst_bytes OUTPATH_CAP with
        | (.died d, t) => (.died d, t)
        | (.ret r, t) =>
          if r.1 ≠ 0 then (.ret r.1, t)
          else
            let b := burn_image_to_disk w t r.2 dest
            (.ret b.1, b.2)

/-! ## Vocabulary for statements about runs -/

/-- Whether the text `s` starts with `p`. -/
def startsWith (p s : String) : Bool := p.data.isPrefixOf s.data


/-- What a command does to the system, by its command word. -/
inductive CmdKind where
  | query | usage | scratchDir | mount | unmount | imageDir | rawImage | allocate
  | loopSetup | partitioning | format | mirror | flush | burn
  deriving DecidableEq, Repr

/-- Kind of each command. -/
def Cmd.kind : Cmd → CmdKind
  | .lsblkParts _ => .query
  | .blkidType _ => .query
  | .lsblkMountpoint _ => .query
  | .sudoMkdirP _ => .scratchDir
  | .mountRoQuiet _ _ => .mount
  | .dfUsed _ => .usage
  | .sudoUmount _ => .unmount
  | .sudoRmdir _ => .scratchDir
  | .mkdirP _ => .imageDir
  | .ddGzip _ _ => .rawImage
  | .truncateS _ _ => .allocate
  | .losetupFind => .query
  | .losetupAttach _ _ => .loopSetup
  | .partedMklabel _ => .partitioning
  | .partedMkpart _ => .partitioning
  | .lsLoopP1 _ => .query
  | .mkfsVfat _ => .format
  | .mkdirMounts => .scratchDir
  | .mountSrcRo _ _ => .mount
  | .mountTgt _ _ => .mount
  | .rsyncMirror => .mirror
  | .sync => .flush
  | .umountImg => .unmount
  | .umountSrc => .unmount
  | .losetupDetach _ => .loopSetup
  | .umountDest _ => .burn
  | .burnPipe _ _ _ => .burn

/-- The commands built in `list_partitions`, `get_fstype` and
`compute_used_bytes_sum`. -/
def Cmd.isEstimator : Cmd → Bool
  | .lsblkParts _ => true
  | .blkidType _ => true
  | .lsblkMountpoint _ => true
  | .sudoMkdirP _ => true
  | .mountRoQuiet _ _ => true
  | .dfUsed _ => true
  | .sudoUmount _ => true
  | .sudoRmdir _ => true
  | _ => false

/-- Value the disk-usage query on `mnt` reports when issued after `hist`. -/
def df_value (w : World) (hist : Trace) (mnt : String) : Nat :=
  match (runCmdCapture w hist (.dfUsed mnt)).1 with
  | none => 0
  | some out => strtoull out

/-- Sum, in exact arithmetic, of the values reported by the disk-usage queries
among the commands `ext`, which are issued one after the other after `hist`. -/
def reported_used (w : World) : Trace → Trace → Nat
  | _, [] => 0
  | hist, c :: ext =>
    (match c with
      | .dfUsed mnt => df_value w hist mnt
      | _ => 0) + reported_used w (hist ++ [c]) ext

/-- The commands `ext`, issued after `hist`, fall into one segment per partition
of `parts`, in order: a partition whose filesystem type is not supported has
only its two queries (type and mountpoint); a supported one has these two
queries and exactly one disk-usage query, around which only directory, mount
and unmount commands stand. -/
def usage_segments (w : World) : Trace → List String → Trace → Prop
  | _, [], ext => ext = []
  | hist, p :: ps, ext =>
    ∃ seg rest, ext = seg ++ rest ∧ usage_segments w (hist ++ seg) ps rest ∧
      if supported_fs (get_fstype w hist p).1 = true then
        ∃ pre mnt post, seg = [.blkidType p, .lsblkMountpoint p] ++ pre ++ [.dfUsed mnt] ++ post
          ∧ ∀ c ∈ pre ++ post, c.kind ≠ .usage ∧ c.kind ≠ .query
      else seg = [.blkidType p, .lsblkMountpoint p]

/-- The commands `make_fsaware_image_fit` builds, those of its used-bytes
measurement included. -/
def Cmd.isFitImager : Cmd → Bool
  | .mkdirP _ => true
  | .truncateS _ _ => true
  | .losetupFind => true
  | .losetupAttach _ _ => true
  | .partedMklabel _ => true
  | .partedMkpart _ => true
  | .lsLoopP1 _ => true
  | .mkfsVfat _ => true
  | .mkdirMounts => true
  | .mountSrcRo _ _ => true
  | .mountTgt _ _ => true
  | .rsyncMirror => true
  | .sync => true
  | .umountImg => true
  | .umountSrc => true
  | .losetupDetach _ => true
  | c => c.isEstimator

/-- The trace `tr2` continues `tr1` by commands that all satisfy `P`. -/
def Extends (P : Cmd → Bool) (tr1 tr2 : Trace) : Prop :=
  ∃ ext, tr2 = tr1 ++ ext ∧ ∀ c ∈ ext, P c = true

/-! ## The body of `make_fsaware_image_fit`, cut into consecutive parts -/
/-- Lines 281 to 294 of `make_fsaware_image_fit`: mirror and teardown. -/
def fit_mirror (w : World) (tr : Trace) (loop out_path : String) :
    Outcome (Int × String) × Trace :=
  let rc := runCmd w tr .rsyncMirror
  let s1 := runCmd w rc.2 .sync
  let s2 := runCmd w s1.2 .umountImg
  let s3 := runCmd w s2.2 .umountSrc
  let dt := runCmd w s3.2 (.losetupDetach loop)
  (.ret (rc.1, out_path), dt.2)

/-- Lines 264 to 279 of `make_fsaware_image_fit`: the two mounts. -/
def fit_mount (w : World) (tr : Trace) (src_disk loop loop_p1 out_path : String) :
    Outcome (Int × String) × Trace :=
  let msrc := snprintf 64 "/mnt/sdcloner_src"
  let mtgt := snprintf 64 "/mnt/sdcloner_img"
  let mk := runCmd w tr .mkdirMounts
  let sp := list_partitions w mk.2 src_disk
  match sp.1 with
  | [] => (.died .noSourcePartitions, sp.2)
  | sp0 :: _ =>
  let m1 := runCmd w sp.2 (.mountSrcRo sp0 msrc)
  if m1.1 ≠ 0 then (.died .mountSourceFailed, m1.2) else
  let m2 := runCmd w m1.2 (.mountTgt loop_p1 mtgt)
  if m2.1 ≠ 0 then (.died .mountTargetFailed, (runCmd w m2.2 .umountSrc).2) else
  fit_mirror w m2.2 loop out_path

/-- Lines 251 to 262 of `make_fsaware_image_fit`: partition node and format. -/
def fit_format (w : World) (tr : Trace) (src_disk loop out_path : String) :
    Outcome (Int × String) × Trace :=
  let q := runCmdCapture w tr (.lsLoopP1 loop)
  match q.1.map cut_at_newline with
  | none => (.died .loopNodeMissing, q.2)
  | some loop_p1 =>
  if loop_p1.data.isEmpty then (.died .loopNodeMissing, q.2) else
  let mkfs := runCmd w q.2 (.mkfsVfat loop_p1)
  if mkfs.1 ≠ 0 then (.died .mkfsFailed, mkfs.2) else
  fit_mount w mkfs.2 src_disk loop loop_p1 out_path

/-- Lines 231 to 249 of `make_fsaware_image_fit`: allocation, loop attach and
partitioning. -/
def fit_attach (w : World) (tr : Trace) (src_disk : String) (target_bytes : Nat)
    (out_path : String) : Outcome (Int × String) × Trace :=
  let falloc := runCmd w tr (.truncateS target_bytes out_path)
  if falloc.1 ≠ 0 then (.died .createImageFailed, falloc.2) else
  let lp := runCmdCapture w falloc.2 .losetupFind
  match lp.1 with
  | none => (.died .losetupFindFailed, lp.2)
  | some loop0 =>
  let loop := cut_at_newline loop0
  let set := runCmd w lp.2 (.losetupAttach loop out_path)
  if set.1 ≠ 0 then (.died .losetupAttachFailed, set.2) else
  let mklabel := runCmd w set.2 (.partedMklabel loop)
  if mklabel.1 ≠ 0 then (.died .mklabelFailed, mklabel.2) else
  let mkpart := runCmd w mklabel.2 (.partedMkpart loop)
  if mkpart.1 ≠ 0 then (.died .mkpartFailed, mkpart.2) else
  fit_format w mkpart.2 src_disk loop out_path

/-- The directory name `ensure_image_dir` writes into `char dir[256]`. -/
def image_dir (w : World) : String := snprintf 256 (w.home.getD "/tmp" ++ "/SDCloner/images")

/-- The commands of a complete run of `make_fsaware_image_fit`, from the image
directory on, in the order of the source. -/
def fit_commands (T : Nat) (dir path loop p1 src sp0 : String) : List Cmd :=
  [.mkdirP dir, .truncateS T path, .losetupFind, .losetupAttach loop path,
   .partedMklabel loop, .partedMkpart loop, .lsLoopP1 loop, .mkfsVfat p1,
   .mkdirMounts, .lsblkParts src, .mountSrcRo sp0 "/mnt/sdcloner_src",
   .mountTgt p1 "/mnt/sdcloner_img",
   .rsyncMirror, .sync, .umountImg, .umountSrc, .losetupDetach loop]

/-- Number of commands of `fit_commands` issued when `make_fsaware_image_fit`
ends in `die` at the given site (the site `mountTargetFailed`, which issues one
more command, is described apart). -/
def fit_die_at : Die → Option Nat
  | .createImageFailed => some 2
  | .losetupFindFailed => some 3
  | .losetupAttachFailed => some 4
  | .mklabelFailed => some 5
  | .mkpartFailed => some 6
  | .loopNodeMissing => some 7
  | .mkfsFailed => some 8
  | .noSourcePartitions => some 10
  | .mountSourceFailed => some 11
  | _ => none

/-- The ways `make_fsaware_image_fit` can end once its capacity check has passed,
`base` being the commands issued until then: in `die` after a prefix of
`fit_commands`, in `die` after the failed mount of the image partition and the
unmount of the source, or by returning the status of the mirror.  The names
`loop`, `p1` and `sp0` are the first line of what the free-loop-device query
printed, the first line of what the partition-node lookup printed, and the first
partition of the second listing of the source. -/
def FitTail (w : World) (base : Trace) (src : String) (T : Nat) (dir path loop p1 sp0 : String)
    (r : Outcome (Int × String) × Trace) : Prop :=
  let L := fit_commands T dir path loop p1 src sp0
  let loopFrom : Prop := ∃ out, (runCmdCapture w (base ++ L.take 2) .losetupFind).1 = some out
    ∧ loop = cut_at_newline out
  let nodeFrom : Prop := ∃ out, (runCmdCapture w (base ++ L.take 6) (.lsLoopP1 loop)).1 = some out
    ∧ p1 = cut_at_newline out
  let firstPart : Prop := (list_partitions w (base ++ L.take 9) src).1.head? = some sp0
  (∃ d k, fit_die_at d = some k ∧ r = (.died d, base ++ L.take k)
      ∧ (4 ≤ k → loopFrom) ∧ (8 ≤ k → nodeFrom) ∧ (11 ≤ k → firstPart))
  ∨ (r = (.died .mountTargetFailed, base ++ L.take 12 ++ [.umountSrc])
      ∧ loopFrom ∧ nodeFrom ∧ firstPart)
  ∨ (r = (.ret ((runCmd w (base ++ L.take 12) .rsyncMirror).1, path), base ++ L)
      ∧ loopFrom ∧ nodeFrom ∧ firstPart)

/-- Path of the image the raw imager writes when called after `tr`, into the
512-byte buffer of `sdcloner_clone`. -/
def raw_path (w : World) (tr : Trace) : String :=
  timestamp_path w (tr ++ [.mkdirP (image_dir w)]) 512 (image_dir w) "img.gz"

/-- The imaging step `sdcloner_clone` runs for a destination device of size `D`,
the source having size `S`, once the capacity check has passed: the raw imager
when `S <= D`, the Fit Imager with target `D` otherwise. -/
def clone_imaging_step (w : World) (tr : Trace) (src : String) (S D : Nat) :
    Outcome (Int × String) × Trace :=
  if S ≤ D then
    (.ret (make_raw_image_gz w tr src OUTPATH_CAP).1, (make_raw_image_gz w tr src OUTPATH_CAP).2)
  else make_fsaware_image_fit w tr src D OUTPATH_CAP

/-- A host with source `/dev/sdb` (16 GiB) and destinations `/dev/sdc` (8 GiB)
and `/dev/sdd` (32 GiB).  The lister prints `parts`, every partition is `vfat`
with mountpoint `mountpoint`, the disk-usage query prints `used`, the free loop
device is `/dev/loop0`, and every command exits with 0 except those whose text
starts with the non-empty `failing`, which exit with 1. -/
def demoWorld (parts mountpoint used failing : String) : World where
  readable := fun _ => true
  blockdev := fun d =>
    if d = "/dev/sdb" then .size (16 * 2 ^ 30)
    else if d = "/dev/sdc" then .size (8 * 2 ^ 30)
    else if d = "/dev/sdd" then .size (32 * 2 ^ 30)
    else .openFailed
  home := some "/home/u"
  localtime := fun _ => ⟨124, 0, 2, 3, 4, 5⟩
  system := fun _ c =>
    if failing.data.isEmpty = false ∧ startsWith failing c = true then .exited 1 else .exited 0
  popen := fun _ c =>
    if startsWith "lsblk -rno PATH" c then some parts
    else if startsWith "blkid" c then some "vfat\n"
    else if startsWith "lsblk -rno MOUNTPOINT" c then some mountpoint
    else if startsWith "df " c then some used
    else if startsWith "sudo losetup -f" c then some "/dev/loop0\n"
    else if startsWith "ls " c then some "/dev/loop0p1\n"
    else none

/-- Path of the image every run in a `demoWorld` writes with extension `img`. -/
def demoImg : String := "/home/u/SDCloner/images/clone-20240102-030405.img"

/-- Path of the image every run in a `demoWorld` writes with extension `img.gz`. -/
def demoImgGz : String := "/home/u/SDCloner/images/clone-20240102-030405.img.gz"

/-- The two worlds answer alike, except possibly for what they print for a
command whose text starts with `df `: two hosts that differ only in the used
bytes their filesystems report. -/
def same_but_usage (w1 w2 : World) : Prop :=
  w1.readable = w2.readable ∧ w1.blockdev = w2.blockdev ∧ w1.home = w2.home
    ∧ w1.localtime = w2.localtime ∧ w1.system = w2.system
    ∧ ∀ h c, startsWith "df " c = false → w1.popen h c = w2.popen h c

/-- The commands of a complete run of `make_fsaware_image_fit` on `/dev/sdb`
with target 8 GiB in a `demoWorld` with one mounted partition. -/
def demoFitRun : Trace :=
  [.lsblkParts "/dev/sdb",
   .lsblkParts "/dev/sdb", .blkidType "/dev/sdb1", .lsblkMountpoint "/dev/sdb1",
   .dfUsed "/media/sd",
   .mkdirP "/home/u/SDCloner/images", .truncateS 8589934592 demoImg,
   .losetupFind, .losetupAttach "/dev/loop0" demoImg,
   .partedMklabel "/dev/loop0", .partedMkpart "/dev/loop0", .lsLoopP1 "/dev/loop0",
   .mkfsVfat "/dev/loop0p1", .mkdirMounts, .lsblkParts "/dev/sdb",
   .mountSrcRo "/dev/sdb1" "/mnt/sdcloner_src",
   .mountTgt "/dev/loop0p1" "/mnt/sdcloner_img",
   .rsyncMirror, .sync, .umountImg, .umountSrc, .losetupDetach "/dev/loop0"]

/-- The commands `l` are none, or begin with the filesystem probe that opens the
processing of a partition. -/
def starts_partition (l : Trace) : Prop := l = [] ∨ ∃ q rest, l = Cmd.blkidType q :: rest

/-- Every read-only scratch mount among the commands `ext`, issued after `hist`,
that exited with 0 is followed at once by the disk-usage query on its
mountpoint, the unmount of that mountpoint and the removal of that directory,
after which the run ends or the next partition begins. -/
def cleanup_replay (w : World) : Trace → Trace → Prop
  | _, [] => True
  | hist, c :: rest =>
    (∀ p m, c = .mountRoQuiet p m → (runCmd w hist c).1 = 0 →
      ∃ rest', rest = .dfUsed m :: .sudoUmount m :: .sudoRmdir m :: rest'
        ∧ starts_partition rest')
    ∧ cleanup_replay w (hist ++ [c]) rest

/-- Two decimal digits of a number below 100, the tens first. -/
def two_digits (n : Nat) : String := ⟨[Nat.digitChar (n / 10), Nat.digitChar (n % 10)]⟩

/-- Four decimal digits of a number below 10000, the thousands first. -/
def four_digits (n : Nat) : String :=
  ⟨[Nat.digitChar (n / 1000), Nat.digitChar (n / 100 % 10), Nat.digitChar (n / 10 % 10),
    Nat.digitChar (n % 10)]⟩

/-- The fields of a local time as `localtime_r` fills them, with a year of four
digits: month 0 to 11, day 1 to 31, hour 0 to 23, minute 0 to 59, second 0 to 60. -/
def valid_tm (t : Tm) : Prop :=
  1000 ≤ 1900 + t.tm_year ∧ 1900 + t.tm_year ≤ 9999
    ∧ 0 ≤ t.tm_mon ∧ t.tm_mon ≤ 11 ∧ 1 ≤ t.tm_mday ∧ t.tm_mday ≤ 31
    ∧ 0 ≤ t.tm_hour ∧ t.tm_hour ≤ 23 ∧ 0 ≤ t.tm_min ∧ t.tm_min ≤ 59
    ∧ 0 ≤ t.tm_sec ∧ t.tm_sec ≤ 60

/-- The mountpoint the lister reports for the partition `p` when the processing
of `p` starts after `hist`: the first line of its output, empty when it prints
nothing. -/
def reported_mountpoint (w : World) (hist : Trace) (p : String) : String :=
  ((runCmdCapture w (hist ++ [.blkidType p]) (.lsblkMountpoint p)).1.map cut_at_newline).getD ""

/-- The commands expected for one partition that is either unsupported or
already mounted: the two queries and, for a supported filesystem, the disk-usage
query on the first 127 bytes of the reported mountpoint. -/
def mounted_segment (w : World) (hist : Trace) (p : String) : Trace :=
  if supported_fs (get_fstype w hist p).1 = true then
    [.blkidType p, .lsblkMountpoint p,
      .dfUsed ⟨(reported_mountpoint w hist p).data.take 127⟩]
  else [.blkidType p, .lsblkMountpoint p]

/-- The commands expected for the partitions `parts`, one after the other. -/
def mounted_run (w : World) : Trace → List String → Trace
  | _, [] => []
  | hist, p :: ps => mounted_segment w hist p ++ mounted_run w (hist ++ mounted_segment w hist p) ps

/-- Every supported partition among `parts` reports a non-empty mountpoint,
whenever it is asked. -/
def all_mounted (w : World) (parts : List String) : Prop :=
  ∀ p ∈ parts, ∀ hist, supported_fs (get_fstype w hist p).1 = true →
    no_mountpoint ((runCmdCapture w (hist ++ [.blkidType p]) (.lsblkMountpoint p)).1.map
      cut_at_newline) = false

/-- The capture commands get the same answer whenever they are issued. -/
def stationary (w : World) : Prop := ∀ h1 h2 c, w.popen h1 c = w.popen h2 c

/-- A mountpoint of 130 bytes. -/
def longMountpoint : String := ⟨'/' :: List.replicate 129 'a'⟩

/-- The non-empty lines of a text, in order: the text is split at every newline
and the empty pieces are left out. -/
def nonempty_lines (out : String) : List String :=
  ((out.data.splitOn '\n').filter (fun l => !l.isEmpty)).map String.mk

/-- The first line of a text: the piece before the first newline. -/
def first_line (out : String) : String := ⟨(out.data.splitOn '\n').headD []⟩

/-- What the exit statuses were on the three ways `make_fsaware_image_fit` can
end at or after its mounts, once its capacity check has passed, `base` being the
commands issued until then: the failed source mount; the source mount that
succeeded and the target mount that failed; and the return, before which the
allocation, the loop attach, the two partitioning commands, the formatting and
both mounts all exited with 0 and whose value is the status of the mirror. -/
def FitStatus (w : World) (base : Trace) (src : String) (T : Nat) (dir path : String)
    (r : Outcome (Int × String) × Trace) : Prop :=
  (r.1 = .died .mountSourceFailed → ∃ loop p1 sp0,
      r.2 = base ++ (fit_commands T dir path loop p1 src sp0).take 11
      ∧ (runCmd w (base ++ (fit_commands T dir path loop p1 src sp0).take 10)
          (.mountSrcRo sp0 "/mnt/sdcloner_src")).1 ≠ 0)
  ∧ (r.1 = .died .mountTargetFailed → ∃ loop p1 sp0,
      r.2 = base ++ (fit_commands T dir path loop p1 src sp0).take 12 ++ [.umountSrc]
      ∧ (runCmd w (base ++ (fit_commands T dir path loop p1 src sp0).take 10)
          (.mountSrcRo sp0 "/mnt/sdcloner_src")).1 = 0
      ∧ (runCmd w (base ++ (fit_commands T dir path loop p1 src sp0).take 11)
          (.mountTgt p1 "/mnt/sdcloner_img")).1 ≠ 0)
  ∧ (∀ x, r.1 = .ret x → ∃ loop p1 sp0,
      r.2 = base ++ fit_commands T dir path loop p1 src sp0
      ∧ x = ((runCmd w (base ++ (fit_commands T dir path loop p1 src sp0).take 12)
          .rsyncMirror).1, path)
      ∧ (runCmd w (base ++ (fit_commands T dir path loop p1 src sp0).take 1)
          (.truncateS T path)).1 = 0
      ∧ (runCmd w (base ++ (fit_commands T dir path loop p1 src sp0).take 3)
          (.losetupAttach loop path)).1 = 0
      ∧ (runCmd w (base ++ (fit_commands T dir path loop p1 src sp0).take 4)
          (.partedMklabel loop)).1 = 0
      ∧ (runCmd w (base ++ (fit_commands T dir path loop p1 src sp0).take 5)
          (.partedMkpart loop)).1 = 0
      ∧ (runCmd w (base ++ (fit_commands T dir path loop p1 src sp0).take 7)
          (.mkfsVfat p1)).1 = 0
      ∧ (runCmd w (base ++ (fit_commands T dir path loop p1 src sp0).take 10)
          (.mountSrcRo sp0 "/mnt/sdcloner_src")).1 = 0
      ∧ (runCmd w (base ++ (fit_commands T dir path loop p1 src sp0).take 11)
          (.mountTgt p1 "/mnt/sdcloner_img")).1 = 0)

/-- The commands issued before the command of index `k` of `fit_commands` in a
run of `make_fsaware_image_fit` started after `tr`, `est` being the commands of
the used-bytes measurement after the first partition listing. -/
def fit_history (tr : Trace) (src : String) (est : Trace) (T : Nat)
    (dir path loop p1 sp0 : String) (k : Nat) : Trace :=
  tr ++ [.lsblkParts src] ++ est ++ (fit_commands T dir path loop p1 src sp0).take k

/-- Effect of one command on the mountpoints the engine has mounted, `ok` telling
whether the command exited with 0: a mount command that succeeds mounts its
mountpoint, an unmount that succeeds unmounts it, and a command that fails, or
that is neither, leaves the mounts as they are. -/
def mounts_step (c : Cmd) (ok : Bool) (ms : List String) : List String :=
  match c with
  | .mountRoQuiet _ m => if ok then m :: ms else ms
  | .mountSrcRo _ m => if ok then m :: ms else ms
  | .mountTgt _ m => if ok then m :: ms else ms
  | .sudoUmount m => if ok then ms.erase m else ms
  | .umountImg => if ok then ms.erase "/mnt/sdcloner_img" else ms
  | .umountSrc => if ok then ms.erase "/mnt/sdcloner_src" else ms
  | _ => ms

/-- The mountpoints mounted after the commands `ext`, issued one after the other
after `hist`, when the mountpoints `ms` were mounted before them. -/
def mounts_after (w : World) : Trace → Trace → List String → List String
  | _, [], ms => ms
  | hist, c :: ext, ms =>
    mounts_after w (hist ++ [c]) ext (mounts_step c (decide ((runCmd w hist c).1 = 0)) ms)

/-- Every unmount among the commands `ext`, issued one after the other after
`hist`, exited with 0. -/
def unmounts_succeed (w : World) : Trace → Trace → Bool
  | _, [] => true
  | hist, c :: ext =>
    (!(decide (c.kind = .unmount)) || decide ((runCmd w hist c).1 = 0))
      && unmounts_succeed w (hist ++ [c]) ext

/-- The host of `demoWorld` with one mounted partition, except that the mount of
the image partition and every `sudo umount` exit with 32 (mountpoint busy). -/
def busyWorld : World :=
  { demoWorld "/dev/sdb1\n" "/media/sd\n" "3221225472\n" "" with
    system := fun _ c =>
      if startsWith "sudo mount '" c = true ∨ startsWith "sudo umount" c = true then .exited 32
      else .exited 0 }

/-! ## Basic facts -/

theorem runCmd_trace (w : World) (tr : Trace) (c : Cmd) : (runCmd w tr c).2 = tr ++ [c] := rfl

theorem runCmdCapture_trace (w : World) (tr : Trace) (c : Cmd) :
    (runCmdCapture w tr c).2 = tr ++ [c] := rfl

theorem list_partitions_trace (w : World) (tr : Trace) (d : String) :
    (list_partitions w tr d).2 = tr ++ [.lsblkParts d] := rfl

theorem get_fstype_trace (w : World) (tr : Trace) (p : String) :
    (get_fstype w tr p).2 = tr ++ [.blkidType p] := rfl

theorem scratch_mnt_ne (i : Nat) : (scratch_mnt i).data.isEmpty = false := by
  simp [scratch_mnt, snprintf, String.data_append]

theorem strtoull_lt (s : String) : strtoull s < 2 ^ 64 := by
  unfold strtoull
  simp only
  split_ifs <;> omega

theorem df_value_lt (w : World) (hist : Trace) (mnt : String) : df_value w hist mnt < 2 ^ 64 := by
  unfold df_value
  split
  · norm_num
  · exact strtoull_lt _

theorem usage_query_eq (w : World) (tr : Trace) (mnt : String) (sum : Nat)
    (hm : mnt.data.isEmpty = false) (hs : sum < 2 ^ 64) :
    usage_query w tr mnt sum = (add64 sum (df_value w tr mnt), tr ++ [.dfUsed mnt]) := by
  unfold usage_query df_value
  simp only [hm, runCmdCapture_trace]
  cases h : (runCmdCapture w tr (Cmd.dfUsed mnt)).1
  · simp only [add64, Nat.add_zero, if_false, Bool.false_eq_true]
    rw [Nat.mod_eq_of_lt hs]
  · simp

theorem used_bytes_step_unsupported (w : World) (tr : Trace) (i : Nat) (p : String) (sum : Nat)
    (h : supported_fs (get_fstype w tr p).1 = false) :
    used_bytes_step w tr i p sum = (sum, tr ++ [.blkidType p, .lsblkMountpoint p]) := by
  unfold used_bytes_step
  simp [h, runCmdCapture_trace, get_fstype_trace]

theorem used_bytes_step_supported (w : World) (tr : Trace) (i : Nat) (p : String) (sum : Nat)
    (hs : sum < 2 ^ 64) (h : supported_fs (get_fstype w tr p).1 = true) :
    ∃ pre mnt post,
      used_bytes_step w tr i p sum =
        (add64 sum (df_value w (tr ++ [.blkidType p, .lsblkMountpoint p] ++ pre) mnt),
         tr ++ [.blkidType p, .lsblkMountpoint p] ++ pre ++ [.dfUsed mnt] ++ post)
      ∧ (∀ c ∈ pre ++ post, c.isEstimator = true ∧ c.kind ≠ .usage ∧ c.kind ≠ .query) := by
  unfold used_bytes_step
  simp only [h, if_true, runCmdCapture_trace, get_fstype_trace, runCmd_trace]
  split_ifs with h1 h2
  · refine ⟨[.sudoMkdirP (scratch_mnt i), .mountRoQuiet p (scratch_mnt i)], scratch_mnt i,
      [.sudoUmount (scratch_mnt i), .sudoRmdir (scratch_mnt i)], ?_, ?_⟩
    · rw [usage_query_eq _ _ _ _ (scratch_mnt_ne i) hs]
      simp
    · simp [Cmd.isEstimator, Cmd.kind]
  · refine ⟨[.sudoMkdirP (scratch_mnt i), .mountRoQuiet p (scratch_mnt i)], scratch_mnt i,
      [], ?_, ?_⟩
    · rw [usage_query_eq _ _ _ _ (scratch_mnt_ne i) hs]
      simp
    · simp [Cmd.isEstimator, Cmd.kind]
  · refine ⟨[], ⟨((Option.map cut_at_newline
      (runCmdCapture w (tr ++ [Cmd.blkidType p]) (Cmd.lsblkMountpoint p)).1).getD "").data.take 127⟩,
      [], ?_, ?_⟩
    · rw [usage_query_eq _ _ _ _ _ hs]
      · simp
      · cases hq : (runCmdCapture w (tr ++ [Cmd.blkidType p]) (Cmd.lsblkMountpoint p)).1 with
        | none => simp [hq, no_mountpoint] at h1
        | some m =>
          simp [hq, no_mountpoint] at h1
          simp [h1]
    · simp

theorem add64_lt (a b : Nat) : add64 a b < 2 ^ 64 := Nat.mod_lt _ (by norm_num)


theorem reported_used_append (w : World) (a b : Trace) (hist : Trace) :
    reported_used w hist (a ++ b) = reported_used w hist a + reported_used w (hist ++ a) b := by
  induction a generalizing hist with
  | nil => simp [reported_used]
  | cons c a ih =>
    rw [List.cons_append]
    simp only [reported_used]
    rw [ih]
    simp only [List.append_assoc, List.singleton_append]
    omega

theorem reported_used_no_usage (w : World) (a : Trace) (hist : Trace)
    (h : ∀ c ∈ a, c.kind ≠ .usage) : reported_used w hist a = 0 := by
  induction a generalizing hist with
  | nil => simp [reported_used]
  | cons c a ih =>
    have hc := h c (List.mem_cons_self _ _)
    have ha := ih (hist ++ [c]) (fun x hx => h x (List.mem_cons_of_mem _ hx))
    simp only [reported_used, ha, Nat.add_zero]
    cases c <;> first | rfl | exact absurd rfl hc

theorem used_bytes_loop_spec (w : World) (parts : List String) :
    ∀ (tr : Trace) (i sum : Nat), sum < 2 ^ 64 →
      ∃ ext, (used_bytes_loop w tr i parts sum).2 = tr ++ ext
        ∧ usage_segments w tr parts ext
        ∧ (used_bytes_loop w tr i parts sum).1 = (sum + reported_used w tr ext) % 2 ^ 64
        ∧ ∀ c ∈ ext, c.isEstimator = true := by
  induction parts with
  | nil =>
    intro tr i sum hs
    exact ⟨[], by simp [used_bytes_loop], by simp [usage_segments],
      by simp only [used_bytes_loop, reported_used, Nat.add_zero, Nat.mod_eq_of_lt hs],
      by simp⟩
  | cons p ps ih =>
    intro tr i sum hs
    by_cases hsup : supported_fs (get_fstype w tr p).1 = true
    · obtain ⟨pre, mnt, post, hstep, hkinds⟩ := used_bytes_step_supported w tr i p sum hs hsup
      obtain ⟨ext, h1, h2, h3, h4⟩ :=
        ih (tr ++ [.blkidType p, .lsblkMountpoint p] ++ pre ++ [.dfUsed mnt] ++ post) (i + 1)
          (add64 sum (df_value w (tr ++ [.blkidType p, .lsblkMountpoint p] ++ pre) mnt))
          (add64_lt _ _)
      refine ⟨[.blkidType p, .lsblkMountpoint p] ++ pre ++ [.dfUsed mnt] ++ post ++ ext,
        ?_, ?_, ?_, ?_⟩
      · simp only [used_bytes_loop, hstep, h1]
        simp
      · refine ⟨[.blkidType p, .lsblkMountpoint p] ++ pre ++ [.dfUsed mnt] ++ post, ext, rfl,
          ?_, ?_⟩
        · simpa using h2
        · rw [if_pos hsup]
          exact ⟨pre, mnt, post, rfl, fun c hc => (hkinds c hc).2⟩
      · simp only [used_bytes_loop, hstep, h3]
        have hpre : reported_used w (tr ++ [.blkidType p, .lsblkMountpoint p]) pre = 0 :=
          reported_used_no_usage w pre _ (fun c hc => (hkinds c (by simp [hc])).2.1)
        have hpost : reported_used w
            (tr ++ [.blkidType p, .lsblkMountpoint p] ++ pre ++ [.dfUsed mnt]) post = 0 :=
          reported_used_no_usage w post _ (fun c hc => (hkinds c (by simp [hc])).2.1)
        have hseg : reported_used w tr
            ([.blkidType p, .lsblkMountpoint p] ++ pre ++ [.dfUsed mnt] ++ post ++ ext)
            = df_value w (tr ++ [.blkidType p, .lsblkMountpoint p] ++ pre) mnt
              + reported_used w
                (tr ++ [.blkidType p, .lsblkMountpoint p] ++ pre ++ [.dfUsed mnt] ++ post) ext := by
          rw [reported_used_append, reported_used_append, reported_used_append,
            reported_used_append]
          simp only [← List.append_assoc] at hpre hpost ⊢
          rw [hpre, hpost]
          simp [reported_used]
        rw [hseg]
        simp only [add64]
        omega
      · intro c hc
        simp only [List.mem_append] at hc
        rcases hc with hc | hc
        · rcases hc with hc | hc
          · rcases hc with hc | hc
            · rcases hc with hc | hc
              · simp at hc
                rcases hc with rfl | rfl <;> rfl
              · exact (hkinds c (by simp [hc])).1
            · simp at hc
              subst hc
              rfl
          · exact (hkinds c (by simp [hc])).1
        · exact h4 c hc
    · have hsup2 : supported_fs (get_fstype w tr p).1 = false := by simpa using hsup
      have hstep := used_bytes_step_unsupported w tr i p sum hsup2
      obtain ⟨ext, h1, h2, h3, h4⟩ :=
        ih (tr ++ [.blkidType p, .lsblkMountpoint p]) (i + 1) sum hs
      refine ⟨[.blkidType p, .lsblkMountpoint p] ++ ext, ?_, ?_, ?_, ?_⟩
      · simp only [used_bytes_loop, hstep, h1]
        simp
      · refine ⟨[.blkidType p, .lsblkMountpoint p], ext, rfl, h2, ?_⟩
        rw [if_neg hsup]
      · simp only [used_bytes_loop, hstep, h3]
        rw [reported_used_append]
        simp [reported_used]
      · intro c hc
        simp only [List.mem_append] at hc
        rcases hc with hc | hc
        · simp at hc
          rcases hc with rfl | rfl <;> rfl
        · exact h4 c hc

theorem SAFETY_MARGIN_BYTES_eq : SAFETY_MARGIN_BYTES = 536870912 := by decide

theorem compute_used_bytes_sum_spec (w : World) (tr : Trace) (disk : String) :
    ∃ ext, (compute_used_bytes_sum w tr disk).2 = tr ++ [.lsblkParts disk] ++ ext
      ∧ usage_segments w (tr ++ [.lsblkParts disk]) (list_partitions w tr disk).1 ext
      ∧ (compute_used_bytes_sum w tr disk).1
          = reported_used w (tr ++ [.lsblkParts disk]) ext % 2 ^ 64
      ∧ ∀ c ∈ ext, c.isEstimator = true := by
  unfold compute_used_bytes_sum
  simp only [list_partitions_trace]
  split_ifs with h
  · have hnil : (list_partitions w tr disk).1 = [] := List.length_eq_zero.mp h
    exact ⟨[], by simp, by simp [hnil, usage_segments], by simp [reported_used], by simp⟩
  · obtain ⟨ext, h1, h2, h3, h4⟩ :=
      used_bytes_loop_spec w (list_partitions w tr disk).1 (tr ++ [.lsblkParts disk]) 0 0
        (by norm_num)
    exact ⟨ext, h1, h2, by simpa using h3, h4⟩

theorem compute_used_bytes_sum_lt (w : World) (tr : Trace) (disk : String) :
    (compute_used_bytes_sum w tr disk).1 < 2 ^ 64 := by
  obtain ⟨ext, -, -, h3, -⟩ := compute_used_bytes_sum_spec w tr disk
  rw [h3]
  exact Nat.mod_lt _ (by norm_num)

theorem compute_used_bytes_sum_trace (w : World) (tr : Trace) (disk : String) :
    ∃ est, (compute_used_bytes_sum w tr disk).2 = tr ++ est ∧ ∀ c ∈ est, c.isEstimator = true := by
  obtain ⟨ext, h1, -, -, h4⟩ := compute_used_bytes_sum_spec w tr disk
  refine ⟨[.lsblkParts disk] ++ ext, by rw [h1, List.append_assoc], ?_⟩
  intro c hc
  rcases List.mem_append.mp hc with hc | hc
  · simp at hc
    subst hc
    rfl
  · exact h4 c hc

theorem usage_segments_unsupported (w : World)
    (hno : ∀ hist p, supported_fs (get_fstype w hist p).1 = false) (parts : List String) :
    ∀ (hist ext : Trace), usage_segments w hist parts ext →
      ext = parts.flatMap (fun p => [Cmd.blkidType p, Cmd.lsblkMountpoint p]) := by
  induction parts with
  | nil =>
    intro hist ext h
    simpa [usage_segments] using h
  | cons p ps ih =>
    intro hist ext h
    obtain ⟨seg, rest, hext, hrest, hseg⟩ := h
    rw [if_neg (by simp [hno hist p])] at hseg
    rw [hext, hseg, ih _ _ hrest]
    simp

/-! ## Shape of the runs of the Fit Imager -/

theorem Extends.intro (P : Cmd → Bool) (tr ext : Trace) (h : ext.all P = true) :
    Extends P tr (tr ++ ext) :=
  ⟨ext, rfl, fun c hc => List.all_eq_true.mp h c hc⟩

theorem isFitImager_of_isEstimator (c : Cmd) (h : c.isEstimator = true) :
    c.isFitImager = true := by
  cases c <;> first | rfl | exact h

theorem make_fsaware_image_fit_eq (w : World) (tr : Trace) (src : String) (T cap : Nat) :
    make_fsaware_image_fit w tr src T cap =
      if (list_partitions w tr src).1.length = 0 then
        (.died .noPartitions, tr ++ [.lsblkParts src])
      else if add64 (compute_used_bytes_sum w (tr ++ [.lsblkParts src]) src).1
          SAFETY_MARGIN_BYTES > T then
        (.died .capacityTooSmall, (compute_used_bytes_sum w (tr ++ [.lsblkParts src]) src).2)
      else
        fit_attach w
          ((compute_used_bytes_sum w (tr ++ [.lsblkParts src]) src).2 ++
            [.mkdirP (snprintf 256 (w.home.getD "/tmp" ++ "/SDCloner/images"))])
          src T
          (timestamp_path w
            ((compute_used_bytes_sum w (tr ++ [.lsblkParts src]) src).2 ++
              [.mkdirP (snprintf 256 (w.home.getD "/tmp" ++ "/SDCloner/images"))])
            cap (snprintf 256 (w.home.getD "/tmp" ++ "/SDCloner/images")) "img") := rfl


theorem snprintf_msrc : snprintf 64 "/mnt/sdcloner_src" = "/mnt/sdcloner_src" := by decide

theorem snprintf_mtgt : snprintf 64 "/mnt/sdcloner_img" = "/mnt/sdcloner_img" := by decide

theorem fit_attach_shape (w : World) (base : Trace) (src : String) (T : Nat) (dir path : String) :
    ∃ loop p1 sp0, FitTail w base src T dir path loop p1 sp0
      (fit_attach w (base ++ [.mkdirP dir]) src T path) := by
  unfold fit_attach
  simp only [runCmd_trace, runCmdCapture_trace]
  split_ifs with h1
  · exact ⟨"", "", "", Or.inl ⟨.createImageFailed, 2, rfl, by simp [fit_commands], by omega,
      by omega, by omega⟩⟩
  split
  · exact ⟨"", "", "", Or.inl ⟨.losetupFindFailed, 3, rfl, by simp [fit_commands], by omega,
      by omega, by omega⟩⟩
  rename_i loop0 hloop
  have hL : ∃ out, (runCmdCapture w (base ++ [.mkdirP dir, .truncateS T path]) .losetupFind).1
      = some out ∧ cut_at_newline loop0 = cut_at_newline out := ⟨loop0, by simpa using hloop, rfl⟩
  split_ifs with h2 h3 h4
  · exact ⟨cut_at_newline loop0, "", "", Or.inl ⟨.losetupAttachFailed, 4, rfl,
      by simp [fit_commands], fun _ => by simpa [fit_commands] using hL, by omega, by omega⟩⟩
  · exact ⟨cut_at_newline loop0, "", "", Or.inl ⟨.mklabelFailed, 5, rfl,
      by simp [fit_commands], fun _ => by simpa [fit_commands] using hL, by omega, by omega⟩⟩
  · exact ⟨cut_at_newline loop0, "", "", Or.inl ⟨.mkpartFailed, 6, rfl,
      by simp [fit_commands], fun _ => by simpa [fit_commands] using hL, by omega, by omega⟩⟩
  unfold fit_format
  simp only [runCmd_trace, runCmdCapture_trace]
  split
  · exact ⟨cut_at_newline loop0, "", "", Or.inl ⟨.loopNodeMissing, 7, rfl,
      by simp [fit_commands], fun _ => by simpa [fit_commands] using hL, by omega, by omega⟩⟩
  rename_i node hnode
  have hN : ∃ out, (runCmdCapture w (base ++ [.mkdirP dir, .truncateS T path, .losetupFind,
      .losetupAttach (cut_at_newline loop0) path, .partedMklabel (cut_at_newline loop0),
      .partedMkpart (cut_at_newline loop0)]) (.lsLoopP1 (cut_at_newline loop0))).1 = some out
      ∧ node = cut_at_newline out := by
    simp only [Option.map_eq_some', List.append_assoc, List.cons_append, List.nil_append]
      at hnode
    obtain ⟨out, h, rfl⟩ := hnode
    exact ⟨out, h, rfl⟩
  split_ifs with h5 h6
  · exact ⟨cut_at_newline loop0, "", "", Or.inl ⟨.loopNodeMissing, 7, rfl,
      by simp [fit_commands], fun _ => by simpa [fit_commands] using hL, by omega, by omega⟩⟩
  · exact ⟨cut_at_newline loop0, node, "", Or.inl ⟨.mkfsFailed, 8, rfl,
      by simp [fit_commands], fun _ => by simpa [fit_commands] using hL,
      fun _ => by simpa [fit_commands] using hN, by omega⟩⟩
  unfold fit_mount
  simp only [runCmd_trace, runCmdCapture_trace, list_partitions_trace, snprintf_msrc,
    snprintf_mtgt]
  split
  · exact ⟨cut_at_newline loop0, node, "", Or.inl ⟨.noSourcePartitions, 10, rfl,
      by simp [fit_commands], fun _ => by simpa [fit_commands] using hL,
      fun _ => by simpa [fit_commands] using hN, by omega⟩⟩
  rename_i sp0 rest hsp
  have hS : (list_partitions w (base ++ [.mkdirP dir, .truncateS T path, .losetupFind,
      .losetupAttach (cut_at_newline loop0) path, .partedMklabel (cut_at_newline loop0),
      .partedMkpart (cut_at_newline loop0), .lsLoopP1 (cut_at_newline loop0), .mkfsVfat node,
      .mkdirMounts]) src).1.head? = some sp0 := by
    simp only [List.append_assoc, List.cons_append, List.nil_append] at hsp
    rw [hsp]
    rfl
  split_ifs with h7 h8
  · exact ⟨cut_at_newline loop0, node, sp0, Or.inl ⟨.mountSourceFailed, 11, rfl,
      by simp [fit_commands], fun _ => by simpa [fit_commands] using hL,
      fun _ => by simpa [fit_commands] using hN, fun _ => by simpa [fit_commands] using hS⟩⟩
  · exact ⟨cut_at_newline loop0, node, sp0, Or.inr (Or.inl ⟨by simp [fit_commands],
      by simpa [fit_commands] using hL, by simpa [fit_commands] using hN,
      by simpa [fit_commands] using hS⟩)⟩
  · exact ⟨cut_at_newline loop0, node, sp0, Or.inr (Or.inr ⟨by simp [fit_mirror, runCmd_trace,
      fit_commands], by simpa [fit_commands] using hL, by simpa [fit_commands] using hN,
      by simpa [fit_commands] using hS⟩)⟩

theorem make_fsaware_image_fit_shape (w : World) (tr : Trace) (src : String) (T cap : Nat) :
    ∃ est, (compute_used_bytes_sum w (tr ++ [.lsblkParts src]) src).2
        = tr ++ [.lsblkParts src] ++ est
      ∧ (∀ c ∈ est, c.isEstimator = true)
      ∧ (((list_partitions w tr src).1 = []
          ∧ make_fsaware_image_fit w tr src T cap
              = (.died .noPartitions, tr ++ [.lsblkParts src]))
        ∨ ((list_partitions w tr src).1 ≠ []
          ∧ T < add64 (compute_used_bytes_sum w (tr ++ [.lsblkParts src]) src).1
              SAFETY_MARGIN_BYTES
          ∧ make_fsaware_image_fit w tr src T cap
              = (.died .capacityTooSmall, tr ++ [.lsblkParts src] ++ est))
        ∨ ((list_partitions w tr src).1 ≠ []
          ∧ add64 (compute_used_bytes_sum w (tr ++ [.lsblkParts src]) src).1
              SAFETY_MARGIN_BYTES ≤ T
          ∧ ∃ loop p1 sp0, FitTail w (tr ++ [.lsblkParts src] ++ est) src T (image_dir w)
              (timestamp_path w (tr ++ [.lsblkParts src] ++ est ++ [.mkdirP (image_dir w)]) cap
                (image_dir w) "img")
              loop p1 sp0 (make_fsaware_image_fit w tr src T cap))) := by
  obtain ⟨est, hest, hk⟩ := compute_used_bytes_sum_trace w (tr ++ [.lsblkParts src]) src
  refine ⟨est, hest, hk, ?_⟩
  rw [make_fsaware_image_fit_eq]
  by_cases h0 : (list_partitions w tr src).1 = []
  · left
    exact ⟨h0, by simp [h0]⟩
  · right
    have h0len : ¬ (list_partitions w tr src).1.length = 0 := by
      simpa [List.length_eq_zero] using h0
    rw [if_neg h0len]
    by_cases h1 : add64 (compute_used_bytes_sum w (tr ++ [.lsblkParts src]) src).1
        SAFETY_MARGIN_BYTES > T
    · left
      exact ⟨h0, h1, by rw [if_pos h1, hest]⟩
    · right
      rw [if_neg h1, hest]
      exact ⟨h0, by omega, fit_attach_shape w _ src T _ _⟩

theorem FitTail.extends (w : World) (base : Trace) (src : String) (T : Nat)
    (dir path loop p1 sp0 : String) (r : Outcome (Int × String) × Trace)
    (h : FitTail w base src T dir path loop p1 sp0 r) :
    Extends Cmd.isFitImager base r.2 := by
  rcases h with ⟨d, k, -, rfl, -⟩ | ⟨rfl, -⟩ | ⟨rfl, -⟩
  · refine ⟨_, rfl, fun c hc => ?_⟩
    have hc2 := List.mem_of_mem_take hc
    simp only [fit_commands, List.mem_cons, List.mem_singleton, List.not_mem_nil, or_false]
      at hc2
    rcases hc2 with h | h | h | h | h | h | h | h | h | h | h | h | h | h | h | h | h <;>
      (subst h; rfl)
  · refine ⟨_, List.append_assoc _ _ _, fun c hc => ?_⟩
    simp only [fit_commands, List.take, List.cons_append, List.nil_append, List.mem_cons,
      List.mem_singleton, List.not_mem_nil, or_false] at hc
    rcases hc with h | h | h | h | h | h | h | h | h | h | h | h | h <;> (subst h; rfl)
  · refine ⟨_, rfl, fun c hc => ?_⟩
    simp only [fit_commands, List.mem_cons, List.mem_singleton, List.not_mem_nil, or_false]
      at hc
    rcases hc with h | h | h | h | h | h | h | h | h | h | h | h | h | h | h | h | h <;>
      (subst h; rfl)

theorem Extends.trans (P : Cmd → Bool) (a b c : Trace) (h1 : Extends P a b)
    (h2 : Extends P b c) : Extends P a c := by
  obtain ⟨e1, rfl, k1⟩ := h1
  obtain ⟨e2, rfl, k2⟩ := h2
  refine ⟨e1 ++ e2, List.append_assoc _ _ _, fun x hx => ?_⟩
  rcases List.mem_append.mp hx with hx | hx
  · exact k1 x hx
  · exact k2 x hx

theorem make_fsaware_image_fit_trace (w : World) (tr : Trace) (src : String) (T cap : Nat) :
    Extends Cmd.isFitImager tr (make_fsaware_image_fit w tr src T cap).2 := by
  obtain ⟨est, -, hk, h⟩ := make_fsaware_image_fit_shape w tr src T cap
  have hbase : Extends Cmd.isFitImager tr (tr ++ [.lsblkParts src] ++ est) := by
    refine ⟨[.lsblkParts src] ++ est, List.append_assoc _ _ _, fun c hc => ?_⟩
    rcases List.mem_append.mp hc with hc | hc
    · simp only [List.mem_singleton] at hc
      subst hc
      rfl
    · exact isFitImager_of_isEstimator c (hk c hc)
  rcases h with ⟨-, h⟩ | ⟨-, -, h⟩ | ⟨-, -, loop, p1, sp0, h⟩
  · rw [h]
    exact ⟨[.lsblkParts src], rfl, fun c hc => by
      simp only [List.mem_singleton] at hc
      subst hc
      rfl⟩
  · rw [h]
    exact hbase
  · exact Extends.trans _ _ _ _ hbase (FitTail.extends w _ src T _ _ loop p1 sp0 _ h)

/-! ## Facts about the orchestrator's building blocks -/

theorem isEstimator_kind (c : Cmd) (h : c.isEstimator = true) :
    c.kind = .query ∨ c.kind = .usage ∨ c.kind = .scratchDir ∨ c.kind = .mount
      ∨ c.kind = .unmount := by
  cases c <;> simp_all [Cmd.isEstimator, Cmd.kind]

theorem add64_margin (U : Nat) (h : U + 536870912 < 2 ^ 64) :
    add64 U SAFETY_MARGIN_BYTES = U + 536870912 := by
  rw [SAFETY_MARGIN_BYTES_eq]
  exact Nat.mod_eq_of_lt h

theorem burn_image_to_disk_trace (w : World) (tr : Trace) (image dest : String) :
    (burn_image_to_disk w tr image dest).2
      = tr ++ [.umountDest dest,
          .burnPipe (if strstr_found ".gz".data image.data then "gzip -dc" else "cat")
            image dest] := by
  simp [burn_image_to_disk, runCmd_trace]

theorem isFitImager_not_burn (c : Cmd) (h : c.isFitImager = true) :
    c.kind ≠ .burn ∧ c.kind ≠ .rawImage := by
  cases c <;> simp_all [Cmd.isFitImager, Cmd.isEstimator, Cmd.kind]

theorem make_raw_image_gz_eq (w : World) (tr : Trace) (src : String) (cap : Nat) :
    make_raw_image_gz w tr src cap
      = (((runCmd w (tr ++ [.mkdirP (image_dir w)])
            (.ddGzip src (timestamp_path w (tr ++ [.mkdirP (image_dir w)]) cap (image_dir w)
              "img.gz"))).1,
          timestamp_path w (tr ++ [.mkdirP (image_dir w)]) cap (image_dir w) "img.gz"),
         tr ++ [.mkdirP (image_dir w),
           .ddGzip src (timestamp_path w (tr ++ [.mkdirP (image_dir w)]) cap (image_dir w)
             "img.gz")]) := by
  simp [make_raw_image_gz, ensure_image_dir, runCmd_trace, image_dir]

/-! ## Two hosts that differ only in the reported usage -/

theorem not_df_blkidType (p : String) : startsWith "df " (Cmd.blkidType p).text = false := by
  simp [startsWith, Cmd.text, snprintf, String.data_append, List.isPrefixOf]

theorem not_df_lsblkMountpoint (p : String) :
    startsWith "df " (Cmd.lsblkMountpoint p).text = false := by
  simp [startsWith, Cmd.text, snprintf, String.data_append, List.isPrefixOf]

theorem not_df_lsblkParts (p : String) : startsWith "df " (Cmd.lsblkParts p).text = false := by
  simp [startsWith, Cmd.text, snprintf, String.data_append, List.isPrefixOf]


theorem used_bytes_step_trace_eq (w : World) (tr : Trace) (i : Nat) (p : String) (sum : Nat) :
    (used_bytes_step w tr i p sum).2 =
      if supported_fs (get_fstype w tr p).1 = true then
        if no_mountpoint ((runCmdCapture w (tr ++ [.blkidType p]) (.lsblkMountpoint p)).1.map
            cut_at_newline) = true then
          if (runCmd w (tr ++ [.blkidType p, .lsblkMountpoint p, .sudoMkdirP (scratch_mnt i)])
              (.mountRoQuiet p (scratch_mnt i))).1 = 0 then
            tr ++ [.blkidType p, .lsblkMountpoint p, .sudoMkdirP (scratch_mnt i),
              .mountRoQuiet p (scratch_mnt i), .dfUsed (scratch_mnt i),
              .sudoUmount (scratch_mnt i), .sudoRmdir (scratch_mnt i)]
          else
            tr ++ [.blkidType p, .lsblkMountpoint p, .sudoMkdirP (scratch_mnt i),
              .mountRoQuiet p (scratch_mnt i), .dfUsed (scratch_mnt i)]
        else
          tr ++ [.blkidType p, .lsblkMountpoint p,
            .dfUsed ⟨(((runCmdCapture w (tr ++ [.blkidType p]) (.lsblkMountpoint p)).1.map
              cut_at_newline).getD "").data.take 127⟩]
      else tr ++ [.blkidType p, .lsblkMountpoint p] := by
  have hq : ∀ (t : Trace) (m : String) (s : Nat), m.data.isEmpty = false →
      (usage_query w t m s).2 = t ++ [.dfUsed m] := by
    intro t m s hm
    simp [usage_query, hm, runCmdCapture_trace]
  unfold used_bytes_step
  simp only [runCmdCapture_trace, get_fstype_trace, runCmd_trace, List.append_assoc,
    List.cons_append, List.nil_append]
  by_cases h1 : supported_fs (get_fstype w tr p).1 = true
  · rw [if_pos h1, if_pos h1]
    by_cases h2 : no_mountpoint ((runCmdCapture w (tr ++ [.blkidType p])
        (.lsblkMountpoint p)).1.map cut_at_newline) = true
    · rw [if_pos h2, if_pos h2]
      by_cases h3 : (runCmd w
          (tr ++ [.blkidType p, .lsblkMountpoint p, .sudoMkdirP (scratch_mnt i)])
          (.mountRoQuiet p (scratch_mnt i))).1 = 0
      · rw [if_pos h3, if_pos h3, hq _ _ _ (scratch_mnt_ne i)]
        simp
      · rw [if_neg h3, if_neg h3, hq _ _ _ (scratch_mnt_ne i)]
        simp
    · rw [if_neg h2, if_neg h2, hq]
      · simp
      · cases hm : (runCmdCapture w (tr ++ [Cmd.blkidType p]) (Cmd.lsblkMountpoint p)).1 with
        | none => simp [hm, no_mountpoint] at h2
        | some m =>
          simp [hm, no_mountpoint] at h2
          simp [h2]
  · rw [if_neg h1, if_neg h1]

theorem runCmdCapture_same (w1 w2 : World) (h : same_but_usage w1 w2) (tr : Trace) (c : Cmd)
    (hc : startsWith "df " c.text = false) :
    runCmdCapture w1 tr c = runCmdCapture w2 tr c := by
  unfold runCmdCapture
  rw [h.2.2.2.2.2 _ _ hc]

theorem runCmd_same (w1 w2 : World) (h : same_but_usage w1 w2) (tr : Trace) (c : Cmd) :
    runCmd w1 tr c = runCmd w2 tr c := by
  unfold runCmd
  rw [h.2.2.2.2.1]

theorem used_bytes_loop_trace_same (w1 w2 : World) (h : same_but_usage w1 w2)
    (parts : List String) :
    ∀ (tr : Trace) (i s1 s2 : Nat),
      (used_bytes_loop w1 tr i parts s1).2 = (used_bytes_loop w2 tr i parts s2).2 := by
  induction parts with
  | nil => intro tr i s1 s2; rfl
  | cons p ps ih =>
    intro tr i s1 s2
    have hstep : (used_bytes_step w1 tr i p s1).2 = (used_bytes_step w2 tr i p s2).2 := by
      rw [used_bytes_step_trace_eq, used_bytes_step_trace_eq]
      have hfs : get_fstype w1 tr p = get_fstype w2 tr p := by
        unfold get_fstype
        rw [runCmdCapture_same w1 w2 h tr _ (not_df_blkidType p)]
      rw [hfs, runCmdCapture_same w1 w2 h _ _ (not_df_lsblkMountpoint p),
        runCmd_same w1 w2 h]
    simp only [used_bytes_loop]
    rw [hstep]
    exact ih _ _ _ _

theorem compute_used_bytes_sum_trace_same (w1 w2 : World) (h : same_but_usage w1 w2)
    (tr : Trace) (disk : String) :
    (compute_used_bytes_sum w1 tr disk).2 = (compute_used_bytes_sum w2 tr disk).2 := by
  have hl : list_partitions w1 tr disk = list_partitions w2 tr disk := by
    unfold list_partitions
    rw [runCmdCapture_same w1 w2 h tr _ (not_df_lsblkParts disk)]
  unfold compute_used_bytes_sum
  rw [hl]
  simp only
  split_ifs
  · rfl
  · exact used_bytes_loop_trace_same w1 w2 h _ _ _ _ _

theorem make_raw_image_gz_same (w1 w2 : World) (h : same_but_usage w1 w2) (tr : Trace)
    (src : String) (cap : Nat) :
    make_raw_image_gz w1 tr src cap = make_raw_image_gz w2 tr src cap := by
  obtain ⟨-, -, hh, hl, hs, -⟩ := h
  simp only [make_raw_image_gz, ensure_image_dir, timestamp_path, runCmd, hh, hl, hs]

theorem burn_image_to_disk_same (w1 w2 : World) (h : same_but_usage w1 w2) (tr : Trace)
    (image dest : String) :
    burn_image_to_disk w1 tr image dest = burn_image_to_disk w2 tr image dest := by
  obtain ⟨-, -, -, -, hs, -⟩ := h
  simp only [burn_image_to_disk, runCmd, hs]


theorem demoWorld_same_but_usage (parts mountpoint used1 used2 failing : String) :
    same_but_usage (demoWorld parts mountpoint used1 failing)
      (demoWorld parts mountpoint used2 failing) := by
  refine ⟨rfl, rfl, rfl, rfl, rfl, fun h c hc => ?_⟩
  simp only [demoWorld, hc]
  rfl

theorem clone_imaging_step_trace (w : World) (tr : Trace) (src : String) (S D : Nat) :
    ∃ ext, (clone_imaging_step w tr src S D).2 = tr ++ ext ∧ ∀ c ∈ ext, c.kind ≠ .burn := by
  unfold clone_imaging_step
  split_ifs with h
  · refine ⟨_, by rw [make_raw_image_gz_eq], fun c hc => ?_⟩
    simp only [List.mem_cons, List.mem_singleton, List.not_mem_nil, or_false] at hc
    rcases hc with rfl | rfl <;> simp [Cmd.kind]
  · obtain ⟨ext, h1, h2⟩ := make_fsaware_image_fit_trace w tr src D OUTPATH_CAP
    exact ⟨ext, h1, fun c hc => (isFitImager_not_burn c (h2 c hc)).1⟩

/-! ## C1: destination smaller than the source -/

/-- C1: `sdcloner_clone` with a readable source of size `S` and a destination
device of size `D < S`, the used-byte count `U` measured by the estimator being
such that `U + 512 MiB < 2^64`, whatever the hint.  If `U + 512 MiB > D` the call
ends in `die` with the destination-too-small message, having issued only the
commands of the estimator (none that creates an image directory, allocates an
image, sets up a loop device, partitions, formats, images, mirrors or burns).
Otherwise `make_fsaware_image_fit` is called with target exactly `D`; if it ends
in `die` so does the call, if it returns a non-zero status that status is
returned with no further command, and if it returns 0 the burner runs on the
path it produced and on the same destination, and its status is returned. -/
theorem clone_to_smaller_destination (w : World) (tr : Trace) (src dest : String)
    (hint S D : Nat)
    (hr : w.readable src = true)
    (hS : get_blockdev_size_bytes w src = .ret S)
    (hdest : dest ≠ "")
    (hD : get_blockdev_size_bytes w dest = .ret D)
    (hlt : D < S)
    (hU : (compute_used_bytes_sum w tr src).1 + 536870912 < 2 ^ 64) :
    ((compute_used_bytes_sum w tr src).1 + 536870912 > D →
        sdcloner_clone w tr (some src) (some dest) hint
          = (.died .destTooSmall, (compute_used_bytes_sum w tr src).2)
        ∧ ∃ est, (compute_used_bytes_sum w tr src).2 = tr ++ est
            ∧ ∀ c ∈ est, c.isEstimator = true ∧ c.kind ≠ .imageDir ∧ c.kind ≠ .allocate
                ∧ c.kind ≠ .loopSetup ∧ c.kind ≠ .partitioning ∧ c.kind ≠ .format
                ∧ c.kind ≠ .rawImage ∧ c.kind ≠ .mirror ∧ c.kind ≠ .burn)
    ∧ ((compute_used_bytes_sum w tr src).1 + 536870912 ≤ D →
        sdcloner_clone w tr (some src) (some dest) hint
          = match make_fsaware_image_fit w (compute_used_bytes_sum w tr src).2 src D 512 with
            | (.died d, t) => (.died d, t)
            | (.ret r, t) =>
              if r.1 = 0 then
                ((.ret (burn_image_to_disk w t r.2 dest).1),
                  t ++ [.umountDest dest,
                    .burnPipe (if strstr_found ".gz".data r.2.data then "gzip -dc" else "cat")
                      r.2 dest])
              else (.ret r.1, t)) := by
  have hadd := add64_margin _ hU
  have hnd : ¬ ((some dest : Option String).isNone = true ∨ (some dest : Option String) = some "") := by
    simp [hdest]
  constructor
  · intro hgt
    refine ⟨?_, ?_⟩
    · unfold sdcloner_clone
      simp only [hr, hS, hD, hnd, hadd, Option.getD_some, if_false, Bool.true_eq_false]
      rw [if_neg (by omega), if_pos hgt]
    · obtain ⟨est, h1, h2⟩ := compute_used_bytes_sum_trace w tr src
      refine ⟨est, h1, fun c hc => ⟨h2 c hc, ?_⟩⟩
      rcases isEstimator_kind c (h2 c hc) with h | h | h | h | h <;> simp [h]
  · intro hle
    unfold sdcloner_clone
    simp only [hr, hS, hD, hnd, hadd, Option.getD_some, if_false, Bool.true_eq_false]
    rw [if_neg (by omega), if_neg (by omega)]
    simp only [OUTPATH_CAP]
    split
    · rfl
    · rename_i r t heq
      by_cases h0 : r.1 = 0
      · simp [h0, burn_image_to_disk_trace]
      · simp [h0]

set_option maxRecDepth 100000 in
/-- C1 on the two scenarios of the specification (source 16 GiB, destination
8 GiB): with 3 GiB in use the Fit Imager runs with target 8 GiB and the burner
follows; with 9 GiB in use the call ends in the destination-too-small failure
after the estimator's queries alone. -/
theorem clone_to_smaller_destination_witness :
    sdcloner_clone (demoWorld "/dev/sdb1\n" "/media/sd\n" "3221225472\n" "") []
        (some "/dev/sdb") (some "/dev/sdc") 0
      = (.ret 0,
        [.lsblkParts "/dev/sdb", .blkidType "/dev/sdb1", .lsblkMountpoint "/dev/sdb1",
         .dfUsed "/media/sd",
         .lsblkParts "/dev/sdb",
         .lsblkParts "/dev/sdb", .blkidType "/dev/sdb1", .lsblkMountpoint "/dev/sdb1",
         .dfUsed "/media/sd",
         .mkdirP "/home/u/SDCloner/images", .truncateS 8589934592 demoImg,
         .losetupFind, .losetupAttach "/dev/loop0" demoImg,
         .partedMklabel "/dev/loop0", .partedMkpart "/dev/loop0", .lsLoopP1 "/dev/loop0",
         .mkfsVfat "/dev/loop0p1", .mkdirMounts, .lsblkParts "/dev/sdb",
         .mountSrcRo "/dev/sdb1" "/mnt/sdcloner_src",
         .mountTgt "/dev/loop0p1" "/mnt/sdcloner_img",
         .rsyncMirror, .sync, .umountImg, .umountSrc, .losetupDetach "/dev/loop0",
         .umountDest "/dev/sdc", .burnPipe "cat" demoImg "/dev/sdc"])
    ∧ sdcloner_clone (demoWorld "/dev/sdb1\n" "/media/sd\n" "9663676416\n" "") []
        (some "/dev/sdb") (some "/dev/sdc") 0
      = (.died .destTooSmall,
        [.lsblkParts "/dev/sdb", .blkidType "/dev/sdb1", .lsblkMountpoint "/dev/sdb1",
         .dfUsed "/media/sd"]) :=
  ⟨((clone_to_smaller_destination (demoWorld "/dev/sdb1\n" "/media/sd\n" "3221225472\n" "") []
      "/dev/sdb" "/dev/sdc" 0 (16 * 2 ^ 30) (8 * 2 ^ 30) (by decide) (by decide) (by decide)
      (by decide) (by decide) (by decide)).2 (by decide)).trans (by decide),
   ((clone_to_smaller_destination (demoWorld "/dev/sdb1\n" "/media/sd\n" "9663676416\n" "") []
      "/dev/sdb" "/dev/sdc" 0 (16 * 2 ^ 30) (8 * 2 ^ 30) (by decide) (by decide) (by decide)
      (by decide) (by decide) (by decide)).1 (by decide)).1.trans (by decide)⟩

/-! ## C2: no destination device -/

/-- C2: `sdcloner_clone` with a readable source of size `S` and no destination
device (`NULL` or the empty string), the measured used-byte count `U` being such
that `U + 512 MiB < 2^64`, for every hint `H`.  (a) If `H` is non-zero, `H < S`
and `U + 512 MiB <= H`, `make_fsaware_image_fit` is called with target exactly
`H` and the call ends as it does.  (b) If `H` is non-zero, `H < S` and
`U + 512 MiB > H`, the call ends in `die` with the future-destination-too-small
message after the estimator's commands alone.  (c) Otherwise the raw imager runs:
the image directory command and the raw imaging pipeline follow the estimator's
commands, and the status of the pipeline is returned; nothing in this result
depends on `H`.  In every case no command of the burner is issued. -/
theorem clone_without_destination (w : World) (tr : Trace) (src : String)
    (dest : Option String) (H S : Nat)
    (hr : w.readable src = true)
    (hS : get_blockdev_size_bytes w src = .ret S)
    (hdest : dest = none ∨ dest = some "")
    (hU : (compute_used_bytes_sum w tr src).1 + 536870912 < 2 ^ 64) :
    (H ≠ 0 → H < S → (compute_used_bytes_sum w tr src).1 + 536870912 ≤ H →
        sdcloner_clone w tr (some src) dest H
          = match make_fsaware_image_fit w (compute_used_bytes_sum w tr src).2 src H 512 with
            | (.died d, t) => (.died d, t)
            | (.ret r, t) => (.ret r.1, t))
    ∧ (H ≠ 0 → H < S → (compute_used_bytes_sum w tr src).1 + 536870912 > H →
        sdcloner_clone w tr (some src) dest H
          = (.died .futureDestTooSmall, (compute_used_bytes_sum w tr src).2)
        ∧ ∃ est, (compute_used_bytes_sum w tr src).2 = tr ++ est
            ∧ ∀ c ∈ est, c.isEstimator = true)
    ∧ ((H = 0 ∨ S ≤ H) →
        sdcloner_clone w tr (some src) dest H
          = (.ret (runCmd w ((compute_used_bytes_sum w tr src).2 ++ [.mkdirP (image_dir w)])
                (.ddGzip src (timestamp_path w
                  ((compute_used_bytes_sum w tr src).2 ++ [.mkdirP (image_dir w)]) 512
                  (image_dir w) "img.gz"))).1,
             (compute_used_bytes_sum w tr src).2 ++ [.mkdirP (image_dir w),
               .ddGzip src (timestamp_path w
                 ((compute_used_bytes_sum w tr src).2 ++ [.mkdirP (image_dir w)]) 512
                 (image_dir w) "img.gz")]))
    ∧ (∀ ext, (sdcloner_clone w tr (some src) dest H).2 = tr ++ ext →
        ∀ c ∈ ext, c.kind ≠ .burn) := by
  have hadd := add64_margin _ hU
  have hnd : (dest.isNone = true ∨ dest = some "") := by
    rcases hdest with rfl | rfl <;> simp
  have ha : H ≠ 0 → H < S → (compute_used_bytes_sum w tr src).1 + 536870912 ≤ H →
      sdcloner_clone w tr (some src) dest H
        = match make_fsaware_image_fit w (compute_used_bytes_sum w tr src).2 src H 512 with
          | (.died d, t) => (.died d, t)
          | (.ret r, t) => (.ret r.1, t) := by
    intro h0 h1 h2
    unfold sdcloner_clone
    simp only [hr, hS, hnd, hadd, if_true, if_false, Bool.true_eq_false]
    rw [if_pos ⟨h0, h1⟩, if_pos h2]
    rfl
  have hb : H ≠ 0 → H < S → (compute_used_bytes_sum w tr src).1 + 536870912 > H →
      sdcloner_clone w tr (some src) dest H
        = (.died .futureDestTooSmall, (compute_used_bytes_sum w tr src).2) := by
    intro h0 h1 h2
    unfold sdcloner_clone
    simp only [hr, hS, hnd, hadd, if_true, if_false, Bool.true_eq_false]
    rw [if_pos ⟨h0, h1⟩, if_neg (by omega)]
  have hc : (H = 0 ∨ S ≤ H) →
      sdcloner_clone w tr (some src) dest H
        = (.ret (runCmd w ((compute_used_bytes_sum w tr src).2 ++ [.mkdirP (image_dir w)])
              (.ddGzip src (timestamp_path w
                ((compute_used_bytes_sum w tr src).2 ++ [.mkdirP (image_dir w)]) 512
                (image_dir w) "img.gz"))).1,
           (compute_used_bytes_sum w tr src).2 ++ [.mkdirP (image_dir w),
             .ddGzip src (timestamp_path w
               ((compute_used_bytes_sum w tr src).2 ++ [.mkdirP (image_dir w)]) 512
               (image_dir w) "img.gz")]) := by
    intro h
    unfold sdcloner_clone
    simp only [hr, hS, hnd, if_true, if_false, Bool.true_eq_false]
    rw [if_neg (by omega)]
    simp only [OUTPATH_CAP, make_raw_image_gz_eq]
  obtain ⟨est, hest, hk⟩ := compute_used_bytes_sum_trace w tr src
  refine ⟨ha, fun h0 h1 h2 => ⟨hb h0 h1 h2, est, hest, hk⟩, hc, ?_⟩
  have hestP : ∀ c ∈ est, c.kind ≠ .burn := fun c hc =>
    (isFitImager_not_burn c (isFitImager_of_isEstimator c (hk c hc))).1
  intro ext hext c hcin
  by_cases hraw : H = 0 ∨ S ≤ H
  · rw [hc hraw, hest] at hext
    simp only [List.append_assoc, List.append_cancel_left_eq] at hext
    subst hext
    rcases List.mem_append.mp hcin with h | h
    · exact hestP c h
    · simp only [List.mem_cons, List.mem_singleton, List.not_mem_nil, or_false] at h
      rcases h with rfl | rfl <;> simp [Cmd.kind]
  · have h0 : H ≠ 0 := fun h => hraw (Or.inl h)
    have h1 : H < S := by omega
    by_cases hfit : (compute_used_bytes_sum w tr src).1 + 536870912 ≤ H
    · obtain ⟨e2, he2, hk2⟩ :=
        make_fsaware_image_fit_trace w (compute_used_bytes_sum w tr src).2 src H 512
      have htr : (sdcloner_clone w tr (some src) dest H).2
          = (make_fsaware_image_fit w (compute_used_bytes_sum w tr src).2 src H 512).2 := by
        rw [ha h0 h1 hfit]
        split <;> simp_all
      rw [htr, he2, hest] at hext
      simp only [List.append_assoc, List.append_cancel_left_eq] at hext
      subst hext
      rcases List.mem_append.mp hcin with h | h
      · exact hestP c h
      · exact (isFitImager_not_burn c (hk2 c h)).1
    · rw [hb h0 h1 (by omega), hest] at hext
      have : ext = est := (List.append_cancel_left hext).symm
      subst this
      exact hestP c hcin

set_option maxRecDepth 100000 in
/-- C2 on scenario C of the specification: no destination, hint 32 GiB, source
16 GiB; the raw imager runs after the estimator's queries. -/
theorem clone_without_destination_witness :
    sdcloner_clone (demoWorld "/dev/sdb1\n" "/media/sd\n" "3221225472\n" "") []
        (some "/dev/sdb") none (32 * 2 ^ 30)
      = (.ret 0,
        [.lsblkParts "/dev/sdb", .blkidType "/dev/sdb1", .lsblkMountpoint "/dev/sdb1",
         .dfUsed "/media/sd",
         .mkdirP "/home/u/SDCloner/images", .ddGzip "/dev/sdb" demoImgGz]) :=
  ((clone_without_destination (demoWorld "/dev/sdb1\n" "/media/sd\n" "3221225472\n" "") []
      "/dev/sdb" none (32 * 2 ^ 30) (16 * 2 ^ 30) (by decide) (by decide) (Or.inl rfl)
      (by decide)).2.2.1 (Or.inr (by decide))).trans (by decide)

/-! ## C3: destination at least as large as the source -/

/-- C3: `sdcloner_clone` with a readable source of size `S` and a destination
device of size `D >= S` runs the raw imager after the estimator and, exactly when
the raw imager returned 0, the burner on the image it wrote and on that
destination.  Two runs from the same history on hosts that differ only in what
the disk-usage queries print (hence in the used-byte count), and with any two
hints, end alike and issue the same commands.  No command that allocates an
image, sets up a loop device, partitions, formats or mirrors is issued. -/
theorem clone_to_larger_destination (w1 w2 : World) (tr : Trace) (src dest : String)
    (hint1 hint2 S D : Nat)
    (hsame : same_but_usage w1 w2)
    (hr : w1.readable src = true)
    (hS : get_blockdev_size_bytes w1 src = .ret S)
    (hdest : dest ≠ "")
    (hD : get_blockdev_size_bytes w1 dest = .ret D)
    (hge : S ≤ D) :
    sdcloner_clone w1 tr (some src) (some dest) hint1
      = (if (make_raw_image_gz w1 (compute_used_bytes_sum w1 tr src).2 src 512).1.1 ≠ 0 then
          (.ret (make_raw_image_gz w1 (compute_used_bytes_sum w1 tr src).2 src 512).1.1,
            (compute_used_bytes_sum w1 tr src).2 ++ [.mkdirP (image_dir w1),
              .ddGzip src (raw_path w1 (compute_used_bytes_sum w1 tr src).2)])
        else
          (.ret (burn_image_to_disk w1
              (make_raw_image_gz w1 (compute_used_bytes_sum w1 tr src).2 src 512).2
              (raw_path w1 (compute_used_bytes_sum w1 tr src).2) dest).1,
            (compute_used_bytes_sum w1 tr src).2 ++ [.mkdirP (image_dir w1),
              .ddGzip src (raw_path w1 (compute_used_bytes_sum w1 tr src).2),
              .umountDest dest,
              .burnPipe (if strstr_found ".gz".data
                  (raw_path w1 (compute_used_bytes_sum w1 tr src).2).data
                then "gzip -dc" else "cat")
                (raw_path w1 (compute_used_bytes_sum w1 tr src).2) dest]))
    ∧ sdcloner_clone w1 tr (some src) (some dest) hint1
        = sdcloner_clone w2 tr (some src) (some dest) hint2
    ∧ (∀ ext, (sdcloner_clone w1 tr (some src) (some dest) hint1).2 = tr ++ ext →
        ∀ c ∈ ext, c.kind ≠ .allocate ∧ c.kind ≠ .loopSetup ∧ c.kind ≠ .partitioning
          ∧ c.kind ≠ .format ∧ c.kind ≠ .mirror) := by
  have hnd : ¬ ((some dest : Option String).isNone = true
      ∨ (some dest : Option String) = some "") := by
    simp [hdest]
  have hform : ∀ (w : World) (hint : Nat), w.readable src = true →
      get_blockdev_size_bytes w src = .ret S → get_blockdev_size_bytes w dest = .ret D →
      sdcloner_clone w tr (some src) (some dest) hint
        = (if (make_raw_image_gz w (compute_used_bytes_sum w tr src).2 src 512).1.1 ≠ 0 then
            (.ret (make_raw_image_gz w (compute_used_bytes_sum w tr src).2 src 512).1.1,
              (make_raw_image_gz w (compute_used_bytes_sum w tr src).2 src 512).2)
          else
            (.ret (burn_image_to_disk w
                (make_raw_image_gz w (compute_used_bytes_sum w tr src).2 src 512).2
                (make_raw_image_gz w (compute_used_bytes_sum w tr src).2 src 512).1.2 dest).1,
              (burn_image_to_disk w
                (make_raw_image_gz w (compute_used_bytes_sum w tr src).2 src 512).2
                (make_raw_image_gz w (compute_used_bytes_sum w tr src).2 src 512).1.2
                dest).2)) := by
    intro w hint h1 h2 h3
    unfold sdcloner_clone
    simp only [h1, h2, h3, hnd, Option.getD_some, if_false, Bool.true_eq_false]
    rw [if_pos (by omega)]
    rfl
  have hfirst := hform w1 hint1 hr hS hD
  have hsecond : sdcloner_clone w1 tr (some src) (some dest) hint1
      = sdcloner_clone w2 tr (some src) (some dest) hint2 := by
    have hr2 : w2.readable src = true := by rw [← hsame.1]; exact hr
    have hS2 : get_blockdev_size_bytes w2 src = .ret S := by
      rw [← hS]; unfold get_blockdev_size_bytes; rw [hsame.2.1]
    have hD2 : get_blockdev_size_bytes w2 dest = .ret D := by
      rw [← hD]; unfold get_blockdev_size_bytes; rw [hsame.2.1]
    rw [hfirst, hform w2 hint2 hr2 hS2 hD2, compute_used_bytes_sum_trace_same w1 w2 hsame,
      make_raw_image_gz_same w1 w2 hsame]
    simp only [burn_image_to_disk_same w1 w2 hsame]
  have hexpl : sdcloner_clone w1 tr (some src) (some dest) hint1
      = (if (make_raw_image_gz w1 (compute_used_bytes_sum w1 tr src).2 src 512).1.1 ≠ 0 then
          (.ret (make_raw_image_gz w1 (compute_used_bytes_sum w1 tr src).2 src 512).1.1,
            (compute_used_bytes_sum w1 tr src).2 ++ [.mkdirP (image_dir w1),
              .ddGzip src (raw_path w1 (compute_used_bytes_sum w1 tr src).2)])
        else
          (.ret (burn_image_to_disk w1
              (make_raw_image_gz w1 (compute_used_bytes_sum w1 tr src).2 src 512).2
              (raw_path w1 (compute_used_bytes_sum w1 tr src).2) dest).1,
            (compute_used_bytes_sum w1 tr src).2 ++ [.mkdirP (image_dir w1),
              .ddGzip src (raw_path w1 (compute_used_bytes_sum w1 tr src).2),
              .umountDest dest,
              .burnPipe (if strstr_found ".gz".data
                  (raw_path w1 (compute_used_bytes_sum w1 tr src).2).data
                then "gzip -dc" else "cat")
                (raw_path w1 (compute_used_bytes_sum w1 tr src).2) dest])) := by
    rw [hfirst]
    simp only [burn_image_to_disk_trace, make_raw_image_gz_eq, raw_path, List.append_assoc,
      List.cons_append, List.nil_append]
  refine ⟨hexpl, hsecond, ?_⟩
  obtain ⟨est, hest, hk⟩ := compute_used_bytes_sum_trace w1 tr src
  have hestP : ∀ c ∈ est, c.kind ≠ .allocate ∧ c.kind ≠ .loopSetup ∧ c.kind ≠ .partitioning
      ∧ c.kind ≠ .format ∧ c.kind ≠ .mirror := by
    intro c hc
    rcases isEstimator_kind c (hk c hc) with h | h | h | h | h <;> simp [h]
  intro ext hext c hc
  rw [hexpl, hest] at hext
  split_ifs at hext
  all_goals
    simp only [List.append_assoc, List.append_cancel_left_eq] at hext
    subst hext
    rcases List.mem_append.mp hc with h | h
    · exact hestP c h
    · simp only [List.mem_cons, List.mem_singleton, List.not_mem_nil, or_false] at h
      rcases h with rfl | rfl | rfl | rfl <;> simp [Cmd.kind]

set_option maxRecDepth 100000 in
/-- C3 on scenario D of the specification (source 16 GiB, destination 32 GiB):
with 3 GiB in use and no hint, and with 9 GiB in use and a hint of 123 bytes,
the run is the same: estimator, raw imager, burner. -/
theorem clone_to_larger_destination_witness :
    sdcloner_clone (demoWorld "/dev/sdb1\n" "/media/sd\n" "3221225472\n" "") []
        (some "/dev/sdb") (some "/dev/sdd") 0
      = sdcloner_clone (demoWorld "/dev/sdb1\n" "/media/sd\n" "9663676416\n" "") []
        (some "/dev/sdb") (some "/dev/sdd") 123
    ∧ sdcloner_clone (demoWorld "/dev/sdb1\n" "/media/sd\n" "3221225472\n" "") []
        (some "/dev/sdb") (some "/dev/sdd") 0
      = (.ret 0,
        [.lsblkParts "/dev/sdb", .blkidType "/dev/sdb1", .lsblkMountpoint "/dev/sdb1",
         .dfUsed "/media/sd",
         .mkdirP "/home/u/SDCloner/images", .ddGzip "/dev/sdb" demoImgGz,
         .umountDest "/dev/sdd", .burnPipe "gzip -dc" demoImgGz "/dev/sdd"]) :=
  ⟨(clone_to_larger_destination (demoWorld "/dev/sdb1\n" "/media/sd\n" "3221225472\n" "")
      (demoWorld "/dev/sdb1\n" "/media/sd\n" "9663676416\n" "") [] "/dev/sdb" "/dev/sdd"
      0 123 (16 * 2 ^ 30) (32 * 2 ^ 30) (demoWorld_same_but_usage _ _ _ _ _) (by decide)
      (by decide) (by decide) (by decide) (by decide)).2.1,
   (clone_to_larger_destination (demoWorld "/dev/sdb1\n" "/media/sd\n" "3221225472\n" "")
      (demoWorld "/dev/sdb1\n" "/media/sd\n" "9663676416\n" "") [] "/dev/sdb" "/dev/sdd"
      0 123 (16 * 2 ^ 30) (32 * 2 ^ 30) (demoWorld_same_but_usage _ _ _ _ _) (by decide)
      (by decide) (by decide) (by decide) (by decide)).1.trans (by decide)⟩

/-! ## C4: the capacity check of the Fit Imager -/

set_option maxRecDepth 100000 in
/-- C4 fails on the code: on a host whose single mounted vfat partition is
reported with 2^64 - 1 bytes in use, the estimator returns 2^64 - 1, the 64-bit
sum `used + SAFETY_MARGIN_BYTES` wraps to 2^29 - 1, and `make_fsaware_image_fit`
with a target of 512 MiB passes its capacity check, allocates the image and runs
to the end, although `used + 512 MiB` exceeds the target. -/
theorem fit_capacity_check_wraps :
    (compute_used_bytes_sum
        (demoWorld "/dev/sdb1\n" "/media/sd\n" "18446744073709551615\n" "")
        [.lsblkParts "/dev/sdb"] "/dev/sdb").1 = 2 ^ 64 - 1
    ∧ add64 (2 ^ 64 - 1) SAFETY_MARGIN_BYTES = 2 ^ 29 - 1
    ∧ make_fsaware_image_fit
        (demoWorld "/dev/sdb1\n" "/media/sd\n" "18446744073709551615\n" "") []
        "/dev/sdb" 536870912 512
      = (.ret (0, demoImg),
        [.lsblkParts "/dev/sdb",
         .lsblkParts "/dev/sdb", .blkidType "/dev/sdb1", .lsblkMountpoint "/dev/sdb1",
         .dfUsed "/media/sd",
         .mkdirP "/home/u/SDCloner/images", .truncateS 536870912 demoImg,
         .losetupFind, .losetupAttach "/dev/loop0" demoImg,
         .partedMklabel "/dev/loop0", .partedMkpart "/dev/loop0", .lsLoopP1 "/dev/loop0",
         .mkfsVfat "/dev/loop0p1", .mkdirMounts, .lsblkParts "/dev/sdb",
         .mountSrcRo "/dev/sdb1" "/mnt/sdcloner_src",
         .mountTgt "/dev/loop0p1" "/mnt/sdcloner_img",
         .rsyncMirror, .sync, .umountImg, .umountSrc, .losetupDetach "/dev/loop0"]) := by
  decide

/-- The capacity check of `make_fsaware_image_fit` as the code decides it: the
call ends in `die` with the capacity message exactly when the source has
partitions and the 64-bit sum `used + SAFETY_MARGIN_BYTES`, which wraps at 2^64,
exceeds the target. -/
theorem fit_capacity_failure_iff (w : World) (tr : Trace) (src : String) (T cap : Nat) :
    (make_fsaware_image_fit w tr src T cap).1 = .died .capacityTooSmall ↔
      ((list_partitions w tr src).1 ≠ []
        ∧ T < add64 (compute_used_bytes_sum w (tr ++ [.lsblkParts src]) src).1
            SAFETY_MARGIN_BYTES) := by
  obtain ⟨est, -, -, h⟩ := make_fsaware_image_fit_shape w tr src T cap
  rcases h with ⟨hnil, h⟩ | ⟨hne, hgt, h⟩ | ⟨hne, hle, loop, p1, sp0, h⟩
  · rw [h]
    simp [hnil]
  · rw [h]
    simp [hne, hgt]
  · constructor
    · intro hd
      exfalso
      rcases h with ⟨d, k, hk, h, -⟩ | ⟨h, -⟩ | ⟨h, -⟩
      · rw [h] at hd
        simp only [Outcome.died.injEq] at hd
        subst hd
        simp [fit_die_at] at hk
      · rw [h] at hd
        simp at hd
      · rw [h] at hd
        simp at hd
    · rintro ⟨-, hgt⟩
      omega

/-! ## C5: failure of a precondition of the Fit Imager -/

/-- C5 (as amended): when `make_fsaware_image_fit` finds no partition, it ends in
`die` after the partition listing alone.  When the source has partitions and the
measured used-byte count `U` has `U + 512 MiB < 2^64` and `U + 512 MiB > T`, it
ends in `die` with the capacity message after the partition listing and the
commands of its used-bytes measurement: each of these is a query, a disk-usage
query, or the scratch directory creation, read-only mount, unmount and directory
removal of the estimator; none creates the image directory, allocates the image,
sets up a loop device, partitions, formats, images, mirrors or burns. -/
theorem fit_precondition_failure (w : World) (tr : Trace) (src : String) (T cap : Nat) :
    ((list_partitions w tr src).1 = [] →
        make_fsaware_image_fit w tr src T cap = (.died .noPartitions, tr ++ [.lsblkParts src]))
    ∧ ((list_partitions w tr src).1 ≠ [] →
        (compute_used_bytes_sum w (tr ++ [.lsblkParts src]) src).1 + 536870912 < 2 ^ 64 →
        (compute_used_bytes_sum w (tr ++ [.lsblkParts src]) src).1 + 536870912 > T →
        ∃ est, make_fsaware_image_fit w tr src T cap
            = (.died .capacityTooSmall, tr ++ [.lsblkParts src] ++ est)
          ∧ (compute_used_bytes_sum w (tr ++ [.lsblkParts src]) src).2
            = tr ++ [.lsblkParts src] ++ est
          ∧ ∀ c ∈ est, c.isEstimator = true ∧ c.kind ≠ .imageDir ∧ c.kind ≠ .allocate
              ∧ c.kind ≠ .loopSetup ∧ c.kind ≠ .partitioning ∧ c.kind ≠ .format
              ∧ c.kind ≠ .rawImage ∧ c.kind ≠ .mirror ∧ c.kind ≠ .burn) := by
  obtain ⟨est, hest, hk, h⟩ := make_fsaware_image_fit_shape w tr src T cap
  constructor
  · intro hnil
    rcases h with ⟨-, h⟩ | ⟨hne, -⟩ | ⟨hne, -⟩
    · exact h
    · exact absurd hnil hne
    · exact absurd hnil hne
  · intro hne hU hgt
    rw [add64_margin _ hU] at h
    rcases h with ⟨hnil, -⟩ | ⟨-, -, h⟩ | ⟨-, hle, -⟩
    · exact absurd hnil hne
    · refine ⟨est, h, hest, fun c hc => ⟨hk c hc, ?_⟩⟩
      rcases isEstimator_kind c (hk c hc) with h | h | h | h | h <;> simp [h]
    · omega

set_option maxRecDepth 100000 in
/-- C5 (as amended) on a host whose single vfat partition is mounted and has
9 GiB in use, with a target of 8 GiB: the call ends in `die` with the capacity
message after the listing and the estimator's queries. -/
theorem fit_precondition_failure_witness :
    make_fsaware_image_fit (demoWorld "/dev/sdb1\n" "/media/sd\n" "9663676416\n" "") []
        "/dev/sdb" (8 * 2 ^ 30) 512
      = (.died .capacityTooSmall,
        [.lsblkParts "/dev/sdb",
         .lsblkParts "/dev/sdb", .blkidType "/dev/sdb1", .lsblkMountpoint "/dev/sdb1",
         .dfUsed "/media/sd"]) := by
  obtain ⟨est, h1, h2, -⟩ :=
    (fit_precondition_failure (demoWorld "/dev/sdb1\n" "/media/sd\n" "9663676416\n" "") []
      "/dev/sdb" (8 * 2 ^ 30) 512).2 (by decide) (by decide) (by decide)
  rw [h1, ← h2]
  decide

set_option maxRecDepth 100000 in
/-- C5 as stated fails: on a host whose single vfat partition is not mounted
(the mountpoint query prints an empty line) and has 9 GiB in use, `make_fsaware_image_fit` with a target of 8 GiB ends in `die`
with the capacity message, but its used-bytes measurement has by then created
the scratch directory `/mnt/sdcloner_src_0`, mounted the partition on it,
unmounted it and removed the directory. -/
theorem fit_precondition_failure_after_scratch_mount :
    make_fsaware_image_fit (demoWorld "/dev/sdb1\n" "\n" "9663676416\n" "") []
        "/dev/sdb" (8 * 2 ^ 30) 512
      = (.died .capacityTooSmall,
        [.lsblkParts "/dev/sdb",
         .lsblkParts "/dev/sdb", .blkidType "/dev/sdb1", .lsblkMountpoint "/dev/sdb1",
         .sudoMkdirP "/mnt/sdcloner_src_0",
         .mountRoQuiet "/dev/sdb1" "/mnt/sdcloner_src_0",
         .dfUsed "/mnt/sdcloner_src_0",
         .sudoUmount "/mnt/sdcloner_src_0", .sudoRmdir "/mnt/sdcloner_src_0"]) := by
  decide

/-! ## C6: loop detach on every exit path -/

set_option maxRecDepth 100000 in
/-- C6 fails on the code: on a host where the loop attach succeeds and the
partition-table write exits with 1, `make_fsaware_image_fit` ends in `die` right
after the failed command; the loop device `/dev/loop0` it attached is never
detached. -/
theorem fit_loop_left_attached :
    make_fsaware_image_fit (demoWorld "/dev/sdb1\n" "/media/sd\n" "3221225472\n" "sudo parted")
        [] "/dev/sdb" (8 * 2 ^ 30) 512
      = (.died .mklabelFailed,
        [.lsblkParts "/dev/sdb",
         .lsblkParts "/dev/sdb", .blkidType "/dev/sdb1", .lsblkMountpoint "/dev/sdb1",
         .dfUsed "/media/sd",
         .mkdirP "/home/u/SDCloner/images", .truncateS 8589934592 demoImg,
         .losetupFind, .losetupAttach "/dev/loop0" demoImg,
         .partedMklabel "/dev/loop0"])
    ∧ Cmd.losetupDetach "/dev/loop0" ∉
        (make_fsaware_image_fit
          (demoWorld "/dev/sdb1\n" "/media/sd\n" "3221225472\n" "sudo parted")
          [] "/dev/sdb" (8 * 2 ^ 30) 512).2 := by
  decide

/-- The loop detach of `make_fsaware_image_fit` is issued only on the path that
returns: a run that issues a loop detach does not end in `die`. -/
theorem fit_detach_only_on_return (w : World) (tr : Trace) (src : String) (T cap : Nat)
    (ext : Trace) (hext : (make_fsaware_image_fit w tr src T cap).2 = tr ++ ext)
    (loop : String) (hin : Cmd.losetupDetach loop ∈ ext) :
    ∃ r, (make_fsaware_image_fit w tr src T cap).1 = .ret r := by
  obtain ⟨est, -, hk, h⟩ := make_fsaware_image_fit_shape w tr src T cap
  have hest : Cmd.losetupDetach loop ∉ est := by
    intro hc
    have := hk _ hc
    simp [Cmd.isEstimator] at this
  rcases h with ⟨-, h⟩ | ⟨-, -, h⟩ | ⟨-, -, lp, p1, sp0, h⟩
  · rw [h] at hext
    have : ext = [.lsblkParts src] := (List.append_cancel_left hext).symm
    subst this
    simp at hin
  · rw [h] at hext
    simp only [List.append_assoc, List.append_cancel_left_eq] at hext
    subst hext
    simp [hest] at hin
  · rcases h with ⟨d, k, hk2, h, -⟩ | ⟨h, -⟩ | ⟨h, -⟩
    · rw [h] at hext
      simp only [List.append_assoc, List.append_cancel_left_eq] at hext
      subst hext
      exfalso
      cases d <;> simp [fit_die_at] at hk2 <;> subst hk2 <;>
        simp [fit_commands, hest] at hin
    · rw [h] at hext
      simp only [List.append_assoc, List.append_cancel_left_eq] at hext
      subst hext
      simp [fit_commands, hest] at hin
    · exact ⟨_, by rw [h]⟩

/-! ## C7: mirror and teardown -/

theorem isEstimator_ne_rsync (c : Cmd) (h : c.isEstimator = true) : c ≠ .rsyncMirror := by
  rintro rfl
  simp [Cmd.isEstimator] at h

/-- C7: in every run of `make_fsaware_image_fit` that issues the mirror command,
whatever its exit status, the commands issued after it are, in this order, the
flush, the unmount of the image mountpoint, the unmount of the source mountpoint
and the detach of the loop device that was attached before; these are the last
commands of the run, the mirror is issued once, and the function then returns
the status of the mirror (so the status returned is non-zero exactly when the
mirror's is). -/
theorem fit_mirror_teardown (w : World) (tr : Trace) (src : String) (T cap : Nat)
    (ext : Trace) (hext : (make_fsaware_image_fit w tr src T cap).2 = tr ++ ext)
    (hreach : Cmd.rsyncMirror ∈ ext) :
    ∃ pre loop path,
      ext = pre ++ [.rsyncMirror, .sync, .umountImg, .umountSrc, .losetupDetach loop]
      ∧ Cmd.rsyncMirror ∉ pre
      ∧ Cmd.losetupAttach loop path ∈ pre
      ∧ (make_fsaware_image_fit w tr src T cap).1
          = .ret ((runCmd w (tr ++ pre) .rsyncMirror).1, path) := by
  obtain ⟨est, -, hk, h⟩ := make_fsaware_image_fit_shape w tr src T cap
  have hest : Cmd.rsyncMirror ∉ est := fun hin => isEstimator_ne_rsync _ (hk _ hin) rfl
  generalize timestamp_path w (tr ++ [.lsblkParts src] ++ est ++ [.mkdirP (image_dir w)]) cap
    (image_dir w) "img" = path at h
  rcases h with ⟨-, h⟩ | ⟨-, -, h⟩ | ⟨-, -, loop, p1, sp0, h⟩
  · rw [h] at hext
    have : ext = [.lsblkParts src] := (List.append_cancel_left hext).symm
    subst this
    simp at hreach
  · rw [h] at hext
    simp only [List.append_assoc, List.append_cancel_left_eq] at hext
    subst hext
    simp [hest] at hreach
  · rcases h with ⟨d, k, hk2, h, -⟩ | ⟨h, -⟩ | ⟨h, -⟩
    · rw [h] at hext
      simp only [List.append_assoc, List.append_cancel_left_eq] at hext
      subst hext
      exfalso
      cases d <;> simp [fit_die_at] at hk2 <;> subst hk2 <;>
        simp [fit_commands, hest] at hreach
    · rw [h] at hext
      simp only [List.append_assoc, List.append_cancel_left_eq] at hext
      subst hext
      simp [fit_commands, hest] at hreach
    · rw [h] at hext
      simp only [List.append_assoc, List.append_cancel_left_eq] at hext
      subst hext
      refine ⟨[.lsblkParts src] ++ est
        ++ (fit_commands T (image_dir w) path loop p1 src sp0).take 12, loop, path,
        ?_, ?_, ?_, ?_⟩
      · simp [fit_commands]
      · simp [fit_commands, hest]
      · simp [fit_commands]
      · rw [h]
        simp [fit_commands]

set_option maxRecDepth 100000 in
/-- C7 on a host where the mirror exits with 1: the teardown follows and the
function returns 1. -/
theorem fit_mirror_teardown_witness :
    ∃ pre loop path,
      [Cmd.lsblkParts "/dev/sdb",
         .lsblkParts "/dev/sdb", .blkidType "/dev/sdb1", .lsblkMountpoint "/dev/sdb1",
         .dfUsed "/media/sd",
         .mkdirP "/home/u/SDCloner/images", .truncateS 8589934592 demoImg,
         .losetupFind, .losetupAttach "/dev/loop0" demoImg,
         .partedMklabel "/dev/loop0", .partedMkpart "/dev/loop0", .lsLoopP1 "/dev/loop0",
         .mkfsVfat "/dev/loop0p1", .mkdirMounts, .lsblkParts "/dev/sdb",
         .mountSrcRo "/dev/sdb1" "/mnt/sdcloner_src",
         .mountTgt "/dev/loop0p1" "/mnt/sdcloner_img",
         .rsyncMirror, .sync, .umountImg, .umountSrc, .losetupDetach "/dev/loop0"]
        = pre ++ [.rsyncMirror, .sync, .umountImg, .umountSrc, .losetupDetach loop]
      ∧ Cmd.rsyncMirror ∉ pre
      ∧ Cmd.losetupAttach loop path ∈ pre
      ∧ (make_fsaware_image_fit
          (demoWorld "/dev/sdb1\n" "/media/sd\n" "3221225472\n" "sudo rsync") []
          "/dev/sdb" (8 * 2 ^ 30) 512).1
          = .ret ((runCmd (demoWorld "/dev/sdb1\n" "/media/sd\n" "3221225472\n" "sudo rsync")
              ([] ++ pre) .rsyncMirror).1, path) :=
  fit_mirror_teardown (demoWorld "/dev/sdb1\n" "/media/sd\n" "3221225472\n" "sudo rsync") []
    "/dev/sdb" (8 * 2 ^ 30) 512 _ (by decide) (by decide)

/-! ## C8: the Fit Imager and the source device -/

/-- C9: `sdcloner_clone` with a destination device, when an imaging step is run
(the raw imager for `D >= S`, the Fit Imager for `D < S` once the orchestrator's
capacity check has passed).  If the imaging step ends in `die`, so does the call.
If it returns a non-zero status `s`, the call returns exactly `s` and issues no
command after those of the imaging step.  If it returns 0, the burner is run on
the image and the destination and the call returns exactly the burner's status.
Hence a command of the burner (the unmount of the destination's partitions or
the write pipeline) is issued if and only if the imaging step returned 0. -/
theorem clone_fail_fast (w : World) (tr : Trace) (src dest : String) (hint S D : Nat)
    (hr : w.readable src = true)
    (hS : get_blockdev_size_bytes w src = .ret S)
    (hdest : dest ≠ "")
    (hD : get_blockdev_size_bytes w dest = .ret D)
    (hcap : D < S → add64 (compute_used_bytes_sum w tr src).1 SAFETY_MARGIN_BYTES ≤ D) :
    (∀ d t, clone_imaging_step w (compute_used_bytes_sum w tr src).2 src S D = (.died d, t) →
        sdcloner_clone w tr (some src) (some dest) hint = (.died d, t))
    ∧ (∀ s path t,
        clone_imaging_step w (compute_used_bytes_sum w tr src).2 src S D = (.ret (s, path), t) →
        s ≠ 0 → sdcloner_clone w tr (some src) (some dest) hint = (.ret s, t))
    ∧ (∀ path t,
        clone_imaging_step w (compute_used_bytes_sum w tr src).2 src S D = (.ret (0, path), t) →
        sdcloner_clone w tr (some src) (some dest) hint
          = (.ret (burn_image_to_disk w t path dest).1,
             t ++ [.umountDest dest,
               .burnPipe (if strstr_found ".gz".data path.data then "gzip -dc" else "cat")
                 path dest]))
    ∧ (∀ ext, (sdcloner_clone w tr (some src) (some dest) hint).2 = tr ++ ext →
        ((∃ c ∈ ext, c.kind = .burn) ↔
          ∃ path t, clone_imaging_step w (compute_used_bytes_sum w tr src).2 src S D
            = (.ret (0, path), t))) := by
  have hnd : ¬ ((some dest : Option String).isNone = true
      ∨ (some dest : Option String) = some "") := by
    simp [hdest]
  have hform : sdcloner_clone w tr (some src) (some dest) hint
      = match clone_imaging_step w (compute_used_bytes_sum w tr src).2 src S D with
        | (.died d, t) => (.died d, t)
        | (.ret r, t) =>
          if r.1 ≠ 0 then (.ret r.1, t)
          else (.ret (burn_image_to_disk w t r.2 dest).1, (burn_image_to_disk w t r.2 dest).2) := by
    unfold sdcloner_clone clone_imaging_step
    simp only [hr, hS, hD, hnd, Option.getD_some, if_false, Bool.true_eq_false]
    by_cases hge : S ≤ D
    · rw [if_pos hge, if_pos hge]
    · rw [if_neg hge, if_neg hge, if_neg (by have := hcap (by omega); omega)]
  have h1 : ∀ d t,
      clone_imaging_step w (compute_used_bytes_sum w tr src).2 src S D = (.died d, t) →
      sdcloner_clone w tr (some src) (some dest) hint = (.died d, t) := by
    intro d t h
    rw [hform, h]
  have h2 : ∀ s path t,
      clone_imaging_step w (compute_used_bytes_sum w tr src).2 src S D = (.ret (s, path), t) →
      s ≠ 0 → sdcloner_clone w tr (some src) (some dest) hint = (.ret s, t) := by
    intro s path t h hs
    rw [hform, h]
    simp [hs]
  have h3 : ∀ path t,
      clone_imaging_step w (compute_used_bytes_sum w tr src).2 src S D = (.ret (0, path), t) →
      sdcloner_clone w tr (some src) (some dest) hint
        = (.ret (burn_image_to_disk w t path dest).1,
           t ++ [.umountDest dest,
             .burnPipe (if strstr_found ".gz".data path.data then "gzip -dc" else "cat")
               path dest]) := by
    intro path t h
    rw [hform, h]
    simp [burn_image_to_disk_trace]
  refine ⟨h1, h2, h3, ?_⟩
  obtain ⟨est, hest, hk⟩ := compute_used_bytes_sum_trace w tr src
  obtain ⟨e2, he2, hk2⟩ := clone_imaging_step_trace w (compute_used_bytes_sum w tr src).2 src S D
  have hnoburn : ∀ c ∈ est ++ e2, c.kind ≠ .burn := by
    intro c hc
    rcases List.mem_append.mp hc with h | h
    · exact (isFitImager_not_burn c (isFitImager_of_isEstimator c (hk c h))).1
    · exact hk2 c h
  intro ext hext
  rcases hres : clone_imaging_step w (compute_used_bytes_sum w tr src).2 src S D with ⟨o, t⟩
  rw [hres] at he2
  simp only at he2
  cases o with
  | died d =>
    rw [h1 d t hres, he2, hest] at hext
    simp only [List.append_assoc, List.append_cancel_left_eq] at hext
    subst hext
    constructor
    · rintro ⟨c, hc, hb⟩
      exact absurd hb (hnoburn c hc)
    · rintro ⟨path, t', h⟩
      simp at h
  | ret r =>
    obtain ⟨s, path⟩ := r
    by_cases hs : s = 0
    · subst hs
      rw [h3 path t hres, he2, hest] at hext
      simp only [List.append_assoc, List.append_cancel_left_eq] at hext
      subst hext
      constructor
      · intro _
        exact ⟨path, t, rfl⟩
      · intro _
        exact ⟨.umountDest dest, by simp, rfl⟩
    · rw [h2 s path t hres hs, he2, hest] at hext
      simp only [List.append_assoc, List.append_cancel_left_eq] at hext
      subst hext
      constructor
      · rintro ⟨c, hc, hb⟩
        exact absurd hb (hnoburn c hc)
      · rintro ⟨path', t', h⟩
        simp only [Prod.mk.injEq, Outcome.ret.injEq] at h
        exact absurd h.1.1 hs

set_option maxRecDepth 100000 in
/-- C9 on two failing imaging steps: a raw imaging pipeline that exits with 1
(destination 32 GiB) and a mirror that exits with 1 (destination 8 GiB); in both
the call returns 1 and the last command is the last one of the imaging step. -/
theorem clone_fail_fast_witness :
    sdcloner_clone (demoWorld "/dev/sdb1\n" "/media/sd\n" "3221225472\n" "sudo dd if=") []
        (some "/dev/sdb") (some "/dev/sdd") 0
      = (.ret 1,
        [.lsblkParts "/dev/sdb", .blkidType "/dev/sdb1", .lsblkMountpoint "/dev/sdb1",
         .dfUsed "/media/sd",
         .mkdirP "/home/u/SDCloner/images", .ddGzip "/dev/sdb" demoImgGz])
    ∧ sdcloner_clone (demoWorld "/dev/sdb1\n" "/media/sd\n" "3221225472\n" "sudo rsync") []
        (some "/dev/sdb") (some "/dev/sdc") 0
      = (.ret 1,
        [.lsblkParts "/dev/sdb", .blkidType "/dev/sdb1", .lsblkMountpoint "/dev/sdb1",
         .dfUsed "/media/sd",
         .lsblkParts "/dev/sdb",
         .lsblkParts "/dev/sdb", .blkidType "/dev/sdb1", .lsblkMountpoint "/dev/sdb1",
         .dfUsed "/media/sd",
         .mkdirP "/home/u/SDCloner/images", .truncateS 8589934592 demoImg,
         .losetupFind, .losetupAttach "/dev/loop0" demoImg,
         .partedMklabel "/dev/loop0", .partedMkpart "/dev/loop0", .lsLoopP1 "/dev/loop0",
         .mkfsVfat "/dev/loop0p1", .mkdirMounts, .lsblkParts "/dev/sdb",
         .mountSrcRo "/dev/sdb1" "/mnt/sdcloner_src",
         .mountTgt "/dev/loop0p1" "/mnt/sdcloner_img",
         .rsyncMirror, .sync, .umountImg, .umountSrc, .losetupDetach "/dev/loop0"]) :=
  ⟨(clone_fail_fast (demoWorld "/dev/sdb1\n" "/media/sd\n" "3221225472\n" "sudo dd if=") []
      "/dev/sdb" "/dev/sdd" 0 (16 * 2 ^ 30) (32 * 2 ^ 30) (by decide) (by decide) (by decide)
      (by decide) (by decide)).2.1 1 demoImgGz _ (by decide) (by decide),
   (clone_fail_fast (demoWorld "/dev/sdb1\n" "/media/sd\n" "3221225472\n" "sudo rsync") []
      "/dev/sdb" "/dev/sdc" 0 (16 * 2 ^ 30) (8 * 2 ^ 30) (by decide) (by decide) (by decide)
      (by decide) (by decide)).2.1 1 demoImg _ (by decide) (by decide)⟩

/-! ## C10: what the usage estimator returns -/

/-- C10 (as amended): `compute_used_bytes_sum` issues the partition listing and
then one segment of commands per partition, in order; a partition whose
filesystem type is not one of ext2, ext3, ext4, vfat, fat, fat32, exfat has only
its type and mountpoint queries (no mount, usage query, unmount or directory
command) and adds nothing; a supported partition has exactly one disk-usage
query; the value returned is the sum of the values those queries reported,
reduced modulo 2^64.  With zero partitions the result is 0 after the listing
alone, and when no filesystem is ever reported as supported the result is 0 and
only the two queries per partition are issued. -/
theorem used_bytes_sum_over_supported (w : World) (tr : Trace) (disk : String) :
    ∃ ext, (compute_used_bytes_sum w tr disk).2 = tr ++ [.lsblkParts disk] ++ ext
      ∧ usage_segments w (tr ++ [.lsblkParts disk]) (list_partitions w tr disk).1 ext
      ∧ (compute_used_bytes_sum w tr disk).1
          = reported_used w (tr ++ [.lsblkParts disk]) ext % 2 ^ 64
      ∧ ((list_partitions w tr disk).1 = [] →
          compute_used_bytes_sum w tr disk = (0, tr ++ [.lsblkParts disk]))
      ∧ ((∀ hist p, supported_fs (get_fstype w hist p).1 = false) →
          compute_used_bytes_sum w tr disk
            = (0, tr ++ [.lsblkParts disk]
                ++ (list_partitions w tr disk).1.flatMap
                    (fun p => [Cmd.blkidType p, Cmd.lsblkMountpoint p]))) := by
  obtain ⟨ext, h1, h2, h3, -⟩ := compute_used_bytes_sum_spec w tr disk
  refine ⟨ext, h1, h2, h3, ?_, ?_⟩
  · intro hnil
    simp [compute_used_bytes_sum, hnil, list_partitions_trace]
  · intro hno
    have hext := usage_segments_unsupported w hno _ _ _ h2
    have hzero : reported_used w (tr ++ [.lsblkParts disk]) ext = 0 := by
      apply reported_used_no_usage
      intro c hc
      rw [hext] at hc
      simp only [List.mem_flatMap, List.mem_cons, List.mem_singleton, List.not_mem_nil,
        or_false] at hc
      obtain ⟨p, -, rfl | rfl⟩ := hc <;> simp [Cmd.kind]
    apply Prod.ext
    · rw [h3, hzero]
      rfl
    · rw [h1, hext]

/-- C10, evaluated on a host with two mounted vfat partitions, each reported
with 2^63 bytes in use: the listing is followed by type query, mountpoint query
and usage query of each partition, and the total is 0, the sum 2^64 of the two
reports modulo 2^64. -/
theorem used_bytes_sum_over_supported_witness :
    ∃ ext, (compute_used_bytes_sum
        (demoWorld "/dev/sdb1\n/dev/sdb2\n" "/media/a\n" "9223372036854775808\n" "") []
        "/dev/sdb").2 = [] ++ [.lsblkParts "/dev/sdb"] ++ ext
      ∧ (compute_used_bytes_sum
        (demoWorld "/dev/sdb1\n/dev/sdb2\n" "/media/a\n" "9223372036854775808\n" "") []
        "/dev/sdb").1
          = reported_used
              (demoWorld "/dev/sdb1\n/dev/sdb2\n" "/media/a\n" "9223372036854775808\n" "")
              ([] ++ [.lsblkParts "/dev/sdb"]) ext % 2 ^ 64 := by
  obtain ⟨ext, h1, -, h3, -⟩ := used_bytes_sum_over_supported
    (demoWorld "/dev/sdb1\n/dev/sdb2\n" "/media/a\n" "9223372036854775808\n" "") [] "/dev/sdb"
  exact ⟨ext, h1, h3⟩

set_option maxRecDepth 100000 in
/-- C10 as stated fails: on a host with two mounted vfat partitions, each
reported by the disk-usage query with 2^63 bytes in use, `compute_used_bytes_sum`
returns 0, while the sum of the two reported values is 2^64. -/
theorem used_bytes_sum_wraps :
    compute_used_bytes_sum
        (demoWorld "/dev/sdb1\n/dev/sdb2\n" "/media/a\n" "9223372036854775808\n" "") []
        "/dev/sdb"
      = (0, [.lsblkParts "/dev/sdb",
          .blkidType "/dev/sdb1", .lsblkMountpoint "/dev/sdb1", .dfUsed "/media/a",
          .blkidType "/dev/sdb2", .lsblkMountpoint "/dev/sdb2", .dfUsed "/media/a"])
    ∧ reported_used
        (demoWorld "/dev/sdb1\n/dev/sdb2\n" "/media/a\n" "9223372036854775808\n" "")
        [.lsblkParts "/dev/sdb"]
        [.blkidType "/dev/sdb1", .lsblkMountpoint "/dev/sdb1", .dfUsed "/media/a",
          .blkidType "/dev/sdb2", .lsblkMountpoint "/dev/sdb2", .dfUsed "/media/a"]
      = 2 ^ 64 := by
  decide

/-! ## C11: cleanup of the estimator's scratch mounts -/

theorem starts_partition_append (a b : Trace) (ha : starts_partition a)
    (hb : starts_partition b) : starts_partition (a ++ b) := by
  rcases ha with rfl | ⟨q, rest, rfl⟩
  · simpa using hb
  · exact Or.inr ⟨q, rest ++ b, rfl⟩

theorem cleanup_replay_append (w : World) (a b : Trace) :
    ∀ hist, cleanup_replay w hist a → cleanup_replay w (hist ++ a) b → starts_partition b →
      cleanup_replay w hist (a ++ b) := by
  induction a with
  | nil => intro hist _ hb _; simpa using hb
  | cons c a ih =>
    intro hist ha hb hsb
    obtain ⟨h1, h2⟩ := ha
    refine ⟨fun p m hc hs => ?_, ?_⟩
    · obtain ⟨rest', hr, hsp⟩ := h1 p m hc hs
      exact ⟨rest' ++ b, by rw [hr]; rfl, starts_partition_append _ _ hsp hsb⟩
    · apply ih _ h2 _ hsb
      simpa [List.append_assoc] using hb

theorem cleanup_replay_at (w : World) (pre : Trace) :
    ∀ hist ext c post, cleanup_replay w hist ext → ext = pre ++ c :: post →
      ∀ p m, c = .mountRoQuiet p m → (runCmd w (hist ++ pre) c).1 = 0 →
        ∃ rest', post = .dfUsed m :: .sudoUmount m :: .sudoRmdir m :: rest'
          ∧ starts_partition rest' := by
  induction pre with
  | nil =>
    intro hist ext c post h he p m hc hs
    subst he
    exact h.1 p m hc (by simpa using hs)
  | cons x pre ih =>
    intro hist ext c post h he p m hc hs
    subst he
    exact ih (hist ++ [x]) _ c post h.2 rfl p m hc (by simpa [List.append_assoc] using hs)

theorem used_bytes_step_cleanup (w : World) (tr : Trace) (i : Nat) (p : String) (sum : Nat) :
    ∃ seg, (used_bytes_step w tr i p sum).2 = tr ++ seg ∧ cleanup_replay w tr seg
      ∧ ∃ rest, seg = .blkidType p :: rest := by
  rw [used_bytes_step_trace_eq]
  split_ifs with h1 h2 h3
  · refine ⟨_, rfl, ?_, _, rfl⟩
    simp only [cleanup_replay, and_true, reduceCtorEq, false_implies, implies_true, true_and]
    intro p' m' hc hs
    simp only [Cmd.mountRoQuiet.injEq] at hc
    obtain ⟨rfl, rfl⟩ := hc
    exact ⟨[], rfl, Or.inl rfl⟩
  · refine ⟨_, rfl, ?_, _, rfl⟩
    simp only [cleanup_replay, and_true, reduceCtorEq, false_implies, implies_true, true_and]
    intro p' m' hc hs
    exfalso
    apply h3
    simpa using hs
  · refine ⟨_, rfl, ?_, _, rfl⟩
    simp [cleanup_replay]
  · refine ⟨_, rfl, ?_, _, rfl⟩
    simp [cleanup_replay]

theorem used_bytes_loop_cleanup (w : World) (parts : List String) :
    ∀ (tr : Trace) (i sum : Nat),
      ∃ ext, (used_bytes_loop w tr i parts sum).2 = tr ++ ext ∧ cleanup_replay w tr ext
        ∧ starts_partition ext := by
  induction parts with
  | nil =>
    intro tr i sum
    exact ⟨[], by simp [used_bytes_loop], trivial, Or.inl rfl⟩
  | cons p ps ih =>
    intro tr i sum
    obtain ⟨seg, hseg, hc, rest, hrest⟩ := used_bytes_step_cleanup w tr i p sum
    obtain ⟨ext, hext, hc2, hs2⟩ := ih (tr ++ seg) (i + 1) (used_bytes_step w tr i p sum).1
    refine ⟨seg ++ ext, ?_, cleanup_replay_append w seg ext tr hc hc2 hs2, ?_⟩
    · simp only [used_bytes_loop, hseg, hext, List.append_assoc]
    · rw [hrest]
      exact Or.inr ⟨p, rest ++ ext, rfl⟩

theorem compute_used_bytes_sum_cleanup (w : World) (tr : Trace) (disk : String) :
    ∃ ext, (compute_used_bytes_sum w tr disk).2 = tr ++ ext ∧ cleanup_replay w tr ext := by
  unfold compute_used_bytes_sum
  simp only [list_partitions_trace]
  split_ifs with h
  · exact ⟨[.lsblkParts disk], rfl, by simp [cleanup_replay]⟩
  · obtain ⟨ext, h1, h2, -⟩ :=
      used_bytes_loop_cleanup w (list_partitions w tr disk).1 (tr ++ [.lsblkParts disk]) 0 0
    refine ⟨[.lsblkParts disk] ++ ext, by rw [h1, List.append_assoc], ?_⟩
    exact ⟨by simp, h2⟩

theorem mounts_after_append (w : World) (a b : Trace) :
    ∀ hist ms, mounts_after w hist (a ++ b) ms
      = mounts_after w (hist ++ a) b (mounts_after w hist a ms) := by
  induction a with
  | nil => intro hist ms; simp [mounts_after]
  | cons c a ih =>
    intro hist ms
    rw [List.cons_append]
    simp only [mounts_after]
    rw [ih]
    simp [List.append_assoc]

theorem unmounts_succeed_append (w : World) (a b : Trace) :
    ∀ hist, unmounts_succeed w hist (a ++ b)
      = (unmounts_succeed w hist a && unmounts_succeed w (hist ++ a) b) := by
  induction a with
  | nil => intro hist; simp [unmounts_succeed]
  | cons c a ih =>
    intro hist
    rw [List.cons_append]
    simp only [unmounts_succeed]
    rw [ih, Bool.and_assoc]
    simp [List.append_assoc]

theorem used_bytes_step_mounts (w : World) (tr : Trace) (i : Nat) (p : String) (sum : Nat)
    (seg : Trace) (hseg : (used_bytes_step w tr i p sum).2 = tr ++ seg)
    (hu : unmounts_succeed w tr seg = true) (ms : List String) :
    mounts_after w tr seg ms = ms := by
  rw [used_bytes_step_trace_eq] at hseg
  split_ifs at hseg with h1 h2 h3
  · have := List.append_cancel_left hseg
    subst this
    simp only [unmounts_succeed, Cmd.kind, List.append_assoc, List.cons_append, List.nil_append,
      reduceCtorEq, decide_False, decide_True, Bool.not_false, Bool.not_true, Bool.true_or,
      Bool.false_or, Bool.true_and, Bool.and_true, decide_eq_true_eq] at hu
    simp only [mounts_after, mounts_step, List.append_assoc, List.cons_append, List.nil_append,
      h3, hu, decide_True, if_true, List.erase_cons_head]
  · have := List.append_cancel_left hseg
    subst this
    simp only [mounts_after, mounts_step, List.append_assoc, List.cons_append, List.nil_append,
      h3, decide_False, Bool.false_eq_true, if_false]
  · have := List.append_cancel_left hseg
    subst this
    simp only [mounts_after, mounts_step]
  · have := List.append_cancel_left hseg
    subst this
    simp only [mounts_after, mounts_step]

theorem used_bytes_loop_mounts (w : World) (parts : List String) :
    ∀ (tr : Trace) (i sum : Nat) (ext : Trace),
      (used_bytes_loop w tr i parts sum).2 = tr ++ ext →
      unmounts_succeed w tr ext = true → ∀ ms, mounts_after w tr ext ms = ms := by
  induction parts with
  | nil =>
    intro tr i sum ext hext _ ms
    have : ext = [] := by simpa [used_bytes_loop] using hext
    subst this
    rfl
  | cons p ps ih =>
    intro tr i sum ext hext hu ms
    obtain ⟨seg, hseg, -⟩ := used_bytes_step_cleanup w tr i p sum
    obtain ⟨e2, he2, -⟩ := used_bytes_loop_cleanup w ps (tr ++ seg) (i + 1)
      (used_bytes_step w tr i p sum).1
    have hx : ext = seg ++ e2 := by
      simp only [used_bytes_loop, hseg, he2, List.append_assoc] at hext
      exact (List.append_cancel_left hext).symm
    subst hx
    rw [unmounts_succeed_append, Bool.and_eq_true] at hu
    rw [mounts_after_append, used_bytes_step_mounts w tr i p sum seg hseg hu.1]
    exact ih (tr ++ seg) (i + 1) _ e2 he2 hu.2 ms

theorem compute_used_bytes_sum_mounts (w : World) (tr : Trace) (disk : String) (ext : Trace)
    (hext : (compute_used_bytes_sum w tr disk).2 = tr ++ ext)
    (hu : unmounts_succeed w tr ext = true) (ms : List String) :
    mounts_after w tr ext ms = ms := by
  unfold compute_used_bytes_sum at hext
  simp only [list_partitions_trace] at hext
  split_ifs at hext with h
  · have := List.append_cancel_left hext
    subst this
    rfl
  · obtain ⟨e2, he2, -⟩ :=
      used_bytes_loop_cleanup w (list_partitions w tr disk).1 (tr ++ [.lsblkParts disk]) 0 0
    have hx : ext = [.lsblkParts disk] ++ e2 := by
      rw [he2, List.append_assoc] at hext
      exact (List.append_cancel_left hext).symm
    subst hx
    rw [unmounts_succeed_append, Bool.and_eq_true] at hu
    rw [mounts_after_append]
    exact used_bytes_loop_mounts w _ _ 0 0 e2 he2 hu.2 ms

/-- C11 (as amended): in every run of `compute_used_bytes_sum`, a read-only
scratch mount of the estimator that exited with 0 is followed at once by the
disk-usage query on the scratch mountpoint, the unmount of that mountpoint and
the removal of that directory, whatever the query printed; after these the run
ends or continues with the filesystem probe of the next partition.  If every
unmount of the run exited with 0, the mountpoints mounted at return are those
mounted at the call: no mount of the estimator remains. -/
theorem estimator_cleans_its_mounts (w : World) (tr : Trace) (disk : String) (ext : Trace)
    (hrun : (compute_used_bytes_sum w tr disk).2 = tr ++ ext) :
    (∀ pre post p m, ext = pre ++ [.mountRoQuiet p m] ++ post →
      (runCmd w (tr ++ pre) (.mountRoQuiet p m)).1 = 0 →
      ∃ post2, post = [.dfUsed m, .sudoUmount m, .sudoRmdir m] ++ post2
        ∧ (post2 = [] ∨ ∃ q rest, post2 = .blkidType q :: rest))
    ∧ (unmounts_succeed w tr ext = true → ∀ ms, mounts_after w tr ext ms = ms) := by
  refine ⟨fun pre post p m he hok => ?_, fun hu ms =>
    compute_used_bytes_sum_mounts w tr disk ext hrun hu ms⟩
  obtain ⟨ext2, h1, h2⟩ := compute_used_bytes_sum_cleanup w tr disk
  have he2 : ext2 = pre ++ .mountRoQuiet p m :: post := by
    rw [h1] at hrun
    rw [List.append_cancel_left hrun, he]
    simp
  obtain ⟨rest2, hr, hs⟩ := cleanup_replay_at w pre tr ext2 _ post h2 he2 p m rfl hok
  exact ⟨rest2, by simpa using hr, hs⟩

set_option maxRecDepth 100000 in
/-- C11 (as amended) on a host whose single vfat partition is not mounted and
where every command exits with 0: the scratch mount is followed by the usage
query, the unmount and the removal of the scratch directory, and nothing is left
mounted. -/
theorem estimator_cleans_its_mounts_witness :
    (∃ post2, [Cmd.dfUsed "/mnt/sdcloner_src_0", .sudoUmount "/mnt/sdcloner_src_0",
          .sudoRmdir "/mnt/sdcloner_src_0"]
        = [.dfUsed "/mnt/sdcloner_src_0", .sudoUmount "/mnt/sdcloner_src_0",
            .sudoRmdir "/mnt/sdcloner_src_0"] ++ post2
      ∧ (post2 = [] ∨ ∃ q rest, post2 = .blkidType q :: rest))
    ∧ mounts_after (demoWorld "/dev/sdb1\n" "\n" "3221225472\n" "") []
        [.lsblkParts "/dev/sdb", .blkidType "/dev/sdb1", .lsblkMountpoint "/dev/sdb1",
          .sudoMkdirP "/mnt/sdcloner_src_0", .mountRoQuiet "/dev/sdb1" "/mnt/sdcloner_src_0",
          .dfUsed "/mnt/sdcloner_src_0", .sudoUmount "/mnt/sdcloner_src_0",
          .sudoRmdir "/mnt/sdcloner_src_0"] [] = [] :=
  ⟨(estimator_cleans_its_mounts (demoWorld "/dev/sdb1\n" "\n" "3221225472\n" "") [] "/dev/sdb"
      [.lsblkParts "/dev/sdb", .blkidType "/dev/sdb1", .lsblkMountpoint "/dev/sdb1",
        .sudoMkdirP "/mnt/sdcloner_src_0", .mountRoQuiet "/dev/sdb1" "/mnt/sdcloner_src_0",
        .dfUsed "/mnt/sdcloner_src_0", .sudoUmount "/mnt/sdcloner_src_0",
        .sudoRmdir "/mnt/sdcloner_src_0"] (by decide)).1
      [.lsblkParts "/dev/sdb", .blkidType "/dev/sdb1", .lsblkMountpoint "/dev/sdb1",
        .sudoMkdirP "/mnt/sdcloner_src_0"]
      [.dfUsed "/mnt/sdcloner_src_0", .sudoUmount "/mnt/sdcloner_src_0",
        .sudoRmdir "/mnt/sdcloner_src_0"]
      "/dev/sdb1" "/mnt/sdcloner_src_0" (by decide) (by decide),
   (estimator_cleans_its_mounts (demoWorld "/dev/sdb1\n" "\n" "3221225472\n" "") [] "/dev/sdb"
      [.lsblkParts "/dev/sdb", .blkidType "/dev/sdb1", .lsblkMountpoint "/dev/sdb1",
        .sudoMkdirP "/mnt/sdcloner_src_0", .mountRoQuiet "/dev/sdb1" "/mnt/sdcloner_src_0",
        .dfUsed "/mnt/sdcloner_src_0", .sudoUmount "/mnt/sdcloner_src_0",
        .sudoRmdir "/mnt/sdcloner_src_0"] (by decide)).2 (by decide) []⟩

set_option maxRecDepth 100000 in
/-- C11 as stated fails: on a host whose single vfat partition is not mounted
and where `sudo umount` exits with 1 (every other command with 0), the estimator
issues the unmount and the removal of the scratch directory and returns, and the
scratch mount `/mnt/sdcloner_src_0` it made is still mounted. -/
theorem scratch_mount_left_after_failed_unmount :
    compute_used_bytes_sum (demoWorld "/dev/sdb1\n" "\n" "3221225472\n" "sudo umount") []
        "/dev/sdb"
      = (3221225472,
        [.lsblkParts "/dev/sdb", .blkidType "/dev/sdb1", .lsblkMountpoint "/dev/sdb1",
          .sudoMkdirP "/mnt/sdcloner_src_0", .mountRoQuiet "/dev/sdb1" "/mnt/sdcloner_src_0",
          .dfUsed "/mnt/sdcloner_src_0", .sudoUmount "/mnt/sdcloner_src_0",
          .sudoRmdir "/mnt/sdcloner_src_0"])
    ∧ (runCmd (demoWorld "/dev/sdb1\n" "\n" "3221225472\n" "sudo umount")
        [.lsblkParts "/dev/sdb", .blkidType "/dev/sdb1", .lsblkMountpoint "/dev/sdb1",
          .sudoMkdirP "/mnt/sdcloner_src_0", .mountRoQuiet "/dev/sdb1" "/mnt/sdcloner_src_0",
          .dfUsed "/mnt/sdcloner_src_0"]
        (.sudoUmount "/mnt/sdcloner_src_0")).1 = 1
    ∧ mounts_after (demoWorld "/dev/sdb1\n" "\n" "3221225472\n" "sudo umount") []
        [.lsblkParts "/dev/sdb", .blkidType "/dev/sdb1", .lsblkMountpoint "/dev/sdb1",
          .sudoMkdirP "/mnt/sdcloner_src_0", .mountRoQuiet "/dev/sdb1" "/mnt/sdcloner_src_0",
          .dfUsed "/mnt/sdcloner_src_0", .sudoUmount "/mnt/sdcloner_src_0",
          .sudoRmdir "/mnt/sdcloner_src_0"] []
      = ["/mnt/sdcloner_src_0"] := by
  decide

/-! ## C14: artifact naming -/

theorem toDigits_two (n : Nat) (h : n < 100) :
    List.replicate (2 - (Nat.toDigits 10 n).length) '0' ++ Nat.toDigits 10 n
      = [Nat.digitChar (n / 10), Nat.digitChar (n % 10)] := by
  by_cases h1 : n < 10
  · have h0 : n / 10 = 0 := by omega
    have hm : n % 10 = n := by omega
    simp [Nat.toDigits, Nat.toDigitsCore, h0, hm]
    rfl
  · obtain ⟨m, rfl⟩ : ∃ m, n = m + 1 := ⟨n - 1, by omega⟩
    have h2 : (m + 1) / 10 ≠ 0 := by omega
    have h3 : (m + 1) / 10 / 10 = 0 := by omega
    have h4 : (m + 1) / 10 % 10 = (m + 1) / 10 := by omega
    simp [Nat.toDigits, Nat.toDigitsCore, h2, h3, h4]

theorem toDigits_four (n : Nat) (h1 : 1000 ≤ n) (h2 : n < 10000) :
    List.replicate (4 - (Nat.toDigits 10 n).length) '0' ++ Nat.toDigits 10 n
      = [Nat.digitChar (n / 1000), Nat.digitChar (n / 100 % 10), Nat.digitChar (n / 10 % 10),
          Nat.digitChar (n % 10)] := by
  obtain ⟨m, rfl⟩ : ∃ m, n = m + 3 := ⟨n - 3, by omega⟩
  have a1 : (m + 3) / 10 ≠ 0 := by omega
  have a2 : (m + 3) / 10 / 10 ≠ 0 := by omega
  have a3 : (m + 3) / 10 / 10 / 10 ≠ 0 := by omega
  have a4 : (m + 3) / 10 / 10 / 10 / 10 = 0 := by omega
  have b1 : (m + 3) / 10 / 10 / 10 % 10 = (m + 3) / 1000 := by omega
  have b2 : (m + 3) / 10 / 10 % 10 = (m + 3) / 100 % 10 := by omega
  simp [Nat.toDigits, Nat.toDigitsCore, a1, a2, a3, a4, b1, b2]

theorem fmt_0d_two (v : Int) (h0 : 0 ≤ v) (h1 : v ≤ 99) : fmt_0d 2 v = two_digits v.toNat := by
  have hn : v.natAbs = v.toNat := by omega
  unfold fmt_0d two_digits
  rw [if_neg (by omega), hn, toDigits_two _ (by omega)]

theorem fmt_0d_four (v : Int) (h0 : 1000 ≤ v) (h1 : v ≤ 9999) :
    fmt_0d 4 v = four_digits v.toNat := by
  have hn : v.natAbs = v.toNat := by omega
  unfold fmt_0d four_digits
  rw [if_neg (by omega), hn, toDigits_four _ (by omega) (by omega)]

theorem snprintf_fits (cap : Nat) (s : String) (h : s.length ≤ cap - 1) : snprintf cap s = s := by
  unfold snprintf
  have h2 : s.data.length ≤ cap - 1 := h
  rw [List.take_of_length_le h2]

theorem two_digits_length (n : Nat) : (two_digits n).length = 2 := rfl

theorem four_digits_length (n : Nat) : (four_digits n).length = 4 := rfl

/-- C14: for every directory `d`, every extension and every local time with a
year of four digits, when the result fits the output buffer, `timestamp_path`
writes exactly `d`, `/clone-`, the year in four digits, month, day, a dash, hour,
minute and second each in two digits with a leading zero where needed, a dot and
the extension; the file name so has length 22 plus that of the extension.  The
path `make_raw_image_gz` returns is built with extension `img.gz`, and the path
`make_fsaware_image_fit` allocates and returns is built with extension `img`. -/
theorem timestamp_path_format (w : World) (tr : Trace) (cap : Nat) (d ext : String)
    (htm : valid_tm (w.localtime (tr.map Cmd.text)))
    (hfit : d.length + 23 + ext.length ≤ cap - 1) :
    timestamp_path w tr cap d ext
      = d ++ "/clone-"
        ++ four_digits (1900 + (w.localtime (tr.map Cmd.text)).tm_year).toNat
        ++ two_digits (1 + (w.localtime (tr.map Cmd.text)).tm_mon).toNat
        ++ two_digits (w.localtime (tr.map Cmd.text)).tm_mday.toNat
        ++ "-"
        ++ two_digits (w.localtime (tr.map Cmd.text)).tm_hour.toNat
        ++ two_digits (w.localtime (tr.map Cmd.text)).tm_min.toNat
        ++ two_digits (w.localtime (tr.map Cmd.text)).tm_sec.toNat
        ++ "." ++ ext
    ∧ ("clone-"
        ++ four_digits (1900 + (w.localtime (tr.map Cmd.text)).tm_year).toNat
        ++ two_digits (1 + (w.localtime (tr.map Cmd.text)).tm_mon).toNat
        ++ two_digits (w.localtime (tr.map Cmd.text)).tm_mday.toNat
        ++ "-"
        ++ two_digits (w.localtime (tr.map Cmd.text)).tm_hour.toNat
        ++ two_digits (w.localtime (tr.map Cmd.text)).tm_min.toNat
        ++ two_digits (w.localtime (tr.map Cmd.text)).tm_sec.toNat
        ++ "." ++ ext).length = 22 + ext.length
    ∧ (∀ src, (make_raw_image_gz w tr src cap).1.2
        = timestamp_path w (tr ++ [.mkdirP (image_dir w)]) cap (image_dir w) "img.gz")
    ∧ (∀ src T r t, make_fsaware_image_fit w tr src T cap = (.ret r, t) →
        r.2 = timestamp_path w
          ((compute_used_bytes_sum w (tr ++ [.lsblkParts src]) src).2 ++ [.mkdirP (image_dir w)])
          cap (image_dir w) "img"
        ∧ Cmd.truncateS T r.2 ∈ t) := by
  obtain ⟨y1, y2, mo1, mo2, d1, d2, h1, h2, mi1, mi2, s1, s2⟩ := htm
  refine ⟨?_, ?_, ?_, ?_⟩
  · unfold timestamp_path
    simp only
    rw [fmt_0d_four _ y1 y2, fmt_0d_two _ (by omega) (by omega), fmt_0d_two _ (by omega) (by omega),
      fmt_0d_two _ h1 (by omega), fmt_0d_two _ mi1 (by omega), fmt_0d_two _ s1 (by omega)]
    apply snprintf_fits
    simp only [String.length_append, two_digits_length, four_digits_length]
    have e1 : "/clone-".length = 7 := rfl
    have e2 : "-".length = 1 := rfl
    have e3 : ".".length = 1 := rfl
    omega
  · simp only [String.length_append, two_digits_length, four_digits_length]
    have e1 : "clone-".length = 6 := rfl
    have e2 : "-".length = 1 := rfl
    have e3 : ".".length = 1 := rfl
    omega
  · intro src
    rw [make_raw_image_gz_eq]
  · intro src T r t hret
    obtain ⟨est, hest, -, h⟩ := make_fsaware_image_fit_shape w tr src T cap
    rw [hret] at h
    rcases h with ⟨-, h⟩ | ⟨-, -, h⟩ | ⟨-, -, loop, p1, sp0, h⟩
    · simp at h
    · simp at h
    · rcases h with ⟨dd, k, -, h, -⟩ | ⟨h, -⟩ | ⟨h, -⟩
      · simp at h
      · simp at h
      · simp only [Prod.mk.injEq, Outcome.ret.injEq] at h
        obtain ⟨hr, ht⟩ := h
        rw [hest]
        refine ⟨by rw [hr], ?_⟩
        rw [ht, hr]
        simp [fit_commands]

set_option maxRecDepth 100000 in
/-- C14 on the clock of the concrete hosts, 2 January 2024, 03:04:05, with the
512-byte buffer of `sdcloner_clone`. -/
theorem timestamp_path_format_witness :
    timestamp_path (demoWorld "/dev/sdb1\n" "/media/sd\n" "3221225472\n" "") [] 512
        "/home/u/SDCloner/images" "img"
      = "/home/u/SDCloner/images/clone-20240102-030405.img" :=
  (timestamp_path_format (demoWorld "/dev/sdb1\n" "/media/sd\n" "3221225472\n" "") [] 512
    "/home/u/SDCloner/images" "img" (by simp [valid_tm, demoWorld]) (by decide)).1.trans
    (by decide)

/-! ## C13: read stage of the burner -/

set_option maxRecDepth 100000 in
/-- C13 fails on the code: for the uncompressed artifact
`/home/u.gz/SDCloner/images/clone-20240102-030405.img`, whose file name ends in
`.img` and whose directory contains `.gz`, `burn_image_to_disk` builds the write
pipeline with the read stage `gzip -dc` instead of `cat`. -/
theorem burn_reads_img_with_gzip :
    burn_image_to_disk (demoWorld "/dev/sdb1\n" "/media/sd\n" "3221225472\n" "") []
        "/home/u.gz/SDCloner/images/clone-20240102-030405.img" "/dev/sdc"
      = (0, [.umountDest "/dev/sdc",
          .burnPipe "gzip -dc" "/home/u.gz/SDCloner/images/clone-20240102-030405.img"
            "/dev/sdc"])
    ∧ (Cmd.burnPipe "gzip -dc" "/home/u.gz/SDCloner/images/clone-20240102-030405.img"
        "/dev/sdc").text
      = "gzip -dc '/home/u.gz/SDCloner/images/clone-20240102-030405.img' | sudo dd of='/dev/sdc' bs=4M status=progress conv=fsync" := by
  decide

/-! ## C12: the estimator on mounted filesystems -/

theorem used_bytes_step_mounted (w : World) (tr : Trace) (i : Nat) (p : String) (sum : Nat)
    (hs : sum < 2 ^ 64)
    (hsup : supported_fs (get_fstype w tr p).1 = true)
    (hmp : no_mountpoint ((runCmdCapture w (tr ++ [.blkidType p]) (.lsblkMountpoint p)).1.map
      cut_at_newline) = false) :
    used_bytes_step w tr i p sum
      = (add64 sum (df_value w (tr ++ [.blkidType p, .lsblkMountpoint p])
            ⟨(reported_mountpoint w tr p).data.take 127⟩),
         tr ++ [.blkidType p, .lsblkMountpoint p,
           .dfUsed ⟨(reported_mountpoint w tr p).data.take 127⟩]) := by
  have hne : (⟨(reported_mountpoint w tr p).data.take 127⟩ : String).data.isEmpty = false := by
    unfold reported_mountpoint
    cases hm : (runCmdCapture w (tr ++ [Cmd.blkidType p]) (Cmd.lsblkMountpoint p)).1 with
    | none => simp [hm, no_mountpoint] at hmp
    | some m =>
      simp [hm, no_mountpoint] at hmp
      simp [hmp]
  unfold used_bytes_step
  simp only [runCmdCapture_trace, get_fstype_trace, List.append_assoc, List.cons_append,
    List.nil_append, hsup, hmp, if_true, Bool.false_eq_true, if_false]
  rw [← reported_mountpoint.eq_1, usage_query_eq _ _ _ _ hne hs]
  simp

theorem used_bytes_loop_mounted (w : World) (parts : List String) (hm : all_mounted w parts) :
    ∀ (tr : Trace) (i sum : Nat), sum < 2 ^ 64 →
      (used_bytes_loop w tr i parts sum).2 = tr ++ mounted_run w tr parts := by
  induction parts with
  | nil => intro tr i sum _; simp [used_bytes_loop, mounted_run]
  | cons p ps ih =>
    intro tr i sum hs
    have hm2 : all_mounted w ps := fun q hq => hm q (List.mem_cons_of_mem _ hq)
    simp only [used_bytes_loop, mounted_run]
    by_cases hsup : supported_fs (get_fstype w tr p).1 = true
    · have hstep := used_bytes_step_mounted w tr i p sum hs hsup
        (hm p (List.mem_cons_self _ _) tr hsup)
      rw [hstep, ih hm2 _ _ _ (add64_lt _ _)]
      simp [mounted_segment, hsup]
    · have hsup2 : supported_fs (get_fstype w tr p).1 = false := by simpa using hsup
      rw [used_bytes_step_unsupported w tr i p sum hsup2, ih hm2 _ _ _ hs]
      simp [mounted_segment, hsup2]

theorem mounted_run_kinds (w : World) (parts : List String) :
    ∀ (hist : Trace), ∀ c ∈ mounted_run w hist parts, c.kind = .query ∨ c.kind = .usage := by
  induction parts with
  | nil => intro hist c hc; simp [mounted_run] at hc
  | cons p ps ih =>
    intro hist c hc
    simp only [mounted_run, List.mem_append] at hc
    rcases hc with hc | hc
    · unfold mounted_segment at hc
      split_ifs at hc <;>
        simp only [List.mem_cons, List.mem_singleton, List.not_mem_nil, or_false] at hc
      · rcases hc with rfl | rfl | rfl <;> simp [Cmd.kind]
      · rcases hc with rfl | rfl <;> simp [Cmd.kind]
    · exact ih _ c hc

theorem runCmdCapture_stationary (w : World) (hst : stationary w) (h1 h2 : Trace) (c : Cmd) :
    (runCmdCapture w h1 c).1 = (runCmdCapture w h2 c).1 := by
  unfold runCmdCapture
  simp only
  rw [hst (h1.map Cmd.text) (h2.map Cmd.text)]

theorem used_bytes_loop_stationary (w : World) (hst : stationary w) (parts : List String)
    (hm : all_mounted w parts) :
    ∀ (tr1 tr2 : Trace) (i j sum : Nat), sum < 2 ^ 64 →
      (used_bytes_loop w tr1 i parts sum).1 = (used_bytes_loop w tr2 j parts sum).1 := by
  induction parts with
  | nil => intro tr1 tr2 i j sum _; rfl
  | cons p ps ih =>
    intro tr1 tr2 i j sum hs
    have hm2 : all_mounted w ps := fun q hq => hm q (List.mem_cons_of_mem _ hq)
    have hfs : (get_fstype w tr1 p).1 = (get_fstype w tr2 p).1 := by
      unfold get_fstype
      simp only
      rw [runCmdCapture_stationary w hst tr1 tr2]
    simp only [used_bytes_loop]
    by_cases hsup : supported_fs (get_fstype w tr1 p).1 = true
    · have hsupb : supported_fs (get_fstype w tr2 p).1 = true := by rw [← hfs]; exact hsup
      rw [used_bytes_step_mounted w tr1 i p sum hs hsup (hm p (List.mem_cons_self _ _) tr1 hsup),
        used_bytes_step_mounted w tr2 j p sum hs hsupb
          (hm p (List.mem_cons_self _ _) tr2 hsupb)]
      have hmp : reported_mountpoint w tr1 p = reported_mountpoint w tr2 p := by
        unfold reported_mountpoint
        rw [runCmdCapture_stationary w hst (tr1 ++ [Cmd.blkidType p])
          (tr2 ++ [Cmd.blkidType p]) (Cmd.lsblkMountpoint p)]
      have hdf : ∀ m, df_value w (tr1 ++ [.blkidType p, .lsblkMountpoint p]) m
          = df_value w (tr2 ++ [.blkidType p, .lsblkMountpoint p]) m := by
        intro m
        unfold df_value
        rw [runCmdCapture_stationary w hst (tr1 ++ [Cmd.blkidType p, Cmd.lsblkMountpoint p])
          (tr2 ++ [Cmd.blkidType p, Cmd.lsblkMountpoint p]) (Cmd.dfUsed m)]
      simp only [hmp, hdf]
      exact ih hm2 _ _ _ _ _ (add64_lt _ _)
    · have hsup1 : supported_fs (get_fstype w tr1 p).1 = false := by simpa using hsup
      have hsup2 : supported_fs (get_fstype w tr2 p).1 = false := by rw [← hfs]; exact hsup1
      rw [used_bytes_step_unsupported w tr1 i p sum hsup1,
        used_bytes_step_unsupported w tr2 j p sum hsup2]
      exact ih hm2 _ _ _ _ _ hs

theorem compute_used_bytes_sum_stationary (w : World) (hst : stationary w) (disk : String)
    (tr1 tr2 : Trace) (hm : all_mounted w (list_partitions w tr1 disk).1) :
    (compute_used_bytes_sum w tr1 disk).1 = (compute_used_bytes_sum w tr2 disk).1 := by
  have hl : (list_partitions w tr2 disk).1 = (list_partitions w tr1 disk).1 := by
    unfold list_partitions
    simp only
    rw [runCmdCapture_stationary w hst tr2 tr1]
  unfold compute_used_bytes_sum
  simp only [hl, list_partitions_trace]
  split_ifs
  · rfl
  · exact used_bytes_loop_stationary w hst _ hm _ _ _ _ _ (by norm_num)

/-- What holds of the estimator on mounted filesystems: when every supported
partition of the device reports a non-empty mountpoint, `compute_used_bytes_sum` issues, after the partition
listing, for each partition in order its type and mountpoint queries and, for a
supported one, one disk-usage query on the first 127 bytes of the reported
mountpoint (the whole mountpoint when it is at most 127 bytes long); every
command is a query or a usage query, so no directory is created or removed and
nothing is mounted or unmounted.  On a host whose capture commands print the
same whenever they are issued, a second run from any history returns the same
total. -/
theorem estimator_on_mounted (w : World) (tr : Trace) (disk : String)
    (hm : all_mounted w (list_partitions w tr disk).1) :
    (compute_used_bytes_sum w tr disk).2
      = tr ++ [.lsblkParts disk]
          ++ mounted_run w (tr ++ [.lsblkParts disk]) (list_partitions w tr disk).1
    ∧ (∀ c ∈ mounted_run w (tr ++ [.lsblkParts disk]) (list_partitions w tr disk).1,
        c.kind = .query ∨ c.kind = .usage)
    ∧ (∀ hist p, (reported_mountpoint w hist p).length ≤ 127 →
        mounted_segment w hist p
          = if supported_fs (get_fstype w hist p).1 = true then
              [.blkidType p, .lsblkMountpoint p, .dfUsed (reported_mountpoint w hist p)]
            else [.blkidType p, .lsblkMountpoint p])
    ∧ (stationary w → ∀ tr2,
        (compute_used_bytes_sum w tr2 disk).1 = (compute_used_bytes_sum w tr disk).1) := by
  refine ⟨?_, mounted_run_kinds w _ _, ?_, ?_⟩
  · unfold compute_used_bytes_sum
    simp only [list_partitions_trace]
    split_ifs with h
    · have hnil : (list_partitions w tr disk).1 = [] := List.length_eq_zero.mp h
      simp [hnil, mounted_run]
    · exact used_bytes_loop_mounted w _ hm _ _ _ (by norm_num)
  · intro hist p hlen
    unfold mounted_segment
    have h2 : (reported_mountpoint w hist p).data.length ≤ 127 := hlen
    rw [List.take_of_length_le h2]
  · intro hst tr2
    exact (compute_used_bytes_sum_stationary w hst disk tr tr2 hm).symm

theorem demoWorld_all_mounted (used : String) :
    all_mounted (demoWorld "/dev/sdb1\n" "/media/sd\n" used "") ["/dev/sdb1"] := by
  intro p hp hist _
  simp only [List.mem_singleton] at hp
  subst hp
  rfl

set_option maxRecDepth 100000 in
/-- The estimator on a host whose single vfat partition is mounted at
`/media/sd`: the run is the listing, the two queries and the usage query on
`/media/sd`. -/
theorem estimator_on_mounted_witness :
    (compute_used_bytes_sum (demoWorld "/dev/sdb1\n" "/media/sd\n" "3221225472\n" "") []
        "/dev/sdb").2
      = [.lsblkParts "/dev/sdb", .blkidType "/dev/sdb1", .lsblkMountpoint "/dev/sdb1",
          .dfUsed "/media/sd"] :=
  (estimator_on_mounted (demoWorld "/dev/sdb1\n" "/media/sd\n" "3221225472\n" "") []
    "/dev/sdb" (demoWorld_all_mounted _)).1.trans (by decide)

set_option maxRecDepth 100000 in
/-- C12 fails on the code: on a host whose single vfat partition is mounted at a
mountpoint of 130 bytes, the disk-usage query is issued on the first 127 bytes
of that mountpoint (`strncpy` into `char mnt[128]`), a different path, and not
on the mountpoint reported. -/
theorem usage_query_on_cut_mountpoint :
    compute_used_bytes_sum
        (demoWorld "/dev/sdb1\n" (longMountpoint ++ "\n") "3221225472\n" "") [] "/dev/sdb"
      = (3221225472,
        [.lsblkParts "/dev/sdb", .blkidType "/dev/sdb1", .lsblkMountpoint "/dev/sdb1",
          .dfUsed ⟨'/' :: List.replicate 126 'a'⟩])
    ∧ reported_mountpoint
        (demoWorld "/dev/sdb1\n" (longMountpoint ++ "\n") "3221225472\n" "")
        [.lsblkParts "/dev/sdb"] "/dev/sdb1" = longMountpoint
    ∧ longMountpoint.length = 130
    ∧ (⟨'/' :: List.replicate 126 'a'⟩ : String) ≠ longMountpoint := by
  decide

/-! ## C15: order of the partition listing -/

theorem strtok_newline_eq (cs : List Char) :
    ∀ cur, strtok_newline cs cur
      = (((cs.splitOn '\n').modifyHead (cur.reverse ++ ·)).filter
          (fun l => !l.isEmpty)).map String.mk := by
  induction cs with
  | nil =>
    intro cur
    by_cases h : cur = []
    · simp [strtok_newline, h]
    · simp [strtok_newline, h]
  | cons c cs ih =>
    intro cur
    rcases hsp : cs.splitOn '\n' with _ | ⟨h, t⟩
    · exact absurd hsp (List.splitOnP_ne_nil _ _)
    · have ih0 := ih []
      have ih1 := ih (c :: cur)
      rw [hsp] at ih0 ih1
      have hsp2 : List.splitOnP (fun x => x == '\n') cs = h :: t := hsp
      by_cases hc : c = '\n'
      · subst hc
        by_cases hcur : cur = []
        · simp [strtok_newline, List.splitOn, hsp2, hcur, ih0]
        · simp [strtok_newline, List.splitOn, hsp2, hcur, ih0]
      · simp [strtok_newline, List.splitOn, hsp2, hc, ih1]

theorem cut_at_newline_eq (out : String) : cut_at_newline out = first_line out := by
  unfold cut_at_newline first_line
  congr 1
  induction out.data with
  | nil => simp
  | cons c cs ih =>
    rcases hsp : cs.splitOn '\n' with _ | ⟨h, t⟩
    · exact absurd hsp (List.splitOnP_ne_nil _ _)
    · have hsp2 : List.splitOnP (fun x => x == '\n') cs = h :: t := hsp
      rw [hsp] at ih
      by_cases hc : c = '\n'
      · simp [List.splitOn, hc]
      · simp [List.splitOn, hsp2, hc, List.takeWhile_cons]
        simpa using ih

/-- C15: `list_partitions` returns exactly the non-empty newline-separated lines
of what the lister printed, in the order printed and each once, however many
there are; when the pipe cannot be opened or nothing is printed it returns the
empty sequence.  Its first element is therefore the first partition reported. -/
theorem list_partitions_keeps_order (w : World) (tr : Trace) (disk : String) :
    (list_partitions w tr disk).1
      = match w.popen (tr.map Cmd.text) (Cmd.lsblkParts disk).text with
        | none => []
        | some out => nonempty_lines out := by
  unfold list_partitions runCmdCapture nonempty_lines
  simp only
  cases h : w.popen (tr.map Cmd.text) (Cmd.lsblkParts disk).text with
  | none => rfl
  | some out =>
    by_cases he : out.data.isEmpty = true
    · have hnil : out.data = [] := by simpa using he
      simp [he, hnil]
    · simp only [he, if_false, Bool.false_eq_true]
      rw [strtok_newline_eq]
      have hid : ∀ l : List (List Char), l.modifyHead (fun x => x) = l := by
        intro l
        cases l <;> rfl
      simp [hid]

set_option maxRecDepth 100000 in
/-- C15 on a listing of nine partitions with an empty line among them: all nine
are returned, in order. -/
theorem list_partitions_keeps_order_witness :
    (list_partitions
        (demoWorld "/dev/sdb1\n/dev/sdb2\n/dev/sdb3\n\n/dev/sdb4\n/dev/sdb5\n/dev/sdb6\n/dev/sdb7\n/dev/sdb8\n/dev/sdb9\n"
          "/media/sd\n" "3221225472\n" "") [] "/dev/sdb").1
      = ["/dev/sdb1", "/dev/sdb2", "/dev/sdb3", "/dev/sdb4", "/dev/sdb5", "/dev/sdb6",
          "/dev/sdb7", "/dev/sdb8", "/dev/sdb9"] :=
  (list_partitions_keeps_order _ [] "/dev/sdb").trans (by decide)

/-! ## C16: the filesystem probe -/

/-- C16: `get_fstype` always returns a string: `unknown` when the probe cannot be
run or prints nothing or prints an empty first line, and otherwise exactly the
first line of what the probe printed.  A partition whose probe gives no type is
therefore unsupported for `compute_used_bytes_sum`: its processing issues the
type and mountpoint queries only and leaves the total unchanged. -/
theorem get_fstype_never_fails (w : World) (tr : Trace) (part : String) :
    (get_fstype w tr part).1
      = (match w.popen (tr.map Cmd.text) (Cmd.blkidType part).text with
        | none => "unknown"
        | some out => if (first_line out).data.isEmpty then "unknown" else first_line out)
    ∧ (∀ i sum,
        (w.popen (tr.map Cmd.text) (Cmd.blkidType part).text = none
          ∨ ∃ out, w.popen (tr.map Cmd.text) (Cmd.blkidType part).text = some out
              ∧ (first_line out).data.isEmpty = true) →
        used_bytes_step w tr i part sum
          = (sum, tr ++ [.blkidType part, .lsblkMountpoint part])) := by
  have h1 : (get_fstype w tr part).1
      = (match w.popen (tr.map Cmd.text) (Cmd.blkidType part).text with
        | none => "unknown"
        | some out => if (first_line out).data.isEmpty then "unknown" else first_line out) := by
    unfold get_fstype runCmdCapture
    simp only
    cases h : w.popen (tr.map Cmd.text) (Cmd.blkidType part).text with
    | none => rfl
    | some out =>
      by_cases he : out.data.isEmpty = true
      · have hnil : out.data = [] := by simpa using he
        simp [he, first_line, hnil]
      · simp only [he, if_false, Bool.false_eq_true, cut_at_newline_eq]
  refine ⟨h1, fun i sum hfail => ?_⟩
  apply used_bytes_step_unsupported
  rw [h1]
  rcases hfail with h | ⟨out, h, he⟩
  · rw [h]
    rfl
  · rw [h]
    simp only [he, if_true]
    rfl

set_option maxRecDepth 100000 in
/-- C16 on a host whose probe prints `vfat` and a newline: the type is `vfat`. -/
theorem get_fstype_never_fails_witness :
    (get_fstype (demoWorld "/dev/sdb1\n" "/media/sd\n" "3221225472\n" "") [] "/dev/sdb1").1
      = "vfat" :=
  (get_fstype_never_fails _ [] "/dev/sdb1").1.trans (by decide)

/-! ## C17: failure of a mount in the Fit Imager -/

theorem FitStatus.of_other (w : World) (base : Trace) (src : String) (T : Nat)
    (dir path : String) (d : Die) (t : Trace)
    (h1 : d ≠ .mountSourceFailed) (h2 : d ≠ .mountTargetFailed) :
    FitStatus w base src T dir path (.died d, t) := by
  refine ⟨fun h => ?_, fun h => ?_, fun x h => ?_⟩
  · simp only [Outcome.died.injEq] at h
    exact absurd h h1
  · simp only [Outcome.died.injEq] at h
    exact absurd h h2
  · simp at h

theorem fit_attach_status (w : World) (base : Trace) (src : String) (T : Nat)
    (dir path : String) :
    FitStatus w base src T dir path (fit_attach w (base ++ [.mkdirP dir]) src T path) := by
  unfold fit_attach
  simp only [runCmd_trace, runCmdCapture_trace]
  split_ifs with h1
  · exact FitStatus.of_other _ _ _ _ _ _ _ _ (by simp) (by simp)
  split
  · exact FitStatus.of_other _ _ _ _ _ _ _ _ (by simp) (by simp)
  rename_i loop0 hloop
  split_ifs with h2 h3 h4
  · exact FitStatus.of_other _ _ _ _ _ _ _ _ (by simp) (by simp)
  · exact FitStatus.of_other _ _ _ _ _ _ _ _ (by simp) (by simp)
  · exact FitStatus.of_other _ _ _ _ _ _ _ _ (by simp) (by simp)
  unfold fit_format
  simp only [runCmd_trace, runCmdCapture_trace]
  split
  · exact FitStatus.of_other _ _ _ _ _ _ _ _ (by simp) (by simp)
  rename_i node hnode
  split_ifs with h5 h6
  · exact FitStatus.of_other _ _ _ _ _ _ _ _ (by simp) (by simp)
  · exact FitStatus.of_other _ _ _ _ _ _ _ _ (by simp) (by simp)
  unfold fit_mount
  simp only [runCmd_trace, runCmdCapture_trace, list_partitions_trace, snprintf_msrc,
    snprintf_mtgt]
  split
  · exact FitStatus.of_other _ _ _ _ _ _ _ _ (by simp) (by simp)
  rename_i sp0 rest hsp
  simp only [ne_eq, Decidable.not_not] at h1 h2 h3 h4 h6
  split_ifs with h7 h8
  · refine ⟨fun _ => ⟨cut_at_newline loop0, node, sp0, by simp [fit_commands],
      by simpa [fit_commands] using h7⟩, fun h => by simp at h, fun x h => by simp at h⟩
  · simp only [ne_eq, Decidable.not_not] at h7
    refine ⟨fun h => by simp at h, fun _ => ⟨cut_at_newline loop0, node, sp0,
      by simp [fit_commands], by simpa [fit_commands] using h7,
      by simpa [fit_commands] using h8⟩, fun x h => by simp at h⟩
  · simp only [ne_eq, Decidable.not_not] at h7 h8
    refine ⟨fun h => by simp [fit_mirror] at h, fun h => by simp [fit_mirror] at h,
      fun x h => ⟨cut_at_newline loop0, node, sp0, by simp [fit_mirror, runCmd_trace, fit_commands],
        ?_, by simpa [fit_commands] using h1, by simpa [fit_commands] using h2,
        by simpa [fit_commands] using h3, by simpa [fit_commands] using h4,
        by simpa [fit_commands] using h6, by simpa [fit_commands] using h7,
        by simpa [fit_commands] using h8⟩⟩
    simp only [fit_mirror, runCmd_trace, Outcome.ret.injEq] at h
    rw [← h]
    simp [fit_commands]

theorem make_fsaware_image_fit_status (w : World) (tr : Trace) (src : String) (T cap : Nat) :
    FitStatus w (compute_used_bytes_sum w (tr ++ [.lsblkParts src]) src).2 src T (image_dir w)
      (timestamp_path w
        ((compute_used_bytes_sum w (tr ++ [.lsblkParts src]) src).2 ++ [.mkdirP (image_dir w)])
        cap (image_dir w) "img")
      (make_fsaware_image_fit w tr src T cap) := by
  rw [make_fsaware_image_fit_eq]
  split_ifs with h0 h1
  · exact FitStatus.of_other _ _ _ _ _ _ _ _ (by simp) (by simp)
  · exact FitStatus.of_other _ _ _ _ _ _ _ _ (by simp) (by simp)
  · exact fit_attach_status w _ src T _ _

theorem fit_prefix_mounts (T : Nat) (dir path loop p1 src sp0 : String) (est : Trace)
    (hk : ∀ c ∈ est, c.isEstimator = true) :
    ∀ c ∈ [Cmd.lsblkParts src] ++ est ++ (fit_commands T dir path loop p1 src sp0).take 10,
      c.kind = .mount → c.isEstimator = true := by
  intro c hc hm
  rcases List.mem_append.mp hc with hc | hc
  · rcases List.mem_append.mp hc with hc | hc
    · simp only [List.mem_singleton] at hc
      subst hc
      rfl
    · exact hk c hc
  · simp only [fit_commands, List.take, List.mem_cons, List.mem_singleton, List.not_mem_nil,
      or_false] at hc
    rcases hc with h | h | h | h | h | h | h | h | h | h <;> subst h <;> simp [Cmd.kind] at hm

theorem fit_mount_failure_mounts (w : World) (tr : Trace) (src : String) (T cap : Nat)
    (ext : Trace) (hext : (make_fsaware_image_fit w tr src T cap).2 = tr ++ ext)
    (hd : (make_fsaware_image_fit w tr src T cap).1 = .died .mountTargetFailed
      ∨ (make_fsaware_image_fit w tr src T cap).1 = .died .mountSourceFailed)
    (hu : unmounts_succeed w tr ext = true) (ms : List String) :
    mounts_after w tr ext ms = ms := by
  obtain ⟨est, hest, hk⟩ := compute_used_bytes_sum_trace w (tr ++ [.lsblkParts src]) src
  obtain ⟨hsrc, htgt, -⟩ := make_fsaware_image_fit_status w tr src T cap
  rw [hest] at hsrc htgt
  generalize timestamp_path w (tr ++ [.lsblkParts src] ++ est ++ [.mkdirP (image_dir w)]) cap
    (image_dir w) "img" = path at hsrc htgt
  have hE : ∀ ms, unmounts_succeed w (tr ++ [.lsblkParts src]) est = true →
      mounts_after w (tr ++ [.lsblkParts src]) est ms = ms :=
    fun ms hu => compute_used_bytes_sum_mounts w (tr ++ [.lsblkParts src]) src est hest hu ms
  rcases hd with hd | hd
  · obtain ⟨loop, p1, sp0, h1, h2, h3⟩ := htgt hd
    have hx : ext = [.lsblkParts src] ++ (est
        ++ ((fit_commands T (image_dir w) path loop p1 src sp0).take 12 ++ [.umountSrc])) := by
      rw [h1] at hext
      simp only [List.append_assoc] at hext
      exact (List.append_cancel_left hext).symm
    subst hx
    rw [unmounts_succeed_append, unmounts_succeed_append, Bool.and_eq_true,
      Bool.and_eq_true] at hu
    obtain ⟨-, hu1, hu2⟩ := hu
    rw [mounts_after_append, mounts_after_append, hE _ hu1]
    simp only [fit_commands, List.take, List.append_assoc, List.cons_append, List.nil_append,
      unmounts_succeed, Cmd.kind, reduceCtorEq, decide_False, decide_True, Bool.not_false,
      Bool.not_true, Bool.true_or, Bool.false_or, Bool.true_and, Bool.and_true,
      decide_eq_true_eq] at h2 h3 hu2
    simp only [fit_commands, List.take, List.append_assoc, List.cons_append, List.nil_append,
      mounts_after, mounts_step, h2, h3, hu2, decide_True, decide_False, if_true,
      Bool.false_eq_true, if_false, List.erase_cons_head]
  · obtain ⟨loop, p1, sp0, h1, h2⟩ := hsrc hd
    have hx : ext = [.lsblkParts src] ++ (est
        ++ (fit_commands T (image_dir w) path loop p1 src sp0).take 11) := by
      rw [h1] at hext
      simp only [List.append_assoc] at hext
      exact (List.append_cancel_left hext).symm
    subst hx
    rw [unmounts_succeed_append, unmounts_succeed_append, Bool.and_eq_true,
      Bool.and_eq_true] at hu
    obtain ⟨-, hu1, -⟩ := hu
    rw [mounts_after_append, mounts_after_append, hE _ hu1]
    simp only [fit_commands, List.take, List.append_assoc, List.cons_append,
      List.nil_append] at h2
    simp only [fit_commands, List.take, List.append_assoc, List.cons_append, List.nil_append,
      mounts_after, mounts_step, h2, decide_False, Bool.false_eq_true, if_false]

/-- C17 (as amended): when `make_fsaware_image_fit` ends in `die` because the
mount of the image partition failed, the source mount before it had exited with
0 and the run ends with the mount of the source, the failed mount of the image
partition and the unmount of the source mountpoint.  When it ends in `die`
because the mount of the source failed, that failed mount is the last command.
In both cases the only mount commands issued before are the read-only scratch
mounts of the used-bytes measurement.  If every unmount of the run (those of the
measurement and that of the source mountpoint) exited with 0, the mountpoints
mounted at the `die` are those mounted at the call: no mount of this call
remains. -/
theorem fit_mount_failure_unmounts (w : World) (tr : Trace) (src : String) (T cap : Nat) :
    ((make_fsaware_image_fit w tr src T cap).1 = .died .mountTargetFailed →
      ∃ pre sp0 p1,
        (make_fsaware_image_fit w tr src T cap).2
          = tr ++ pre ++ [.mountSrcRo sp0 "/mnt/sdcloner_src",
              .mountTgt p1 "/mnt/sdcloner_img", .umountSrc]
        ∧ (runCmd w (tr ++ pre) (.mountSrcRo sp0 "/mnt/sdcloner_src")).1 = 0
        ∧ (runCmd w (tr ++ pre ++ [.mountSrcRo sp0 "/mnt/sdcloner_src"])
            (.mountTgt p1 "/mnt/sdcloner_img")).1 ≠ 0
        ∧ ∀ c ∈ pre, c.kind = .mount → c.isEstimator = true)
    ∧ ((make_fsaware_image_fit w tr src T cap).1 = .died .mountSourceFailed →
      ∃ pre sp0,
        (make_fsaware_image_fit w tr src T cap).2
          = tr ++ pre ++ [.mountSrcRo sp0 "/mnt/sdcloner_src"]
        ∧ (runCmd w (tr ++ pre) (.mountSrcRo sp0 "/mnt/sdcloner_src")).1 ≠ 0
        ∧ ∀ c ∈ pre, c.kind = .mount → c.isEstimator = true)
    ∧ (∀ ext, (make_fsaware_image_fit w tr src T cap).2 = tr ++ ext →
        ((make_fsaware_image_fit w tr src T cap).1 = .died .mountTargetFailed
          ∨ (make_fsaware_image_fit w tr src T cap).1 = .died .mountSourceFailed) →
        unmounts_succeed w tr ext = true → ∀ ms, mounts_after w tr ext ms = ms) := by
  obtain ⟨est, hest, hk⟩ := compute_used_bytes_sum_trace w (tr ++ [.lsblkParts src]) src
  obtain ⟨hsrc, htgt, -⟩ := make_fsaware_image_fit_status w tr src T cap
  rw [hest] at hsrc htgt
  generalize timestamp_path w (tr ++ [.lsblkParts src] ++ est ++ [.mkdirP (image_dir w)]) cap
    (image_dir w) "img" = path at hsrc htgt
  refine ⟨?_, ?_, fun ext hext hd hu ms =>
    fit_mount_failure_mounts w tr src T cap ext hext hd hu ms⟩
  · intro h
    obtain ⟨loop, p1, sp0, h1, h2, h3⟩ := htgt h
    refine ⟨[.lsblkParts src] ++ est
      ++ (fit_commands T (image_dir w) path loop p1 src sp0).take 10, sp0, p1, ?_, ?_, ?_,
      fit_prefix_mounts T _ path loop p1 src sp0 est hk⟩
    · rw [h1]
      simp [fit_commands]
    · rw [← h2]
      simp [fit_commands]
    · intro h0
      apply h3
      rw [← h0]
      simp [fit_commands]
  · intro h
    obtain ⟨loop, p1, sp0, h1, h2⟩ := hsrc h
    refine ⟨[.lsblkParts src] ++ est
      ++ (fit_commands T (image_dir w) path loop p1 src sp0).take 10, sp0, ?_, ?_,
      fit_prefix_mounts T _ path loop p1 src sp0 est hk⟩
    · rw [h1]
      simp [fit_commands]
    · intro h0
      apply h2
      rw [← h0]
      simp [fit_commands]

set_option maxRecDepth 100000 in
/-- C17 (as amended) on a host where the mount of the image partition exits with
1 and every other command with 0: the run ends with the source mount, the failed
mount and the unmount of the source, and nothing is left mounted. -/
theorem fit_mount_failure_unmounts_witness :
    make_fsaware_image_fit
        (demoWorld "/dev/sdb1\n" "/media/sd\n" "3221225472\n" "sudo mount '") []
        "/dev/sdb" (8 * 2 ^ 30) 512
      = (.died .mountTargetFailed,
        [.lsblkParts "/dev/sdb",
         .lsblkParts "/dev/sdb", .blkidType "/dev/sdb1", .lsblkMountpoint "/dev/sdb1",
         .dfUsed "/media/sd",
         .mkdirP "/home/u/SDCloner/images", .truncateS 8589934592 demoImg,
         .losetupFind, .losetupAttach "/dev/loop0" demoImg,
         .partedMklabel "/dev/loop0", .partedMkpart "/dev/loop0", .lsLoopP1 "/dev/loop0",
         .mkfsVfat "/dev/loop0p1", .mkdirMounts, .lsblkParts "/dev/sdb",
         .mountSrcRo "/dev/sdb1" "/mnt/sdcloner_src",
         .mountTgt "/dev/loop0p1" "/mnt/sdcloner_img", .umountSrc])
    ∧ (∃ pre sp0 p1,
        (make_fsaware_image_fit
          (demoWorld "/dev/sdb1\n" "/media/sd\n" "3221225472\n" "sudo mount '") []
          "/dev/sdb" (8 * 2 ^ 30) 512).2
          = [] ++ pre ++ [.mountSrcRo sp0 "/mnt/sdcloner_src",
              .mountTgt p1 "/mnt/sdcloner_img", .umountSrc])
    ∧ mounts_after (demoWorld "/dev/sdb1\n" "/media/sd\n" "3221225472\n" "sudo mount '") []
        (demoFitRun.take 17 ++ [.umountSrc]) [] = [] := by
  refine ⟨by decide, ?_, ?_⟩
  · obtain ⟨pre, sp0, p1, h, -⟩ :=
      (fit_mount_failure_unmounts
        (demoWorld "/dev/sdb1\n" "/media/sd\n" "3221225472\n" "sudo mount '") []
        "/dev/sdb" (8 * 2 ^ 30) 512).1 (by decide)
    exact ⟨pre, sp0, p1, h⟩
  · exact (fit_mount_failure_unmounts
      (demoWorld "/dev/sdb1\n" "/media/sd\n" "3221225472\n" "sudo mount '") []
      "/dev/sdb" (8 * 2 ^ 30) 512).2.2 _ (by decide) (Or.inl (by decide)) (by decide) []

set_option maxRecDepth 100000 in
/-- C17 as stated fails: on a host where the mount of the image partition and
`sudo umount` exit with 32 (every other command with 0),
`make_fsaware_image_fit` issues the unmount of the source mountpoint and ends in
`die` for the failed mount, and `/mnt/sdcloner_src` is still mounted. -/
theorem source_left_mounted_after_failed_unmount :
    make_fsaware_image_fit busyWorld [] "/dev/sdb" (8 * 2 ^ 30) 512
      = (.died .mountTargetFailed, demoFitRun.take 17 ++ [.umountSrc])
    ∧ (runCmd busyWorld (demoFitRun.take 17) .umountSrc).1 = 32
    ∧ mounts_after busyWorld [] (demoFitRun.take 17 ++ [.umountSrc]) []
      = ["/mnt/sdcloner_src"] := by
  decide

/-! ## C18: a scratch mount that fails -/

theorem used_bytes_step_mount_failed (w : World) (tr : Trace) (i : Nat) (p : String) (sum : Nat)
    (hs : sum < 2 ^ 64)
    (hsup : supported_fs (get_fstype w tr p).1 = true)
    (hmp : no_mountpoint ((runCmdCapture w (tr ++ [.blkidType p]) (.lsblkMountpoint p)).1.map
      cut_at_newline) = true)
    (hfail : (runCmd w (tr ++ [.blkidType p, .lsblkMountpoint p, .sudoMkdirP (scratch_mnt i)])
      (.mountRoQuiet p (scratch_mnt i))).1 ≠ 0) :
    used_bytes_step w tr i p sum
      = (add64 sum (df_value w (tr ++ [.blkidType p, .lsblkMountpoint p,
            .sudoMkdirP (scratch_mnt i), .mountRoQuiet p (scratch_mnt i)]) (scratch_mnt i)),
         tr ++ [.blkidType p, .lsblkMountpoint p, .sudoMkdirP (scratch_mnt i),
           .mountRoQuiet p (scratch_mnt i), .dfUsed (scratch_mnt i)]) := by
  unfold used_bytes_step
  simp only [runCmdCapture_trace, get_fstype_trace, runCmd_trace, List.append_assoc,
    List.cons_append, List.nil_append, hsup, hmp, if_true]
  rw [if_neg hfail, usage_query_eq _ _ _ _ (scratch_mnt_ne i) hs]
  simp

set_option maxRecDepth 100000 in
/-- C18 fails on the code: on a host whose single vfat partition has no
mountpoint and whose read-only scratch mount exits with 1, the estimator still
runs the disk-usage query on the scratch directory `/mnt/sdcloner_src_0` and
adds what it prints, 5000000000, to the total; the partition does not contribute
0. -/
theorem failed_mount_still_counted :
    compute_used_bytes_sum (demoWorld "/dev/sdb1\n" "\n" "5000000000\n" "sudo mount") []
        "/dev/sdb"
      = (5000000000,
        [.lsblkParts "/dev/sdb", .blkidType "/dev/sdb1", .lsblkMountpoint "/dev/sdb1",
         .sudoMkdirP "/mnt/sdcloner_src_0", .mountRoQuiet "/dev/sdb1" "/mnt/sdcloner_src_0",
         .dfUsed "/mnt/sdcloner_src_0"])
    ∧ (runCmd (demoWorld "/dev/sdb1\n" "\n" "5000000000\n" "sudo mount")
        [.lsblkParts "/dev/sdb", .blkidType "/dev/sdb1", .lsblkMountpoint "/dev/sdb1",
         .sudoMkdirP "/mnt/sdcloner_src_0"]
        (.mountRoQuiet "/dev/sdb1" "/mnt/sdcloner_src_0")).1 = 1 := by
  decide

/-! ## C19: what a returned 0 of the Fit Imager means -/

/-- C19 (as amended): when `make_fsaware_image_fit` returns 0, its run is the
partition listing, the used-bytes measurement and all of `fit_commands`, and the
commands whose status the function examines all exited with 0: the image
allocation, the loop attach, the partition-table write, the partition creation,
the formatting, the mount of the source, the mount of the image partition and
the mirror.  (The statuses of the directory creations, the flush, the two
unmounts and the loop detach are not examined.) -/
theorem fit_success_means_checked_steps_ok (w : World) (tr : Trace) (src : String)
    (T cap : Nat) (path : String) (t : Trace)
    (h : make_fsaware_image_fit w tr src T cap = (.ret (0, path), t)) :
    ∃ est loop p1 sp0,
      t = tr ++ [.lsblkParts src] ++ est ++ fit_commands T (image_dir w) path loop p1 src sp0
      ∧ (∀ c ∈ est, c.isEstimator = true)
      ∧ (runCmd w (fit_history tr src est T (image_dir w) path loop p1 sp0 1)
          (.truncateS T path)).1 = 0
      ∧ (runCmd w (fit_history tr src est T (image_dir w) path loop p1 sp0 3)
          (.losetupAttach loop path)).1 = 0
      ∧ (runCmd w (fit_history tr src est T (image_dir w) path loop p1 sp0 4)
          (.partedMklabel loop)).1 = 0
      ∧ (runCmd w (fit_history tr src est T (image_dir w) path loop p1 sp0 5)
          (.partedMkpart loop)).1 = 0
      ∧ (runCmd w (fit_history tr src est T (image_dir w) path loop p1 sp0 7)
          (.mkfsVfat p1)).1 = 0
      ∧ (runCmd w (fit_history tr src est T (image_dir w) path loop p1 sp0 10)
          (.mountSrcRo sp0 "/mnt/sdcloner_src")).1 = 0
      ∧ (runCmd w (fit_history tr src est T (image_dir w) path loop p1 sp0 11)
          (.mountTgt p1 "/mnt/sdcloner_img")).1 = 0
      ∧ (runCmd w (fit_history tr src est T (image_dir w) path loop p1 sp0 12)
          .rsyncMirror).1 = 0 := by
  obtain ⟨est, hest, hk⟩ := compute_used_bytes_sum_trace w (tr ++ [.lsblkParts src]) src
  obtain ⟨-, -, hret⟩ := make_fsaware_image_fit_status w tr src T cap
  rw [hest, h] at hret
  obtain ⟨loop, p1, sp0, h1, h2, s1, s2, s3, s4, s5, s6, s7⟩ := hret (0, path) rfl
  simp only [Prod.mk.injEq] at h2
  obtain ⟨hrs, hpath⟩ := h2
  rw [← hpath] at h1 s1 s2 s3 s4 s5 s6 s7 hrs
  exact ⟨est, loop, p1, sp0, h1, hk, s1, s2, s3, s4, s5, s6, s7, hrs.symm⟩

set_option maxRecDepth 100000 in
/-- C19 (as amended) on a complete run on a host with one mounted vfat partition,
where every command exits with 0. -/
theorem fit_success_means_checked_steps_ok_witness :
    ∃ est loop p1 sp0,
      demoFitRun = [] ++ [.lsblkParts "/dev/sdb"] ++ est
        ++ fit_commands (8 * 2 ^ 30)
          (image_dir (demoWorld "/dev/sdb1\n" "/media/sd\n" "3221225472\n" "")) demoImg
          loop p1 "/dev/sdb" sp0 := by
  obtain ⟨est, loop, p1, sp0, h, -⟩ :=
    fit_success_means_checked_steps_ok
      (demoWorld "/dev/sdb1\n" "/media/sd\n" "3221225472\n" "") [] "/dev/sdb" (8 * 2 ^ 30) 512
      demoImg demoFitRun (by decide)
  exact ⟨est, loop, p1, sp0, h⟩

set_option maxRecDepth 100000 in
/-- C19 as stated fails: on a host where the flush `sync` exits with 1 and every
other command with 0, `make_fsaware_image_fit` returns 0. -/
theorem fit_returns_zero_after_failed_sync :
    make_fsaware_image_fit (demoWorld "/dev/sdb1\n" "/media/sd\n" "3221225472\n" "sync") []
        "/dev/sdb" (8 * 2 ^ 30) 512
      = (.ret (0, demoImg), demoFitRun)
    ∧ (runCmd (demoWorld "/dev/sdb1\n" "/media/sd\n" "3221225472\n" "sync")
        (demoFitRun.take 18) .sync).1 = 1
    ∧ demoFitRun.drop 18
      = [.sync, .umountImg, .umountSrc, .losetupDetach "/dev/loop0"] := by
  decide

/-! ## C20: agreement of the two capacity checks -/

theorem get_blockdev_size_bytes_die (w : World) (dev : String) (d : Die)
    (h : get_blockdev_size_bytes w dev = .died d) : d = .openFailed ∨ d = .ioctlFailed := by
  unfold get_blockdev_size_bytes at h
  split at h <;> simp at h
  · exact Or.inl h.symm
  · exact Or.inr h.symm

/-- C20: if the used-bytes measurement `make_fsaware_image_fit` repeats returns
the value the orchestrator measured, then whenever `sdcloner_clone` calls
`make_fsaware_image_fit`, with the hint or with the destination size as target
`T`, the 64-bit wrapping sum `used + SAFETY_MARGIN_BYTES` is at most `T` in the
Fit Imager's own check as well, and `sdcloner_clone` never ends in the Fit
Imager's capacity `die`. -/
theorem clone_checks_agree (w : World) (tr : Trace) (src : String) (dest : Option String)
    (hint : Nat)
    (hsame : (compute_used_bytes_sum w
        ((compute_used_bytes_sum w tr src).2 ++ [.lsblkParts src]) src).1
      = (compute_used_bytes_sum w tr src).1) :
    (∀ T, add64 (compute_used_bytes_sum w tr src).1 SAFETY_MARGIN_BYTES ≤ T →
        ¬ (T < add64 (compute_used_bytes_sum w
            ((compute_used_bytes_sum w tr src).2 ++ [.lsblkParts src]) src).1
          SAFETY_MARGIN_BYTES)
        ∧ (make_fsaware_image_fit w (compute_used_bytes_sum w tr src).2 src T OUTPATH_CAP).1
            ≠ .died .capacityTooSmall)
    ∧ (sdcloner_clone w tr (some src) dest hint).1 ≠ .died .capacityTooSmall := by
  have key : ∀ T, add64 (compute_used_bytes_sum w tr src).1 SAFETY_MARGIN_BYTES ≤ T →
      ¬ (T < add64 (compute_used_bytes_sum w
          ((compute_used_bytes_sum w tr src).2 ++ [.lsblkParts src]) src).1
        SAFETY_MARGIN_BYTES)
      ∧ (make_fsaware_image_fit w (compute_used_bytes_sum w tr src).2 src T OUTPATH_CAP).1
          ≠ .died .capacityTooSmall := by
    intro T hT
    refine ⟨by rw [hsame]; omega, fun hd => ?_⟩
    rw [fit_capacity_failure_iff, hsame] at hd
    omega
  refine ⟨key, ?_⟩
  have hfit : ∀ T, add64 (compute_used_bytes_sum w tr src).1 SAFETY_MARGIN_BYTES ≤ T →
      ∀ (f : Int × String → Trace → Outcome Int × Trace),
      (∀ r t, (f r t).1 ≠ .died .capacityTooSmall) →
      (match make_fsaware_image_fit w (compute_used_bytes_sum w tr src).2 src T OUTPATH_CAP with
        | (.died d, t) => ((.died d : Outcome Int), t)
        | (.ret r, t) => f r t).1 ≠ .died .capacityTooSmall := by
    intro T hT f hf
    have h2 := (key T hT).2
    rcases hres : make_fsaware_image_fit w (compute_used_bytes_sum w tr src).2 src T
      OUTPATH_CAP with ⟨o, t⟩
    rw [hres] at h2
    cases o with
    | died d =>
      simp only at h2 ⊢
      intro hd
      apply h2
      simp only [Outcome.died.injEq] at hd ⊢
      exact hd
    | ret r => exact hf r t
  unfold sdcloner_clone
  simp only
  by_cases hr : w.readable src = false
  · simp [hr]
  simp only [hr, if_false]
  rcases hS : get_blockdev_size_bytes w src with S | d
  swap
  · rcases get_blockdev_size_bytes_die w src d hS with rfl | rfl <;> simp
  simp only
  by_cases hnd : dest.isNone = true ∨ dest = some ""
  · simp only [hnd, if_true]
    by_cases hh : hint ≠ 0 ∧ hint < S
    · simp only [hh, and_self, if_true, ne_eq, not_false_eq_true]
      by_cases hc : add64 (compute_used_bytes_sum w tr src).1 SAFETY_MARGIN_BYTES ≤ hint
      · simp only [hc, if_true]
        exact hfit hint hc (fun r t => (.ret r.1, t)) (fun r t => by simp)
      · simp [hc]
    · simp [hh]
  · simp only [hnd, if_false]
    rcases hD : get_blockdev_size_bytes w (dest.getD "") with D | d
    swap
    · rcases get_blockdev_size_bytes_die w _ d hD with rfl | rfl <;> simp
    simp only
    by_cases hge : D ≥ S
    · simp only [hge, if_true]
      split_ifs <;> simp
    · simp only [hge, if_false]
      by_cases hc : add64 (compute_used_bytes_sum w tr src).1 SAFETY_MARGIN_BYTES > D
      · simp [hc]
      · simp only [hc, if_false]
        exact hfit D (by omega)
          (fun r t => if r.1 ≠ 0 then (.ret r.1, t)
            else (.ret (burn_image_to_disk w t r.2 (dest.getD "")).1,
              (burn_image_to_disk w t r.2 (dest.getD "")).2))
          (fun r t => by dsimp only; split_ifs <;> simp)

set_option maxRecDepth 100000 in
/-- C20 on scenario A (source 16 GiB, 3 GiB in use, destination 8 GiB): both
measurements give 3 GiB and the call does not end in the capacity `die`. -/
theorem clone_checks_agree_witness :
    (sdcloner_clone (demoWorld "/dev/sdb1\n" "/media/sd\n" "3221225472\n" "") []
        (some "/dev/sdb") (some "/dev/sdc") 0).1 ≠ .died .capacityTooSmall :=
  (clone_checks_agree (demoWorld "/dev/sdb1\n" "/media/sd\n" "3221225472\n" "") []
    "/dev/sdb" (some "/dev/sdc") 0 (by decide)).2

end SDCloner
